import Mathlib

/-!
# Setup container of the lens-delay programs (`lens_delays/src/lc_setup.c`)

A shallow embedding of the functions of `lc_setup.c` that fill the `Setup`
container: `new_setup`, `setup_from_command_line`, `get_setup_params`,
`read_setup_line`, `setup_file`, `setup_delays`, `set_mu_grid`,
`set_tau_grid`, `get_interp_step` and `set_grid_params`.

Modelling conventions.

* `int` members are `Int`; scanned integers that do not fit an `int` are
  outside the model.
* The first part of the development holds the `float` and `double` members as
  exact rationals (`ℚ`) and proves the properties that do not depend on how a
  number is represented: control flow, flags, frames, the keyword table.
  The namespace `Ieee` embeds `new_setup`, `setup_file`, `set_tau_grid` and
  `set_grid_params` once more over IEEE 754 numbers, with rounding, the two
  zeros, the infinities and NaN, for the properties of the values `d2delta`,
  `dtau`, `ntau` and `ninterp`.
* A text line is the list of characters that one `fgets` call delivers.  A
  configuration file is the list of its lines, the operator is the list of
  the lines typed at the prompts.  A prompt that finds no line left does not
  return (`none`): the operator never answers.
* Text is ASCII.  `sscanf` is modelled for the formats the file uses; over
  the rationals on decimal literals, in `Ieee` on all the texts that the
  conversions `%f` and `%lf` of the C library accept.
* Allocation of the strings that hold file names does not fail.
* `printf` and `fprintf` calls have no effect on the container and are left
  out.
-/

namespace LcSetup

/-! ## Constants of the missing headers -/

/-- Modelled from the spec: the tri-state value "no" of `structdef.h` (the
header is not part of the sources); the messages of `setup_file` print it as
`NO (0)`. -/
def NO : Int := 0

/-- Modelled from the spec: the tri-state value "yes" of `structdef.h`. -/
def YES : Int := 1

/-- Modelled from the spec: the tri-state value "not set" of `structdef.h`;
the code tests unset members with `< 0` and stores `-1` for them. -/
def UNSET : Int := -1

/-- Modelled from the spec: dispersion variant D21 (value 1) of `lc_setup.h`. -/
def D21 : Int := 1

/-- Modelled from the spec: dispersion variant D21 for several curves. -/
def D21M : Int := 2

/-- Modelled from the spec: dispersion variant D22. -/
def D22 : Int := 3

/-- Modelled from the spec: dispersion variant of Lovell et al. (value 4). -/
def DLOVELL : Int := 4

/-- Modelled from the spec: smoothing choice "not set" of `lc_setup.h`. -/
def SMUNSET : Int := -1

/-- Modelled from the spec: smoothing choice "no smoothing". -/
def NOSMOOTH : Int := 0

/-- Modelled from the spec: smoothing choice "linear interpolation only". -/
def INTONLY : Int := 1

/-- Modelled from the spec: smoothing choice "smooth and interpolate". -/
def SMONLY : Int := 2

/-- Modelled from the spec: smoothing choice "smooth in place". -/
def SMINPLACE : Int := 3

/-- Modelled from the spec: smoothing kind boxcar of `lc_setup.h`; the kinds
are numbered in the order `get_smooth_fn` lists them, from 0. -/
def SMBOXCAR : Int := 0

/-- Modelled from the spec: smoothing kind median. -/
def SMMEDIAN : Int := 1

/-- Modelled from the spec: smoothing kind triangle. -/
def SMTRIANGLE : Int := 2

/-- Modelled from the spec: smoothing kind gaussian. -/
def SMGAUSS : Int := 3

/-- Modelled from the spec: smoothing kind variable-width boxcar. -/
def SMVARBOX : Int := 4

/-- Modelled from the spec: smoothing kind variable-width triangle. -/
def SMVARTRI : Int := 5

/-! ## Data model -/

/-- A line of text as `fgets` delivers it. -/
abbrev Line := List Char

/-- A four-slot array (`mu0[4]`, `tau0[4]`). -/
structure Arr4 where
  x0 : ℚ
  x1 : ℚ
  x2 : ℚ
  x3 : ℚ
deriving DecidableEq

/-- Element `a[i]`; outside the four slots the read yields `junk`. -/
def Arr4.get (a : Arr4) (i : Int) (junk : ℚ) : ℚ :=
  if i = 0 then a.x0 else if i = 1 then a.x1 else if i = 2 then a.x2
  else if i = 3 then a.x3 else junk

/-- Assignment `a[i] = v`; a write outside the four slots is dropped. -/
def Arr4.set (a : Arr4) (i : Int) (v : ℚ) : Arr4 :=
  if i = 0 then { a with x0 := v } else if i = 1 then { a with x1 := v }
  else if i = 2 then { a with x2 := v } else if i = 3 then { a with x3 := v }
  else a

/-- Element `a[i]` of an array held as a list; outside the list the read
yields `junk`. -/
def arr_get {α : Type} (a : List α) (i : Int) (junk : α) : α :=
  if 0 ≤ i then a.getD i.toNat junk else junk

/-- Modelled from the spec: one sample of a light curve (`Fluxrec` of
`structdef.h`), its day and its flux. -/
structure Fluxrec where
  day : ℚ
  flux : ℚ
deriving DecidableEq

/-- The `Setup` container, with the members `lc_setup.c` uses (the member
`doprint`, set once to a header constant and never read here, is left out). -/
structure Setup where
  nfiles : Int
  ncurves : Int
  infile : List (Option Line)
  setupfile : Option Line
  outfile : Option Line
  index : List Int
  npoints : List Int
  startday : List ℚ
  endday : List ℚ
  dochi : Int
  doxcorr : Int
  doacorr : Int
  dodisp : Int
  dodcf : Int
  docurvefit : Int
  dispchoice : Int
  d2delta : ℚ
  dooverlap : Int
  dosmooth : Int
  smtype : Int
  smwidth : ℚ
  ninterp : Int
  intstep : ℚ
  intstart : ℚ
  askstart : Int
  nvar : Int
  flagbad : Int
  meanchoice : Int
  mu0 : Arr4
  dmu : ℚ
  nmu : Int
  tauset : Int
  tau0 : Arr4
  dtau : ℚ
  ntau : Int
  achifile : Line
  cchifile : Line
  dchifile : Line
  chilog : Line
  xclog : Line
  root : Line
deriving DecidableEq

/-- Function `new_setup`: `mem` is the block `malloc` returns (`none` when
it fails, otherwise the block with its arbitrary content); the members
listed are initialised, the others keep what the block held. -/
def new_setup (mem : Option Setup) : Option Setup :=
  match mem with
  | none => none
  | some newsetup =>
    some { newsetup with
      nfiles := -1
      outfile := none
      setupfile := none
      dochi := UNSET
      doxcorr := UNSET
      doacorr := NO
      dodisp := UNSET
      dodcf := NO
      docurvefit := UNSET
      dispchoice := UNSET
      d2delta := -1
      dosmooth := SMUNSET
      smtype := -1
      smwidth := 0
      ninterp := 0
      intstep := 0
      intstart := -1
      askstart := YES
      nvar := 0
      flagbad := UNSET
      meanchoice := UNSET
      mu0 := ⟨0, 0, 0, 0⟩
      dmu := 5 / 10000
      nmu := 0
      tauset := UNSET
      tau0 := ⟨0, 0, 0, 0⟩
      dtau := 0
      ntau := 0
      achifile := "chiba.dat".toList
      cchifile := "chibc.dat".toList
      dchifile := "chibd.dat".toList
      chilog := "stdout".toList
      xclog := "stdout".toList
      root := "mc_g".toList }

/-! ## `sscanf` on the formats of the file -/

/-- White space as `isspace` sees it. -/
def isspace (c : Char) : Bool :=
  c.toNat = 32 || (9 ≤ c.toNat && c.toNat ≤ 13)

/-- Decimal digit. -/
def isdigit (c : Char) : Bool :=
  48 ≤ c.toNat && c.toNat ≤ 57

/-- Leading white space is skipped. -/
def skip_space : Line → Line
  | [] => []
  | c :: cs => if isspace c then skip_space cs else c :: cs

/-- The longest run of characters that are not white space, and the rest. -/
def scan_token : Line → Line × Line
  | [] => ([], [])
  | c :: cs =>
    if isspace c then ([], c :: cs)
    else ((c :: (scan_token cs).1), (scan_token cs).2)

/-- The longest run of decimal digits (their values), and the rest. -/
def scan_digits : Line → List Nat × Line
  | [] => ([], [])
  | c :: cs =>
    if isdigit c then (((c.toNat - 48) :: (scan_digits cs).1), (scan_digits cs).2)
    else ([], c :: cs)

/-- Value of a run of decimal digits. -/
def digits_val (ds : List Nat) : Nat :=
  ds.foldl (fun acc d => 10 * acc + d) 0

/-- Conversion `%s`: white space is skipped, then a non-empty token is read. -/
def scan_s (l : Line) : Option (Line × Line) :=
  match scan_token (skip_space l) with
  | ([], _) => none
  | (tok, rest) => some (tok, rest)

/-- An unsigned run of at least one digit. -/
def scan_nat (l : Line) : Option (Nat × Line) :=
  match scan_digits l with
  | ([], _) => none
  | (ds, rest) => some (digits_val ds, rest)

/-- Conversion `%d`: white space, an optional sign, at least one digit. -/
def scan_d (l : Line) : Option (Int × Line) :=
  match skip_space l with
  | '-' :: cs => (scan_nat cs).map (fun r => (-(r.1 : Int), r.2))
  | '+' :: cs => (scan_nat cs).map (fun r => ((r.1 : Int), r.2))
  | cs => (scan_nat cs).map (fun r => ((r.1 : Int), r.2))

/-- The exponent part of a decimal literal: absent (exponent 0), or `e`/`E`
with an optional sign and at least one digit; `e` without digits is a
matching failure. -/
def scan_exp (l : Line) : Option (Int × Line) :=
  match l with
  | c :: cs =>
    if c = 'e' ∨ c = 'E' then
      match cs with
      | '-' :: ds => (scan_nat ds).map (fun r => (-(r.1 : Int), r.2))
      | '+' :: ds => (scan_nat ds).map (fun r => ((r.1 : Int), r.2))
      | ds => (scan_nat ds).map (fun r => ((r.1 : Int), r.2))
    else some (0, c :: cs)
  | [] => some (0, [])

/-- An unsigned decimal literal: digits, an optional point with digits (at
least one digit in all), an optional exponent. -/
def scan_ufloat (l : Line) : Option (ℚ × Line) :=
  let ip := scan_digits l
  let fp : List Nat × Line :=
    match ip.2 with
    | '.' :: cs => scan_digits cs
    | cs => ([], cs)
  if ip.1 = [] ∧ fp.1 = [] then none
  else
    (scan_exp fp.2).map (fun e =>
      ((digits_val (ip.1 ++ fp.1) : ℚ) * (10 : ℚ) ^ (e.1 - (fp.1.length : Int)), e.2))

/-- Conversions `%f` and `%lf`: white space, an optional sign, a decimal
literal. -/
def scan_f (l : Line) : Option (ℚ × Line) :=
  match skip_space l with
  | '-' :: cs => (scan_ufloat cs).map (fun r => (-r.1, r.2))
  | '+' :: cs => scan_ufloat cs
  | cs => scan_ufloat cs

/-- Call `sscanf(line,"%s",keyword)`: the token when the call returns 1. -/
def sscanf_s (line : Line) : Option Line :=
  (scan_s line).map (fun r => r.1)

/-- Call `sscanf(line,"%s %d",keyword,&x)`: the integer stored in `x` when
the call returns 2; otherwise `x` is not written. -/
def sscanf_s_d (line : Line) : Option Int :=
  (scan_s line).bind (fun r => (scan_d r.2).map (fun v => v.1))

/-- Call `sscanf(line,"%s %f",keyword,&x)`: the number stored in `x` when the
call returns 2; otherwise `x` is not written. -/
def sscanf_s_f (line : Line) : Option ℚ :=
  (scan_s line).bind (fun r => (scan_f r.2).map (fun v => v.1))

/-- Call `sscanf(line,"%s %s",keyword,x)`: the second token when the call
returns 2. -/
def sscanf_s_s (line : Line) : Option Line :=
  (scan_s line).bind (fun r => (scan_s r.2).map (fun v => v.1))

/-- Up to `n` numbers scanned one after the other with `%f`. -/
def scan_floats : Nat → Line → List ℚ
  | 0, _ => []
  | n + 1, l =>
    match scan_f l with
    | none => []
    | some (v, rest) => v :: scan_floats n rest

/-- Call `sscanf(line,"%s %f %f %f %f",keyword,&a[0],&a[1],&a[2],&a[3])`: the
numbers stored, in order; the call returns 5 when there are four of them. -/
def sscanf_s_4f (line : Line) : List ℚ :=
  match scan_s line with
  | none => []
  | some (_, rest) => scan_floats 4 rest

/-- Call `sscanf(line,"%d",&x)`: the integer stored when the call returns 1. -/
def sscanf_d (line : Line) : Option Int :=
  (scan_d line).map (fun v => v.1)

/-- Call `sscanf(line,"%f",&x)`: the number stored when the call returns 1. -/
def sscanf_f (line : Line) : Option ℚ :=
  (scan_f line).map (fun v => v.1)

/-- The character `line[0]`, as its code (0 at the end of the string). -/
def line0 (line : Line) : Nat :=
  match line with
  | [] => 0
  | c :: _ => c.toNat

/-! ## The configuration file: `read_setup_line` and `setup_file` -/

/-- Keyword codes that `read_setup_line` returns (an enumeration of the
missing header `lc_setup.h`). -/
inductive Keyword where
  | SETUPERR | DEFAULT
  | DOCHI | DOXCORR | DOACORR | DODISP | DODCF | DOCURVEFIT
  | DISPCHOICE | D2DELTA | DOOVERLAP
  | OUTFILE | ACHIFILE | CCHIFILE | DCHIFILE
  | MU0 | NMU | TAU0 | DTAU | NTAU
  | DOSMOOTH | BOXCAR | MEDIAN | VARBOX | VARTRI | TRIANGLE | GAUSS
  | NINTERP | INTSTEP | INTSTART | ASKSTART
  | CHILOG | XCLOG | FLAGBAD | MEANCHOICE | ROOT
deriving DecidableEq

open Keyword

/-- The test `strcmp(keyword,lower) == 0 || strcmp(keyword,upper) == 0`. -/
def kw_is (keyword : Line) (lower upper : String) : Bool :=
  keyword = lower.toList || keyword = upper.toList

/-- Function `read_setup_line`: the code of the keyword that starts the line. -/
def read_setup_line (line : Line) : Keyword :=
  match sscanf_s line with
  | none => SETUPERR
  | some keyword =>
    if kw_is keyword "dochi" "DOCHI" then DOCHI
    else if kw_is keyword "doxcorr" "DOXCORR" then DOXCORR
    else if kw_is keyword "doacorr" "DOACORR" then DOACORR
    else if kw_is keyword "dodisp" "DODISP" then DODISP
    else if kw_is keyword "dodcf" "DODCF" then DODCF
    else if kw_is keyword "docurvefit" "DOCURVEFIT" then DOCURVEFIT
    else if kw_is keyword "dispchoice" "DISPCHOICE" then DISPCHOICE
    else if kw_is keyword "d2delta" "D2DELTA" then D2DELTA
    else if kw_is keyword "outfile" "OUTFILE" then OUTFILE
    else if kw_is keyword "achifile" "ACHIFILE" then ACHIFILE
    else if kw_is keyword "cchifile" "CCHIFILE" then CCHIFILE
    else if kw_is keyword "dchifile" "DCHIFILE" then DCHIFILE
    else if kw_is keyword "boxcar" "BOXCAR" then BOXCAR
    else if kw_is keyword "median" "MEDIAN" then MEDIAN
    else if kw_is keyword "varbox" "VARBOX" then VARBOX
    else if kw_is keyword "vartri" "VARTRI" then VARTRI
    else if kw_is keyword "triangle" "TRIANGLE" then TRIANGLE
    else if kw_is keyword "gauss" "GAUSS" then GAUSS
    else if kw_is keyword "chilog" "CHILOG" then CHILOG
    else if kw_is keyword "xclog" "XCLOG" then XCLOG
    else if kw_is keyword "dooverlap" "DOOVERLAP" then DOOVERLAP
    else if kw_is keyword "mu0" "MU0" then MU0
    else if kw_is keyword "nmu" "NMU" then NMU
    else if kw_is keyword "tau0" "TAU0" then TAU0
    else if kw_is keyword "dtau" "DTAU" then DTAU
    else if kw_is keyword "ntau" "NTAU" then NTAU
    else if kw_is keyword "ninterp" "NINTERP" then NINTERP
    else if kw_is keyword "intstep" "INTSTEP" then INTSTEP
    else if kw_is keyword "intstart" "INTSTART" then INTSTART
    else if kw_is keyword "askstart" "ASKSTART" then ASKSTART
    else if kw_is keyword "flagbad" "FLAGBAD" then FLAGBAD
    else if kw_is keyword "meanchoice" "MEANCHOICE" then MEANCHOICE
    else if kw_is keyword "dosmooth" "DOSMOOTH" then DOSMOOTH
    else if kw_is keyword "root" "ROOT" then ROOT
    else DEFAULT

/-- The statement `if(sscanf(line,"%s %d",keyword,&x) != 2 && bad(x)) x = fb;`
as the value `x` has afterwards: a scanned integer is stored and kept,
whatever it is; when nothing is scanned the old `x` is tested. -/
def int_and (line : Line) (x : Int) (bad : Int → Bool) (fb : Int) : Int :=
  match sscanf_s_d line with
  | some v => v
  | none => if bad x then fb else x

/-- The statement `if(sscanf(line,"%s %d",keyword,&x) != 2 || bad(x)) x = fb;`
as the value `x` has afterwards. -/
def int_or (line : Line) (bad : Int → Bool) (fb : Int) : Int :=
  match sscanf_s_d line with
  | some v => if bad v then fb else v
  | none => fb

/-- The statement `if(sscanf(line,"%s %f",keyword,&x) != 2 && bad(x)) x = fb;`
as the value `x` has afterwards. -/
def float_and (line : Line) (x : ℚ) (bad : ℚ → Bool) (fb : ℚ) : ℚ :=
  match sscanf_s_f line with
  | some v => v
  | none => if bad x then fb else x

/-- The statement `if(sscanf(line,"%s %f",keyword,&x) != 2 || bad(x)) x = fb;`
as the value `x` has afterwards. -/
def float_or (line : Line) (bad : ℚ → Bool) (fb : ℚ) : ℚ :=
  match sscanf_s_f line with
  | some v => if bad v then fb else v
  | none => fb

/-- The statement `if(sscanf(line,"%s %s",keyword,x) != 2) sprintf(x,fb);` as
the value the string `x` has afterwards. -/
def string_or (line : Line) (fb : Line) : Line :=
  match sscanf_s_s line with
  | some v => v
  | none => fb

/-- The four-number lines `mu0` and `tau0`: the array when the call returns 5;
otherwise the slots already written are overwritten and all four are 0. -/
def four_floats (line : Line) : Option Arr4 :=
  match sscanf_s_4f line with
  | [a, b, c, d] => some ⟨a, b, c, d⟩
  | _ => none

/-- The `switch` of `setup_file` on one line that passed the line filter: the
container afterwards and the flag `no_error`. -/
def setup_file_case (setup : Setup) (line : Line) : Setup × Bool :=
  match read_setup_line line with
  | SETUPERR => (setup, false)
  | DOCHI =>
    ({ setup with dochi := int_and line setup.dochi (fun x => x < 0) NO }, true)
  | DOXCORR =>
    ({ setup with doxcorr := int_and line setup.doxcorr (fun x => x < 0) NO }, true)
  | DOACORR =>
    ({ setup with doacorr := int_and line setup.doacorr (fun x => x < 0) NO }, true)
  | DODISP =>
    ({ setup with dodisp := int_and line setup.dodisp (fun x => x < 0) NO }, true)
  | DODCF =>
    ({ setup with dodcf := int_and line setup.dodcf (fun x => x < 0) NO }, true)
  | DOCURVEFIT =>
    ({ setup with
       docurvefit := int_and line setup.docurvefit (fun x => x < 0) NO }, true)
  | DISPCHOICE =>
    ({ setup with
       dispchoice :=
         int_and line setup.dispchoice (fun x => x < D21 || x > DLOVELL) 1 }, true)
  | D2DELTA =>
    ({ setup with d2delta := float_or line (fun x => x < 0) 5 }, true)
  | DOOVERLAP =>
    ({ setup with dooverlap := int_or line (fun x => x < 0) NO }, true)
  | OUTFILE =>
    ({ setup with outfile := sscanf_s_s line }, true)
  | ACHIFILE =>
    ({ setup with achifile := string_or line "chiba.dat".toList }, true)
  | CCHIFILE =>
    ({ setup with cchifile := string_or line "chibc.dat".toList }, true)
  | DCHIFILE =>
    ({ setup with dchifile := string_or line "chibd.dat".toList }, true)
  | MU0 =>
    match four_floats line with
    | some a => ({ setup with mu0 := a }, true)
    | none => ({ setup with mu0 := ⟨0, 0, 0, 0⟩ }, true)
  | NMU =>
    ({ setup with nmu := int_or line (fun x => x < 0) 0 }, true)
  | TAU0 =>
    match four_floats line with
    | some a => ({ setup with tau0 := a, tauset := YES }, true)
    | none => ({ setup with tau0 := ⟨0, 0, 0, 0⟩ }, true)
  | DTAU =>
    ({ setup with dtau := float_or line (fun x => x < 0) 0 }, true)
  | NTAU =>
    ({ setup with ntau := int_or line (fun x => x < 0) 0 }, true)
  | DOSMOOTH =>
    ({ setup with
       dosmooth := int_and line setup.dosmooth (fun x => x > SMINPLACE) SMUNSET }, true)
  | BOXCAR =>
    ({ setup with
       smwidth := float_and line setup.smwidth (fun x => x ≤ 0 || x > 100) (-1)
       smtype := SMBOXCAR }, true)
  | MEDIAN =>
    ({ setup with
       smwidth := float_and line setup.smwidth (fun x => x ≤ 0 || x > 100) (-1)
       smtype := SMMEDIAN }, true)
  | VARBOX =>
    ({ setup with
       nvar := int_and line setup.nvar (fun x => x ≤ 0 || x > 30) (-1)
       smtype := SMVARBOX }, true)
  | VARTRI =>
    ({ setup with
       nvar := int_and line setup.nvar (fun x => x ≤ 0 || x > 30) (-1)
       smtype := SMVARTRI }, true)
  | TRIANGLE =>
    ({ setup with
       smwidth := float_and line setup.smwidth (fun x => x ≤ 0 || x > 100) (-1)
       smtype := SMTRIANGLE }, true)
  | GAUSS =>
    ({ setup with
       smwidth := float_and line setup.smwidth (fun x => x ≤ 0 || x > 100) (-1)
       smtype := SMGAUSS }, true)
  | NINTERP =>
    ({ setup with ninterp := (sscanf_s_d line).getD setup.ninterp }, true)
  | INTSTEP =>
    ({ setup with
       intstep := float_and line setup.intstep (fun x => x ≤ 0 || x > 30) (-1) }, true)
  | INTSTART =>
    ({ setup with
       intstart :=
         float_and line setup.intstart (fun _ => setup.intstep ≤ 0) (-1) }, true)
  | ASKSTART =>
    ({ setup with askstart := (sscanf_s_d line).getD YES }, true)
  | CHILOG =>
    ({ setup with chilog := string_or line setup.chilog }, true)
  | XCLOG =>
    ({ setup with xclog := string_or line setup.xclog }, true)
  | FLAGBAD =>
    ({ setup with flagbad := (sscanf_s_d line).getD (-1) }, true)
  | MEANCHOICE =>
    ({ setup with meanchoice := int_or line (fun x => x < 0 || x > 2) UNSET }, true)
  | ROOT =>
    ({ setup with root := string_or line "mc_g".toList }, true)
  | DEFAULT => (setup, true)

/-- The line filter `line[0] >= 32 && line[0] != '#'` of `setup_file`. -/
def data_line (line : Line) : Bool :=
  32 ≤ line0 line && line0 line ≠ 35

/-- The reading loop `while(fgets(line,MAXC,ifp) != NULL && no_error)` of
`setup_file`: the container afterwards and the flag `no_error`. -/
def setup_file_loop : Setup → List Line → Setup × Bool
  | setup, [] => (setup, true)
  | setup, line :: rest =>
    if data_line line then
      if (setup_file_case setup line).2 then
        setup_file_loop (setup_file_case setup line).1 rest
      else ((setup_file_case setup line).1, false)
    else setup_file_loop setup rest

/-- Function `setup_file`: `file` is what `open_readfile(inname)` finds,
`none` when the file cannot be opened, otherwise its lines.  The result is the
container afterwards and the return value (0 success, 1 error). -/
def setup_file (setup : Setup) (file : Option (List Line)) : Setup × Int :=
  match file with
  | none => (setup, 1)
  | some lines =>
    ((setup_file_loop setup lines).1, if (setup_file_loop setup lines).2 then 0 else 1)

/-! ## The operator: `setup_delays` -/

/-- A method-flag block of `setup_delays`,
`if(flag == UNSET) { flag = NO; fgets(line,MAXC,stdin); if(line[0] == 'y' ||
line[0] == 'Y') flag = YES; }`: the flag afterwards and the responses left. -/
def ask_flag (flag : Int) (inp : List Line) : Option (Int × List Line) :=
  if flag = UNSET then
    match inp with
    | [] => none
    | line :: rest =>
      some (if line0 line = 'y'.toNat ∨ line0 line = 'Y'.toNat then YES else NO, rest)
  else some (flag, inp)

/-- The loop `while(sscanf(line,"%d",&x) != 1 || bad(x)) fgets(line,MAXC,stdin);`
run on the line just read and the responses that follow: the value `x` that
ends the loop and the responses left. -/
def retry_d (bad : Int → Bool) : List Line → Option (Int × List Line)
  | [] => none
  | line :: rest =>
    match sscanf_d line with
    | some v => if bad v then retry_d bad rest else some (v, rest)
    | none => retry_d bad rest

/-- The loop `while(sscanf(line,"%f",&x) != 1 || bad(x)) fgets(line,MAXC,stdin);`
run on the line just read and the responses that follow. -/
def retry_f (bad : ℚ → Bool) : List Line → Option (ℚ × List Line)
  | [] => none
  | line :: rest =>
    match sscanf_f line with
    | some v => if bad v then retry_f bad rest else some (v, rest)
    | none => retry_f bad rest

/-- The loop `while(sscanf(line,"%s",x) != 1) fgets(line,MAXC,stdin);` run on
the line just read and the responses that follow. -/
def retry_s : List Line → Option (Line × List Line)
  | [] => none
  | line :: rest =>
    match sscanf_s line with
    | some v => some (v, rest)
    | none => retry_s rest

/-- The block of `setup_delays` that chooses the dispersion method. -/
def ask_dispchoice (setup : Setup) (inp : List Line) : Option (Setup × List Line) :=
  if setup.dodisp ≠ 0 ∧ setup.dispchoice = UNSET then
    match inp with
    | [] => none
    | line :: rest =>
      if 32 ≤ line0 line then
        (retry_d (fun x => x < D21 || x > DLOVELL) (line :: rest)).map
          (fun r => ({ setup with dispchoice := r.1 }, r.2))
      else some ({ setup with dispchoice := D21 }, rest)
  else some (setup, inp)

/-- The block of `setup_delays` that sets the parameter `d2delta`. -/
def ask_d2delta (setup : Setup) (inp : List Line) : Option (Setup × List Line) :=
  if setup.d2delta < 0 ∧ (setup.dispchoice = D22 ∨ setup.dispchoice = DLOVELL) then
    match inp with
    | [] => none
    | line :: rest =>
      if 32 ≤ line0 line then
        (retry_f (fun x => x < 0) (line :: rest)).map
          (fun r => ({ setup with d2delta := r.1 }, r.2))
      else some ({ setup with d2delta := 5 }, rest)
  else some (setup, inp)

/-- A log-file block of `setup_delays`, asked when the owning method is
chosen and the name is still `stdout`: the name afterwards and the responses
left. -/
def ask_log (doit : Int) (name : Line) (inp : List Line) : Option (Line × List Line) :=
  if doit ≠ 0 ∧ name = "stdout".toList then
    match inp with
    | [] => none
    | line :: rest =>
      if line0 line ≠ 10 then retry_s (line :: rest)
      else some (name, rest)
  else some (name, inp)

/-- The six method-flag blocks of `setup_delays`, in the order of the source. -/
def ask_flags (setup : Setup) (inp : List Line) : Option (Setup × List Line) :=
  (ask_flag setup.dochi inp).bind fun r1 =>
  (ask_flag setup.doxcorr r1.2).bind fun r2 =>
  (ask_flag setup.doacorr r2.2).bind fun r3 =>
  (ask_flag setup.dodisp r3.2).bind fun r4 =>
  (ask_flag setup.dodcf r4.2).bind fun r5 =>
  (ask_flag setup.docurvefit r5.2).bind fun r6 =>
  some ({ setup with
          dochi := r1.1, doxcorr := r2.1, doacorr := r3.1
          dodisp := r4.1, dodcf := r5.1, docurvefit := r6.1 }, r6.2)

/-- The statement `if(setup->dochi || setup->doxcorr || setup->doacorr)
dointerpolate = YES; else setup->dosmooth = NOSMOOTH;` of `setup_delays`. -/
def smooth_gate (setup : Setup) : Setup :=
  if setup.dochi ≠ 0 ∨ setup.doxcorr ≠ 0 ∨ setup.doacorr ≠ 0 then setup
  else { setup with dosmooth := NOSMOOTH }

/-- The two log-file blocks of `setup_delays`. -/
def ask_logs (setup : Setup) (inp : List Line) : Option (Setup × List Line) :=
  (ask_log setup.dochi setup.chilog inp).bind fun r1 =>
  (ask_log setup.doxcorr setup.xclog r1.2).bind fun r2 =>
  some ({ setup with chilog := r1.1, xclog := r2.1 }, r2.2)

/-- Function `setup_delays`, on the responses `inp` of the operator: the
container afterwards and the responses left (the function returns 0 whenever
it returns). -/
def setup_delays (setup : Setup) (inp : List Line) : Option (Setup × List Line) :=
  (ask_flags setup inp).bind fun r1 =>
  (ask_dispchoice (smooth_gate r1.1) r1.2).bind fun r2 =>
  (ask_d2delta r2.1 r2.2).bind fun r3 =>
  ask_logs r3.1 r3.2

/-! ## The search grids: `set_mu_grid` and `set_tau_grid` -/

/-- The day `(lc[k]+j)->day` of sample `j` of curve `k`; a read outside the
curves yields day 0. -/
def lc_day (lc : List (List Fluxrec)) (k j : Int) : ℚ :=
  (arr_get (arr_get lc k []) j ⟨0, 0⟩).day

/-- The loop of `set_mu_grid` that computes the means over the inner half of
every curve `i` of `is`: the array `mean` afterwards and the flag `no_error`.
`calc_mean_dt curve n old startday endday dt` stands for the missing function
of `lc_funcs.c` and gives its return value and the value it leaves in its
output slot, which held `old`. -/
def mu_means (calc_mean_dt : List Fluxrec → Int → ℚ → ℚ → ℚ → ℚ → Int × ℚ)
    (lc : List (List Fluxrec)) (npoints : List Int) :
    List Nat → List ℚ × Bool → List ℚ × Bool
  | [], st => st
  | i :: is, st =>
    let n := arr_get npoints i 0
    let startindex := Int.tdiv n 4
    let endindex := Int.tdiv (3 * n) 4
    let startday := lc_day lc i (startindex - 1)
    let endday := lc_day lc i (endindex - 1)
    let r := calc_mean_dt (arr_get lc i []) n (arr_get st.1 i 0) startday endday 0
    mu_means calc_mean_dt lc npoints is (st.1.set i r.2, if r.1 ≠ 0 then false else st.2)

/-- The loop `setup->mu0[i] = mean[i]/mean[0]` of `set_mu_grid` over the
curves `is` (a quotient by 0 is 0 here). -/
def mu_ratios (mean : List ℚ) : List Nat → Arr4 → Arr4
  | [], mu0 => mu0
  | i :: is, mu0 =>
    mu_ratios mean is (mu0.set i (arr_get mean i 0 / arr_get mean 0 0))

/-- Function `set_mu_grid`.  `NFLUXSTEP` is the constant of the missing header,
`mean` the block that `new_array(setup->ncurves,1)` returns (`none` when it
fails).  The result is the container afterwards and the return value. -/
def set_mu_grid (NFLUXSTEP : Int)
    (calc_mean_dt : List Fluxrec → Int → ℚ → ℚ → ℚ → ℚ → Int × ℚ)
    (mean : Option (List ℚ)) (lc : List (List Fluxrec)) (npoints : List Int)
    (setup : Setup) : Setup × Int :=
  let setup1 : Setup := if setup.nmu = 0 then { setup with nmu := NFLUXSTEP } else setup
  if setup1.mu0.get 0 0 > 0 then (setup1, 0)
  else
    match mean with
    | none => (setup1, 1)
    | some mean0 =>
      let curves := List.range setup1.ncurves.toNat
      let m := mu_means calc_mean_dt lc npoints curves (mean0, true)
      ({ setup1 with mu0 := mu_ratios m.1 curves setup1.mu0 }, 0)

/-- The first loop of `set_tau_grid` over the curves `is`: the value the
local `ttotal` holds afterwards, the day-span of the curve handled last. -/
def tau_span (lc : List (List Fluxrec)) (setup : Setup) : List Nat → ℚ → ℚ
  | [], ttotal => ttotal
  | i :: is, _ =>
    let k := arr_get setup.index i 0
    let startday := lc_day lc k 0
    let endday := lc_day lc k (arr_get setup.npoints k 0 - 1)
    tau_span lc setup is (endday - startday)

/-- The loop of `set_tau_grid` that asks for `tau0[i]` of every curve `i` of
`is`; the number scanned (with `%f`) is stored in `tau0[i]` as it is. -/
def ask_tau0 : List Nat → Setup → List Line → Option (Setup × List Line)
  | [], setup, inp => some (setup, inp)
  | _ :: _, _, [] => none
  | i :: is, setup, line :: rest =>
    if line0 line ≠ 10 then
      match retry_f (fun _ => false) (line :: rest) with
      | none => none
      | some r => ask_tau0 is { setup with tau0 := setup.tau0.set i r.1 } r.2
    else ask_tau0 is setup rest

/-- The part of `set_tau_grid` on `tau0`: echoed when `tauset == YES`, asked
for otherwise. -/
def tau_seed (setup : Setup) (inp : List Line) : Option (Setup × List Line) :=
  if setup.tauset = YES then some (setup, inp)
  else ask_tau0 (List.range setup.ncurves.toNat) setup inp

/-- The block of `set_tau_grid` that gets the step size `dtau`. -/
def ask_dtau (setup : Setup) (inp : List Line) : Option (Setup × List Line) :=
  if setup.dtau = 0 then
    match inp with
    | [] => none
    | line :: rest =>
      if line0 line ≠ 10 then
        (retry_f (fun x => x ≤ 0) (line :: rest)).map
          (fun r => ({ setup with dtau := r.1 }, r.2))
      else some ({ setup with dtau := 1 }, rest)
  else some (setup, inp)

/-- The default `floor(ttotal / (4.0 * setup->dtau))` of `set_tau_grid`. -/
def ntau_default (ttotal dtau : ℚ) : Int :=
  ⌊ttotal / (4 * dtau)⌋

/-- The block of `set_tau_grid` that gets the number of steps `ntau` (the
local `no_error` is 1 throughout). -/
def ask_ntau (ttotal : ℚ) (setup : Setup) (inp : List Line) :
    Option (Setup × List Line) :=
  if setup.ntau = 0 then
    match inp with
    | [] => none
    | line :: rest =>
      if line0 line ≠ 10 then
        (retry_d (fun x => x ≤ 0) (line :: rest)).map
          (fun r => ({ setup with ntau := r.1 }, r.2))
      else some ({ setup with ntau := ntau_default ttotal setup.dtau }, rest)
  else some (setup, inp)

/-- Function `set_tau_grid`, on the responses `inp` of the operator; `junk`
is what the uninitialised local `ttotal` holds on entry.  The result is the
container afterwards and the responses left (the function returns 0
whenever it returns). -/
def set_tau_grid (junk : ℚ) (lc : List (List Fluxrec)) (setup : Setup)
    (inp : List Line) : Option (Setup × List Line) :=
  (tau_seed setup inp).bind fun r1 =>
  (ask_dtau r1.1 r1.2).bind fun r2 =>
  ask_ntau (tau_span lc setup (List.range setup.ncurves.toNat) junk) r2.1 r2.2

/-! ## Definitions used to state the properties -/

/-- A block of memory with every member zero or empty, from which sample
containers are built. -/
def zero_block : Setup :=
  { nfiles := 0, ncurves := 0, infile := [], setupfile := none, outfile := none
    index := [], npoints := [], startday := [], endday := []
    dochi := 0, doxcorr := 0, doacorr := 0, dodisp := 0, dodcf := 0, docurvefit := 0
    dispchoice := 0, d2delta := 0, dooverlap := 0, dosmooth := 0, smtype := 0
    smwidth := 0, ninterp := 0, intstep := 0, intstart := 0, askstart := 0
    nvar := 0, flagbad := 0, meanchoice := 0, mu0 := ⟨0, 0, 0, 0⟩, dmu := 0
    nmu := 0, tauset := 0, tau0 := ⟨0, 0, 0, 0⟩, dtau := 0, ntau := 0
    achifile := [], cchifile := [], dchifile := [], chilog := [], xclog := []
    root := [] }

/-- The container `new_setup` makes of `zero_block`. -/
def fresh_setup : Setup :=
  (new_setup (some zero_block)).getD zero_block

/-- The answer of an operator who accepts a default: the empty line. -/
def empty_line : Line := "\n".toList

/-- Sample file for C3: `dochi 2` and `dosmooth 2`. -/
def C3_file : List Line := ["dochi 2\n".toList, "dosmooth 2\n".toList]

/-- Sample file for C4: the line `dochi -1`. -/
def C4_file : List Line := ["dochi -1\n".toList]

/-- Sample curves: two curves of two samples each, on days 0 and 3. -/
def three_day_curves : List (List Fluxrec) :=
  [[⟨0, 1⟩, ⟨3, 1⟩], [⟨0, 1⟩, ⟨3, 1⟩]]

/-- Sample container: a fresh container that holds two curves of two
samples each. -/
def two_curve_setup : Setup :=
  { fresh_setup with ncurves := 2, index := [0, 1], npoints := [2, 2] }

/-- Sample curves of 101 daily samples, days 0 to 100. -/
def daily_curve : List Fluxrec :=
  (List.range 101).map (fun d => ⟨(d : ℚ), 1⟩)

/-- Sample container for C10: a fresh container whose file line
`mu0 1 2 0 0` set the flux ratios. -/
def C10_setup : Setup :=
  { (setup_file fresh_setup (some ["mu0 1 2 0 0\n".toList])).1 with ncurves := 2 }

/-- Sample stand-in for `calc_mean_dt` in C10: it fails and stores 7. -/
def C10_calc_mean_dt (_ : List Fluxrec) (_ : Int) (_ _ _ _ : ℚ) : Int × ℚ := (1, 7)

/-- Spec wording: the day of the point at 1-based position `p` of curve `i`. -/
def day_at_position (lc : List (List Fluxrec)) (i : Nat) (p : Int) : ℚ :=
  lc_day lc i (p - 1)

/-- Spec wording: the windowed mean of curve `i`, what `calc_mean_dt` leaves in
the output slot `mean[i]` (which held `mean0[i]`) when it is asked for the
window bounded by the points at 1-based positions floor(N/4) and floor(3N/4)
of the curve, `N` being its number of points. -/
def windowed_mean (calc_mean_dt : List Fluxrec → Int → ℚ → ℚ → ℚ → ℚ → Int × ℚ)
    (lc : List (List Fluxrec)) (npoints : List Int) (mean0 : List ℚ) (i : Nat) : ℚ :=
  (calc_mean_dt (arr_get lc i []) (arr_get npoints i 0) (arr_get mean0 i 0)
    (day_at_position lc i ⌊((arr_get npoints i 0 : Int) : ℚ) / 4⌋)
    (day_at_position lc i ⌊3 * ((arr_get npoints i 0 : Int) : ℚ) / 4⌋) 0).2

/-- Modelled from the spec: the function `calc_mean_dt` of `lc_funcs.c`, which
is not among the sources, as the arithmetic mean of the fluxes of the samples
whose day lies in the window from `startday` to `endday`: it stores the mean
and returns 0; with no sample in the window it returns 1 and leaves the
output slot as it is. -/
def mean_flux_dt (curve : List Fluxrec) (n : Int) (old startday endday _dt : ℚ) :
    Int × ℚ :=
  if ((curve.take n.toNat).filter
      (fun r => decide (startday ≤ r.day) && decide (r.day ≤ endday))).isEmpty
  then (1, old)
  else
    (0, (((curve.take n.toNat).filter
          (fun r => decide (startday ≤ r.day) && decide (r.day ≤ endday))).map
          (fun r => r.flux)).sum
        / (((curve.take n.toNat).filter
          (fun r => decide (startday ≤ r.day) && decide (r.day ≤ endday))).length : ℚ))

/-- Sample curves for C13: two curves of four samples each whose fluxes are
all 0. -/
def dark_curves : List (List Fluxrec) :=
  [[⟨0, 0⟩, ⟨1, 0⟩, ⟨2, 0⟩, ⟨3, 0⟩], [⟨0, 0⟩, ⟨1, 0⟩, ⟨2, 0⟩, ⟨3, 0⟩]]

/-- Sample curves: two curves of four samples each, of constant flux 2 and 6. -/
def flat_curves : List (List Fluxrec) :=
  [[⟨0, 2⟩, ⟨1, 2⟩, ⟨2, 2⟩, ⟨3, 2⟩], [⟨0, 6⟩, ⟨1, 6⟩, ⟨2, 6⟩, ⟨3, 6⟩]]

/-- Sample stand-in for `calc_mean_dt` that fails on every curve and stores 7. -/
def failing_mean_dt (_ : List Fluxrec) (_ : Int) (_ _ _ _ : ℚ) : Int × ℚ := (1, 7)

/-- Sample container for C11 to C14: a fresh container that holds two curves
of four samples each; `mu0` and `nmu` are still 0. -/
def four_point_setup : Setup :=
  { fresh_setup with ncurves := 2, index := [0, 1], npoints := [4, 4] }

/-- Sample container for C11: the file set `mu0 1 2 0 0` and left `nmu` at 0. -/
def C11_setup : Setup :=
  { (setup_file fresh_setup (some ["mu0 1 2 0 0\n".toList])).1 with
    ncurves := 2, index := [0, 1], npoints := [4, 4] }

/-- Sample container for C11: the file set `mu0 1 2 0 0` and `nmu 50`. -/
def C11_setup_nmu : Setup :=
  { (setup_file fresh_setup
      (some ["mu0 1 2 0 0\n".toList, "nmu 50\n".toList])).1 with
    ncurves := 2, index := [0, 1], npoints := [4, 4] }

/-- Spec wording: the 34 recognised keywords of the configuration file, in
lower case, each with the code `read_setup_line` has for it. -/
def keyword_table : List (String × Keyword) :=
  [("dochi", DOCHI), ("doxcorr", DOXCORR), ("doacorr", DOACORR), ("dodisp", DODISP),
   ("dodcf", DODCF), ("docurvefit", DOCURVEFIT), ("dispchoice", DISPCHOICE),
   ("d2delta", D2DELTA), ("dooverlap", DOOVERLAP), ("outfile", OUTFILE),
   ("achifile", ACHIFILE), ("cchifile", CCHIFILE), ("dchifile", DCHIFILE),
   ("mu0", MU0), ("nmu", NMU), ("tau0", TAU0), ("dtau", DTAU), ("ntau", NTAU),
   ("dosmooth", DOSMOOTH), ("boxcar", BOXCAR), ("median", MEDIAN), ("varbox", VARBOX),
   ("vartri", VARTRI), ("triangle", TRIANGLE), ("gauss", GAUSS), ("ninterp", NINTERP),
   ("intstep", INTSTEP), ("intstart", INTSTART), ("askstart", ASKSTART),
   ("chilog", CHILOG), ("xclog", XCLOG), ("flagbad", FLAGBAD),
   ("meanchoice", MEANCHOICE), ("root", ROOT)]

/-- The all-upper-case spelling of a keyword. -/
def upper_case (k : String) : Line :=
  k.toList.map Char.toUpper

/-- The statements of `get_setup_params` that hard-wire the methods before
the file is read: the dispersion method only. -/
def hardwired_methods (setup : Setup) : Setup :=
  { setup with
    dochi := NO, doxcorr := NO, doacorr := NO, dodisp := YES, dodcf := NO
    docurvefit := NO }

/-- Function `get_setup_params`, on the responses `inp` of the operator.
`file` is what `open_readfile` finds for `setup->setupfile` (it is looked at
only when a file is named); the curves are not used, the calls of
`set_tau_grid` and `set_mu_grid` being compiled out (`#if 0`), and the two
summaries only print.  The result is the container afterwards, the return
value and the responses left. -/
def get_setup_params (setup : Setup) (file : Option (List Line)) (inp : List Line) :
    Option (Setup × Int × List Line) :=
  if (if (hardwired_methods setup).setupfile.isSome
      then (setup_file (hardwired_methods setup) file).2 else 0) = 0
  then
    (setup_delays
      (if (hardwired_methods setup).setupfile.isSome
        then (setup_file (hardwired_methods setup) file).1
        else hardwired_methods setup) inp).map (fun r => (r.1, 0, r.2))
  else some ((setup_file (hardwired_methods setup) file).1, 0, inp)

/-- A blank line that starts with a space: two spaces and the newline. -/
def blank_line : Line := "  \n".toList

/-- Assignment `a[i] = v` in an array held as a list; the slots that the list
does not show yet hold `junk`. -/
def arr_put {α : Type} (a : List α) (i : Nat) (v junk : α) : List α :=
  if i < a.length then a.set i v else a ++ List.replicate (i - a.length) junk ++ [v]

/-- The statements of `setup_from_command_line` that follow the parsing of the
flag: `ncurves` is 2, the input files and the optional setup file are taken
from the command line (`argv[i]` beyond the arguments is the null pointer). -/
def fill_from_argv (newsetup : Setup) (argv : List Line) (narg : Int) : Setup :=
  if newsetup.nfiles = 1 then
    { newsetup with
      ncurves := 2
      infile := arr_put newsetup.infile 0 (argv.get? 2) none
      setupfile := if narg = 4 then argv.get? 3 else newsetup.setupfile }
  else if newsetup.nfiles = 2 then
    { newsetup with
      ncurves := 2
      infile := arr_put (arr_put newsetup.infile 0 (argv.get? 2) none) 1 (argv.get? 3) none
      setupfile := if narg = 5 then argv.get? 4 else newsetup.setupfile }
  else { newsetup with ncurves := 2 }

/-- The flag `-1` of the command line: one input file. -/
def flag_one : Line := "-1".toList

/-- The flag `-2` of the command line: two input files. -/
def flag_two : Line := "-2".toList

/-- Function `setup_from_command_line`: `mem` is the block that `new_setup`
gets from `malloc`, `argv` the command line and `narg` its length.  The
result is the new container, `none` for the null pointer. -/
def setup_from_command_line (mem : Option Setup) (argv : List Line) (narg : Int) :
    Option Setup :=
  match new_setup mem with
  | none => none
  | some newsetup =>
    if argv.get? 1 = some flag_one then
      some (fill_from_argv { newsetup with nfiles := 1 } argv narg)
    else if argv.get? 1 = some flag_two then
      some (fill_from_argv { newsetup with nfiles := 2 } argv narg)
    else none

/-- The container that `get_setup_params` hands to `setup_delays`: the
methods hard-wired, then the file read when one is named. -/
def file_stage (setup : Setup) (file : Option (List Line)) : Setup :=
  if (hardwired_methods setup).setupfile.isSome
  then (setup_file (hardwired_methods setup) file).1
  else hardwired_methods setup

/-- Sample command line: one input file and no setup file. -/
def one_file_argv : List Line :=
  ["tdelays".toList, "-1".toList, "curves.dat".toList]

/-- Sample command line: two input files and a setup file. -/
def two_file_argv : List Line :=
  ["tdelays".toList, "-2".toList, "a.dat".toList, "b.dat".toList, "run.setup".toList]

/-- The container that `setup_from_command_line` makes of `one_file_argv`. -/
def one_file_setup : Setup :=
  (setup_from_command_line (some zero_block) one_file_argv 3).getD zero_block

/-- The container that `get_setup_params` returns for `one_file_setup` when the
operator accepts the default dispersion method. -/
def one_file_result : Setup :=
  { one_file_setup with
    dochi := NO, doxcorr := NO, doacorr := NO, dodisp := YES, dodcf := NO
    docurvefit := NO, dispchoice := D21, dosmooth := NOSMOOTH }

/-- Sample file for C23: `dochi 1`, `dodisp 0`, `tau0 0 10 0 0`, `dtau 2.0`. -/
def C23_file : List Line :=
  ["dochi 1\n".toList, "dodisp 0\n".toList, "tau0 0 10 0 0\n".toList,
    "dtau 2.0\n".toList]

/-- Sample container for C23: a fresh container that holds two curves of 101
samples each, after `setup_file` has read `C23_file`. -/
def C23_after_file : Setup :=
  (setup_file { fresh_setup with ncurves := 2, index := [0, 1], npoints := [101, 101] }
    (some C23_file)).1

/-- Sample container for C23 after `setup_delays`, the operator having
accepted every default. -/
def C23_after_delays : Setup :=
  { C23_after_file with doxcorr := NO, docurvefit := NO }

/-- Spec wording: the values `meanchoice` may take, UNSET, 0, 1 or 2. -/
def meanchoice_ok (x : Int) : Prop :=
  x = UNSET ∨ x = 0 ∨ x = 1 ∨ x = 2

/-- Sample file for C30: `dodisp 0` and `dispchoice 3`, no `d2delta` line. -/
def C30_file : List Line := ["dodisp 0\n".toList, "dispchoice 3\n".toList]

/-- Sample container for C30: a fresh container after `setup_file` has read
`C30_file`. -/
def C30_setup : Setup :=
  (setup_file fresh_setup (some C30_file)).1

/-! ## The interpolation step: `get_interp_step` -/

/-- Function `get_interp_step`, on the responses `inp` of the operator: the
container afterwards and the responses left. -/
def get_interp_step (setup : Setup) (inp : List Line) : Option (Setup × List Line) :=
  if setup.intstep ≤ 0 then
    match inp with
    | [] => none
    | line :: rest =>
      if line0 line ≠ 10 then
        (retry_f (fun x => decide (x < 0) || decide (x > 30)) (line :: rest)).map
          (fun r => ({ setup with intstep := r.1 }, r.2))
      else some ({ setup with intstep := 1 }, rest)
  else some (setup, inp)

/-- The statement `startindex = (int) floor(npoints[i] / 4)` of `set_mu_grid`,
for a curve of `n` points: the division is the one of `int`s. -/
def mu_startindex (n : Int) : Int :=
  Int.tdiv n 4

/-- The statement `endindex = (int) floor(3 * npoints[i] / 4)` of
`set_mu_grid`, for a curve of `n` points. -/
def mu_endindex (n : Int) : Int :=
  Int.tdiv (3 * n) 4

/-- Sample curves for C32: the first spans 100 days, the second 40 days. -/
def C32_curves : List (List Fluxrec) :=
  [[⟨0, 1⟩, ⟨100, 1⟩], [⟨0, 1⟩, ⟨40, 1⟩]]

/-- Sample container for C32: a fresh container that holds two curves of two
samples each, the first being the unshifted one, with `dtau` 2 and `tau0` set
by the file. -/
def C32_setup : Setup :=
  { (setup_file fresh_setup
      (some ["tau0 0 10 0 0\n".toList, "dtau 2.0\n".toList])).1 with
    ncurves := 2, index := [0, 1], npoints := [2, 2] }

namespace Ieee

/-- A floating-point value: a finite number given by its sign and its
magnitude (so that the two zeros differ), an infinity, or a NaN (the sign and
the payload of a NaN are not kept). -/
inductive Flt where
  | fin (neg : Bool) (mag : ℚ)
  | inf (neg : Bool)
  | nan
deriving DecidableEq

/-- The number a finite value stands for (0 for the infinities and NaN). -/
def Flt.val : Flt → ℚ
  | .fin neg mag => if neg then -mag else mag
  | _ => 0

/-- The sign bit of a value that is not a NaN. -/
def Flt.sign : Flt → Bool
  | .fin neg _ => neg
  | .inf neg => neg
  | .nan => false

/-- A binary format: the precision in bits and the largest exponent. -/
structure Format where
  prec : Nat
  emax : Int

/-- The format of `float`. -/
def binary32 : Format := ⟨24, 127⟩

/-- The format of `double`. -/
def binary64 : Format := ⟨53, 1023⟩

/-- The power `2^e` for an integer `e`. -/
def pow2 (e : Int) : ℚ :=
  if 0 ≤ e then ((2 ^ e.toNat : Nat) : ℚ) else 1 / ((2 ^ (-e).toNat : Nat) : ℚ)

/-- The number of halvings that bring `n` below 2, at most `fuel` of them. -/
def log2_steps : Nat → Nat → Nat
  | 0, _ => 0
  | fuel + 1, n => if n < 2 then 0 else log2_steps fuel (n / 2) + 1

/-- The exponent of a natural number `n ≥ 1`: the `e` with
`2^e ≤ n < 2^(e+1)`. -/
def log2 (n : Nat) : Nat := log2_steps n n

/-- The exponent of a positive number `a`: the `e` with `2^e ≤ a < 2^(e+1)`. -/
def ilog2 (a : ℚ) : Int :=
  let e : Int := (log2 a.num.natAbs : Int) - (log2 a.den : Int)
  if a < pow2 e then e - 1 else e

/-- The integer nearest to `x ≥ 0`, the even one at a tie. -/
def round_even (x : ℚ) : Int :=
  let n := ⌊x⌋
  if x - n < 1 / 2 then n
  else if 1 / 2 < x - n then n + 1
  else if n % 2 = 0 then n else n + 1

/-- Rounding of the magnitude `a ≥ 0` with the sign `neg` to the format `f`:
to nearest, ties to even, with gradual underflow; a result beyond the largest
finite number is an infinity. -/
def Flt.round (f : Format) (neg : Bool) (a : ℚ) : Flt :=
  if a ≤ 0 then .fin neg 0
  else
    let e := max (ilog2 a) (1 - f.emax)
    let q := pow2 (e - ((f.prec : Int) - 1))
    let r := (round_even (a / q) : ℚ) * q
    if pow2 (f.emax + 1) ≤ r then .inf neg else .fin neg r

/-- Rounding of the number `q` to the format `f`; an exact 0 is `+0`. -/
def Flt.of_rat (f : Format) (q : ℚ) : Flt :=
  if q < 0 then Flt.round f true (-q) else Flt.round f false q

/-- The constant `0.0`. -/
def Flt.zero : Flt := .fin false 0

/-- A positive constant that both formats hold exactly, such as `1.0`,
`5.0` or `30.0`. -/
def Flt.pos (q : ℚ) : Flt := .fin false q

/-- The constant `-1.0`. -/
def Flt.minus_one : Flt := .fin true 1

/-- Comparison `a < b`: false when an operand is a NaN; the two zeros are
equal. -/
def Flt.lt : Flt → Flt → Bool
  | .nan, _ => false
  | _, .nan => false
  | .inf s, .inf t => s && !t
  | .inf s, .fin _ _ => s
  | .fin _ _, .inf t => !t
  | .fin s x, .fin t y => decide ((Flt.fin s x).val < (Flt.fin t y).val)

/-- Comparison `a <= b`: false when an operand is a NaN. -/
def Flt.le : Flt → Flt → Bool
  | .nan, _ => false
  | _, .nan => false
  | .inf s, .inf t => s || !t
  | .inf s, .fin _ _ => s
  | .fin _ _, .inf t => !t
  | .fin s x, .fin t y => decide ((Flt.fin s x).val ≤ (Flt.fin t y).val)

/-- Comparison `a == b`: false when an operand is a NaN; the two zeros are
equal. -/
def Flt.eq : Flt → Flt → Bool
  | .nan, _ => false
  | _, .nan => false
  | .inf s, .inf t => s == t
  | .inf _, .fin _ _ => false
  | .fin _ _, .inf _ => false
  | .fin s x, .fin t y => decide ((Flt.fin s x).val = (Flt.fin t y).val)

/-- The difference `a - b` in the format `f`. -/
def Flt.sub (f : Format) : Flt → Flt → Flt
  | .nan, _ => .nan
  | _, .nan => .nan
  | .inf s, .inf t => if s = t then .nan else .inf s
  | .inf s, .fin _ _ => .inf s
  | .fin _ _, .inf t => .inf (!t)
  | .fin s x, .fin t y =>
    if (Flt.fin s x).val - (Flt.fin t y).val = 0 then .fin (s && !t) 0
    else Flt.of_rat f ((Flt.fin s x).val - (Flt.fin t y).val)

/-- The product `a * b` in the format `f`. -/
def Flt.mul (f : Format) : Flt → Flt → Flt
  | .nan, _ => .nan
  | _, .nan => .nan
  | .inf s, .inf t => .inf (s != t)
  | .inf s, .fin t y => if y = 0 then .nan else .inf (s != t)
  | .fin s x, .inf t => if x = 0 then .nan else .inf (s != t)
  | .fin s x, .fin t y => Flt.round f (s != t) (x * y)

/-- The quotient `a / b` in the format `f`. -/
def Flt.div (f : Format) : Flt → Flt → Flt
  | .nan, _ => .nan
  | _, .nan => .nan
  | .inf _, .inf _ => .nan
  | .inf s, .fin t _ => .inf (s != t)
  | .fin s _, .inf t => .fin (s != t) 0
  | .fin s x, .fin t y =>
    if y = 0 then (if x = 0 then .nan else .inf (s != t))
    else Flt.round f (s != t) (x / y)

/-- The function `floor` of `math.h`. -/
def Flt.floor : Flt → Flt
  | .nan => .nan
  | .inf s => .inf s
  | .fin s x =>
    if ⌊(Flt.fin s x).val⌋ < 0 then .fin true (-(⌊(Flt.fin s x).val⌋ : ℚ))
    else if 0 < ⌊(Flt.fin s x).val⌋ then .fin false (⌊(Flt.fin s x).val⌋ : ℚ)
    else .fin (s && decide (x = 0)) 0

/-- The conversion of a floating-point value to `int`: the fractional part is
discarded; the behaviour is undefined (`none`) when the integral part is not
an `int` (32 bits), as for an infinity or a NaN. -/
def Flt.to_int : Flt → Option Int
  | .fin s x =>
    let t : Int := if 0 ≤ (Flt.fin s x).val then ⌊(Flt.fin s x).val⌋ else ⌈(Flt.fin s x).val⌉
    if -2147483648 ≤ t ∧ t ≤ 2147483647 then some t else none
  | _ => none

/-- The conversion of a `double` to `float`. -/
def Flt.to_float : Flt → Flt
  | .fin s x => Flt.round binary32 s x
  | a => a

/-- The sum `a + b` of two `int`s; an overflow is undefined (`none`). -/
def int_add (a b : Int) : Option Int :=
  if -2147483648 ≤ a + b ∧ a + b ≤ 2147483647 then some (a + b) else none

end Ieee

/-! ## `sscanf` on the floating-point formats -/

namespace Ieee

/-- The function `tolower` on one character. -/
def lower (c : Char) : Char :=
  if 65 ≤ c.toNat ∧ c.toNat ≤ 90 then Char.ofNat (c.toNat + 32) else c

/-- The value of a hexadecimal digit. -/
def xdigit_val (c : Char) : Option Nat :=
  if 48 ≤ c.toNat ∧ c.toNat ≤ 57 then some (c.toNat - 48)
  else if 97 ≤ (lower c).toNat ∧ (lower c).toNat ≤ 102 then some ((lower c).toNat - 87)
  else none

/-- The longest run of hexadecimal digits (their values), and the rest. -/
def scan_xdigits : Line → List Nat × Line
  | [] => ([], [])
  | c :: cs =>
    match xdigit_val c with
    | some d => ((d :: (scan_xdigits cs).1), (scan_xdigits cs).2)
    | none => ([], c :: cs)

/-- Value of a run of hexadecimal digits. -/
def xdigits_val (ds : List Nat) : Nat :=
  ds.foldl (fun acc d => 16 * acc + d) 0

/-- The fraction of a literal: a point and the digits that follow it, read by
`digits`; without a point nothing is read. -/
def scan_fraction (digits : Line → List Nat × Line) (l : Line) : Bool × List Nat × Line :=
  match l with
  | '.' :: cs => (true, (digits cs).1, (digits cs).2)
  | cs => (false, [], cs)

/-- The exponent of a literal whose exponent letter is `letter`: the letter,
an optional sign and decimal digits are read; the exponent counts only when
there is a digit (`2e` and `2e+` are read to the end and make 2). -/
def scan_exponent (letter : Char) (l : Line) : Int × Line :=
  match l with
  | c :: cs =>
    if lower c = letter then
      match cs with
      | '-' :: ds => (-(digits_val (scan_digits ds).1 : Int), (scan_digits ds).2)
      | '+' :: ds => ((digits_val (scan_digits ds).1 : Int), (scan_digits ds).2)
      | ds => ((digits_val (scan_digits ds).1 : Int), (scan_digits ds).2)
    else (0, c :: cs)
  | [] => (0, [])

/-- The number `m * 10^e` in the format `f`, with the sign `neg`.  A value
that is out of the range of both formats is not computed: above `10^400` it is
an infinity, below `10^-400` a zero. -/
def decimal_value (f : Format) (neg : Bool) (m : Nat) (e : Int) : Flt :=
  if m = 0 then .fin neg 0
  else if 400 < e then .inf neg
  else if (log2 m / 3 : Nat) + 1 + e < -400 then .fin neg 0
  else if 0 ≤ e then Flt.round f neg ((m * 10 ^ e.toNat : Nat) : ℚ)
  else Flt.round f neg ((m : ℚ) / ((10 ^ (-e).toNat : Nat) : ℚ))

/-- The number `m * 2^e` in the format `f`, with the sign `neg`; out of the
range of both formats it is an infinity or a zero. -/
def binary_value (f : Format) (neg : Bool) (m : Nat) (e : Int) : Flt :=
  if m = 0 then .fin neg 0
  else if 1100 < e then .inf neg
  else if (log2 m : Int) + 1 + e < -1100 then .fin neg 0
  else Flt.round f neg ((m : ℚ) * pow2 e)

/-- A decimal literal without sign: digits, an optional point with digits (at
least one digit in all), an optional exponent. -/
def scan_decimal (f : Format) (neg : Bool) (l : Line) : Option (Flt × Line) :=
  let ip := scan_digits l
  let fp := scan_fraction scan_digits ip.2
  if ip.1 = [] ∧ fp.2.1 = [] then none
  else
    let e := scan_exponent 'e' fp.2.2
    some (decimal_value f neg (digits_val (ip.1 ++ fp.2.1)) (e.1 - (fp.2.1.length : Int)), e.2)

/-- A hexadecimal literal after its `0x`: hexadecimal digits, an optional
point with hexadecimal digits, an optional binary exponent after `p`.  With
nothing after `0x` the conversion fails; with a point and no digit the value
is 0. -/
def scan_hex (f : Format) (neg : Bool) (l : Line) : Option (Flt × Line) :=
  let ip := scan_xdigits l
  let fp := scan_fraction scan_xdigits ip.2
  if ip.1 = [] ∧ fp.2.1 = [] then
    if fp.1 then some (.fin neg 0, fp.2.2) else none
  else
    let e := scan_exponent 'p' fp.2.2
    some (binary_value f neg (xdigits_val (ip.1 ++ fp.2.1))
      (e.1 - 4 * (fp.2.1.length : Int)), e.2)

/-- The text after `inf`: either `inity` follows an `i`, or the `i` makes the
conversion fail, or the text is left as it is. -/
def scan_inity (l : Line) : Option Line :=
  match l with
  | c :: cs =>
    if lower c = 'i' then
      match cs.map lower with
      | 'n' :: 'i' :: 't' :: 'y' :: _ => some (cs.drop 4)
      | _ => none
    else some (c :: cs)
  | [] => some []

/-- A number without sign as the conversions `%f` and `%lf` of the C library
read it: `nan`, `inf` or `infinity` in either case, a hexadecimal literal
after `0x`, or a decimal literal. -/
def scan_unsigned (f : Format) (neg : Bool) (l : Line) : Option (Flt × Line) :=
  match l with
  | [] => none
  | c :: cs =>
    if lower c = 'n' then
      match cs.map lower with
      | 'a' :: 'n' :: _ => some (.nan, cs.drop 2)
      | _ => none
    else if lower c = 'i' then
      match cs.map lower with
      | 'n' :: 'f' :: _ => (scan_inity (cs.drop 2)).map (fun rest => (.inf neg, rest))
      | _ => none
    else if c = '0' ∧ (cs.head?.map lower) = some 'x' then scan_hex f neg (cs.drop 1)
    else scan_decimal f neg (c :: cs)

/-- A floating-point conversion to the format `f`: white space, an optional
sign, a number. -/
def scan_float (f : Format) (l : Line) : Option (Flt × Line) :=
  match skip_space l with
  | '-' :: cs => scan_unsigned f true cs
  | '+' :: cs => scan_unsigned f false cs
  | cs => scan_unsigned f false cs

/-- Call `sscanf(line,"%s %f",keyword,&x)`, or with `%lf`, for the format `f`
of `x`: the number stored in `x` when the call returns 2; otherwise `x` is not
written. -/
def sscanf_s_f (f : Format) (line : Line) : Option Flt :=
  (scan_s line).bind (fun r => (scan_float f r.2).map (fun v => v.1))

/-- Up to `n` numbers scanned one after the other. -/
def scan_floats (f : Format) : Nat → Line → List Flt
  | 0, _ => []
  | n + 1, l =>
    match scan_float f l with
    | none => []
    | some (v, rest) => v :: scan_floats f n rest

/-- Call `sscanf(line,"%s %f %f %f %f",keyword,&a[0],&a[1],&a[2],&a[3])`, or
with `%lf`: the numbers stored, in order; the call returns 5 when there are
four of them. -/
def sscanf_s_4f (f : Format) (line : Line) : List Flt :=
  match scan_s line with
  | none => []
  | some (_, rest) => scan_floats f 4 rest

/-- Call `sscanf(line,"%f",&x)`, or with `%lf`: the number stored when the
call returns 1. -/
def sscanf_f (f : Format) (line : Line) : Option Flt :=
  (scan_float f line).map (fun v => v.1)

end Ieee

/-! ## The container over floating-point numbers -/

namespace Ieee

/-- A four-slot array (`mu0[4]` of `float`, `tau0[4]` of `double`). -/
structure Arr4 where
  x0 : Flt
  x1 : Flt
  x2 : Flt
  x3 : Flt
deriving DecidableEq

/-- Element `a[i]`; outside the four slots the read yields `junk`. -/
def Arr4.get (a : Arr4) (i : Int) (junk : Flt) : Flt :=
  if i = 0 then a.x0 else if i = 1 then a.x1 else if i = 2 then a.x2
  else if i = 3 then a.x3 else junk

/-- Assignment `a[i] = v`; a write outside the four slots is dropped. -/
def Arr4.set (a : Arr4) (i : Int) (v : Flt) : Arr4 :=
  if i = 0 then { a with x0 := v } else if i = 1 then { a with x1 := v }
  else if i = 2 then { a with x2 := v } else if i = 3 then { a with x3 := v }
  else a

/-- Modelled from the spec: one sample of a light curve (`Fluxrec` of
`structdef.h`), its day and its flux; the members are taken as `float`, the
type of the locals `startday` and `endday` that receive the day. -/
structure Fluxrec where
  day : Flt
  flux : Flt
deriving DecidableEq

/-- The `Setup` container.  The members scanned with `%f` are `float`
(`d2delta`, `smwidth`, `intstep`, `intstart`, `mu0`), those scanned with `%lf`
by `setup_file` are `double` (`tau0`, `dtau`). -/
structure Setup where
  nfiles : Int
  ncurves : Int
  infile : List (Option Line)
  setupfile : Option Line
  outfile : Option Line
  index : List Int
  npoints : List Int
  startday : List Flt
  endday : List Flt
  dochi : Int
  doxcorr : Int
  doacorr : Int
  dodisp : Int
  dodcf : Int
  docurvefit : Int
  dispchoice : Int
  d2delta : Flt
  dooverlap : Int
  dosmooth : Int
  smtype : Int
  smwidth : Flt
  ninterp : Int
  intstep : Flt
  intstart : Flt
  askstart : Int
  nvar : Int
  flagbad : Int
  meanchoice : Int
  mu0 : Arr4
  dmu : Flt
  nmu : Int
  tauset : Int
  tau0 : Arr4
  dtau : Flt
  ntau : Int
  achifile : Line
  cchifile : Line
  dchifile : Line
  chilog : Line
  xclog : Line
  root : Line
deriving DecidableEq

/-- Function `new_setup`: `mem` is the block `malloc` returns (`none` when
it fails, otherwise the block with its arbitrary content). -/
def new_setup (mem : Option Setup) : Option Setup :=
  match mem with
  | none => none
  | some newsetup =>
    some { newsetup with
      nfiles := -1
      outfile := none
      setupfile := none
      dochi := UNSET
      doxcorr := UNSET
      doacorr := NO
      dodisp := UNSET
      dodcf := NO
      docurvefit := UNSET
      dispchoice := UNSET
      d2delta := Flt.minus_one
      dosmooth := SMUNSET
      smtype := -1
      smwidth := Flt.zero
      ninterp := 0
      intstep := Flt.zero
      intstart := Flt.minus_one
      askstart := YES
      nvar := 0
      flagbad := UNSET
      meanchoice := UNSET
      mu0 := ⟨Flt.zero, Flt.zero, Flt.zero, Flt.zero⟩
      dmu := (Flt.of_rat binary64 (5 / 10000)).to_float
      nmu := 0
      tauset := UNSET
      tau0 := ⟨Flt.zero, Flt.zero, Flt.zero, Flt.zero⟩
      dtau := Flt.zero
      ntau := 0
      achifile := "chiba.dat".toList
      cchifile := "chibc.dat".toList
      dchifile := "chibd.dat".toList
      chilog := "stdout".toList
      xclog := "stdout".toList
      root := "mc_g".toList }

/-- The statement `if(sscanf(line,"%s %f",keyword,&x) != 2 && bad(x)) x = fb;`
as the value the `float` `x` has afterwards: a scanned number is stored and
kept, whatever it is; when nothing is scanned the old `x` is tested. -/
def float_and (line : Line) (x : Flt) (bad : Flt → Bool) (fb : Flt) : Flt :=
  match sscanf_s_f binary32 line with
  | some v => v
  | none => if bad x then fb else x

/-- The statement `if(sscanf(line,"%s %f",keyword,&x) != 2 || bad(x)) x = fb;`
(`%lf` for a `double`) as the value `x`, of the format `f`, has afterwards. -/
def float_or (f : Format) (line : Line) (bad : Flt → Bool) (fb : Flt) : Flt :=
  match sscanf_s_f f line with
  | some v => if bad v then fb else v
  | none => fb

/-- The four-number lines `mu0` (`%f`) and `tau0` (`%lf`): the array when the
call returns 5; otherwise all four slots are set to 0. -/
def four_floats (f : Format) (line : Line) : Option Arr4 :=
  match sscanf_s_4f f line with
  | [a, b, c, d] => some ⟨a, b, c, d⟩
  | _ => none

/-- The test `x <= 0.0 || x > top` of the smoothing widths and of the step. -/
def out_of_range (top : ℚ) (x : Flt) : Bool :=
  x.le Flt.zero || (Flt.pos top).lt x

/-- The `switch` of `setup_file` on one line that passed the line filter: the
container afterwards and the flag `no_error`. -/
def setup_file_case (setup : Setup) (line : Line) : Setup × Bool :=
  match read_setup_line line with
  | SETUPERR => (setup, false)
  | DOCHI =>
    ({ setup with dochi := int_and line setup.dochi (fun x => x < 0) NO }, true)
  | DOXCORR =>
    ({ setup with doxcorr := int_and line setup.doxcorr (fun x => x < 0) NO }, true)
  | DOACORR =>
    ({ setup with doacorr := int_and line setup.doacorr (fun x => x < 0) NO }, true)
  | DODISP =>
    ({ setup with dodisp := int_and line setup.dodisp (fun x => x < 0) NO }, true)
  | DODCF =>
    ({ setup with dodcf := int_and line setup.dodcf (fun x => x < 0) NO }, true)
  | DOCURVEFIT =>
    ({ setup with
       docurvefit := int_and line setup.docurvefit (fun x => x < 0) NO }, true)
  | DISPCHOICE =>
    ({ setup with
       dispchoice :=
         int_and line setup.dispchoice (fun x => x < D21 || x > DLOVELL) 1 }, true)
  | D2DELTA =>
    ({ setup with
       d2delta := float_or binary32 line (fun x => x.lt Flt.zero) (Flt.pos 5) }, true)
  | DOOVERLAP =>
    ({ setup with dooverlap := int_or line (fun x => x < 0) NO }, true)
  | OUTFILE =>
    ({ setup with outfile := sscanf_s_s line }, true)
  | ACHIFILE =>
    ({ setup with achifile := string_or line "chiba.dat".toList }, true)
  | CCHIFILE =>
    ({ setup with cchifile := string_or line "chibc.dat".toList }, true)
  | DCHIFILE =>
    ({ setup with dchifile := string_or line "chibd.dat".toList }, true)
  | MU0 =>
    match four_floats binary32 line with
    | some a => ({ setup with mu0 := a }, true)
    | none => ({ setup with mu0 := ⟨Flt.zero, Flt.zero, Flt.zero, Flt.zero⟩ }, true)
  | NMU =>
    ({ setup with nmu := int_or line (fun x => x < 0) 0 }, true)
  | TAU0 =>
    match four_floats binary64 line with
    | some a => ({ setup with tau0 := a, tauset := YES }, true)
    | none => ({ setup with tau0 := ⟨Flt.zero, Flt.zero, Flt.zero, Flt.zero⟩ }, true)
  | DTAU =>
    ({ setup with
       dtau := float_or binary64 line (fun x => x.lt Flt.zero) Flt.zero }, true)
  | NTAU =>
    ({ setup with ntau := int_or line (fun x => x < 0) 0 }, true)
  | DOSMOOTH =>
    ({ setup with
       dosmooth := int_and line setup.dosmooth (fun x => x > SMINPLACE) SMUNSET }, true)
  | BOXCAR =>
    ({ setup with
       smwidth := float_and line setup.smwidth (out_of_range 100) Flt.minus_one
       smtype := SMBOXCAR }, true)
  | MEDIAN =>
    ({ setup with
       smwidth := float_and line setup.smwidth (out_of_range 100) Flt.minus_one
       smtype := SMMEDIAN }, true)
  | VARBOX =>
    ({ setup with
       nvar := int_and line setup.nvar (fun x => x ≤ 0 || x > 30) (-1)
       smtype := SMVARBOX }, true)
  | VARTRI =>
    ({ setup with
       nvar := int_and line setup.nvar (fun x => x ≤ 0 || x > 30) (-1)
       smtype := SMVARTRI }, true)
  | TRIANGLE =>
    ({ setup with
       smwidth := float_and line setup.smwidth (out_of_range 100) Flt.minus_one
       smtype := SMTRIANGLE }, true)
  | GAUSS =>
    ({ setup with
       smwidth := float_and line setup.smwidth (out_of_range 100) Flt.minus_one
       smtype := SMGAUSS }, true)
  | NINTERP =>
    ({ setup with ninterp := (sscanf_s_d line).getD setup.ninterp }, true)
  | INTSTEP =>
    ({ setup with
       intstep := float_and line setup.intstep (out_of_range 30) Flt.minus_one }, true)
  | INTSTART =>
    ({ setup with
       intstart :=
         float_and line setup.intstart (fun _ => setup.intstep.le Flt.zero)
           Flt.minus_one }, true)
  | ASKSTART =>
    ({ setup with askstart := (sscanf_s_d line).getD YES }, true)
  | CHILOG =>
    ({ setup with chilog := string_or line setup.chilog }, true)
  | XCLOG =>
    ({ setup with xclog := string_or line setup.xclog }, true)
  | FLAGBAD =>
    ({ setup with flagbad := (sscanf_s_d line).getD (-1) }, true)
  | MEANCHOICE =>
    ({ setup with meanchoice := int_or line (fun x => x < 0 || x > 2) UNSET }, true)
  | ROOT =>
    ({ setup with root := string_or line "mc_g".toList }, true)
  | DEFAULT => (setup, true)

/-- The reading loop `while(fgets(line,MAXC,ifp) != NULL && no_error)` of
`setup_file`: the container afterwards and the flag `no_error`. -/
def setup_file_loop : Setup → List Line → Setup × Bool
  | setup, [] => (setup, true)
  | setup, line :: rest =>
    if data_line line then
      if (setup_file_case setup line).2 then
        setup_file_loop (setup_file_case setup line).1 rest
      else ((setup_file_case setup line).1, false)
    else setup_file_loop setup rest

/-- Function `setup_file`: `file` is what `open_readfile(inname)` finds,
`none` when the file cannot be opened, otherwise its lines.  The result is the
container afterwards and the return value (0 success, 1 error). -/
def setup_file (setup : Setup) (file : Option (List Line)) : Setup × Int :=
  match file with
  | none => (setup, 1)
  | some lines =>
    ((setup_file_loop setup lines).1, if (setup_file_loop setup lines).2 then 0 else 1)

end Ieee

/-! ## The grids over floating-point numbers -/

namespace Ieee

/-- The loop `while(sscanf(line,"%f",&x) != 1 || bad(x)) fgets(line,MAXC,stdin);`
(`%lf` for a `double`) run on the line just read and the responses that
follow: the value `x`, of the format `f`, that ends the loop and the responses
left. -/
def retry_f (f : Format) (bad : Flt → Bool) : List Line → Option (Flt × List Line)
  | [] => none
  | line :: rest =>
    match sscanf_f f line with
    | some v => if bad v then retry_f f bad rest else some (v, rest)
    | none => retry_f f bad rest

/-- The day `(lc[k]+j)->day` of sample `j` of curve `k`; a read outside the
curves yields day 0. -/
def lc_day (lc : List (List Fluxrec)) (k j : Int) : Flt :=
  (arr_get (arr_get lc k []) j ⟨Flt.zero, Flt.zero⟩).day

/-- The first loop of `set_tau_grid` over the curves `is`: the value the
`float` local `ttotal` holds afterwards, `endday - startday` of the curve
handled last. -/
def tau_span (lc : List (List Fluxrec)) (setup : Setup) : List Nat → Flt → Flt
  | [], ttotal => ttotal
  | i :: is, _ =>
    let k := arr_get setup.index i 0
    let startday := lc_day lc k 0
    let endday := lc_day lc k (arr_get setup.npoints k 0 - 1)
    tau_span lc setup is (Flt.sub binary32 endday startday)

/-- The loop of `set_tau_grid` that asks for `tau0[i]` of every curve `i` of
`is`.  The call scans a `float` (`%f`) into a member that `setup_file` scans
as a `double`; the header that declares the member is not part of the
sources, so `store old v` stands for the value the member holds after the
number `v` was scanned into it while it held `old`. -/
def ask_tau0 (store : Flt → Flt → Flt) :
    List Nat → Setup → List Line → Option (Setup × List Line)
  | [], setup, inp => some (setup, inp)
  | _ :: _, _, [] => none
  | i :: is, setup, line :: rest =>
    if line0 line ≠ 10 then
      match retry_f binary32 (fun _ => false) (line :: rest) with
      | none => none
      | some r =>
        ask_tau0 store is
          { setup with tau0 := setup.tau0.set i (store (setup.tau0.get i Flt.zero) r.1) } r.2
    else ask_tau0 store is setup rest

/-- The part of `set_tau_grid` on `tau0`: echoed when `tauset == YES`, asked
for otherwise. -/
def tau_seed (store : Flt → Flt → Flt) (setup : Setup) (inp : List Line) :
    Option (Setup × List Line) :=
  if setup.tauset = YES then some (setup, inp)
  else ask_tau0 store (List.range setup.ncurves.toNat) setup inp

/-- The block of `set_tau_grid` that gets the step size `dtau`. -/
def ask_dtau (setup : Setup) (inp : List Line) : Option (Setup × List Line) :=
  if setup.dtau.eq Flt.zero then
    match inp with
    | [] => none
    | line :: rest =>
      if line0 line ≠ 10 then
        (retry_f binary64 (fun x => x.le Flt.zero) (line :: rest)).map
          (fun r => ({ setup with dtau := r.1 }, r.2))
      else some ({ setup with dtau := Flt.pos 1 }, rest)
  else some (setup, inp)

/-- The quotient `ttotal / (4.0 * setup->dtau)` of `set_tau_grid`, computed in
`double`, and its `floor`. -/
def ntau_quotient (ttotal dtau : Flt) : Flt :=
  Flt.floor (Flt.div binary64 ttotal (Flt.mul binary64 (Flt.pos 4) dtau))

/-- The default `setup->ntau = floor(ttotal / (4.0 * setup->dtau))` of
`set_tau_grid`: the `double` is converted to `int`. -/
def ntau_default (ttotal dtau : Flt) : Option Int :=
  (ntau_quotient ttotal dtau).to_int

/-- The block of `set_tau_grid` that gets the number of steps `ntau` (the
local `no_error` is 1 throughout): the default is stored before the prompt. -/
def ask_ntau (ttotal : Flt) (setup : Setup) (inp : List Line) :
    Option (Setup × List Line) :=
  if setup.ntau = 0 then
    match ntau_default ttotal setup.dtau with
    | none => none
    | some d =>
      match inp with
      | [] => none
      | line :: rest =>
        if line0 line ≠ 10 then
          (retry_d (fun x => x ≤ 0) (line :: rest)).map
            (fun r => ({ setup with ntau := r.1 }, r.2))
        else some ({ setup with ntau := d }, rest)
  else some (setup, inp)

/-- Function `set_tau_grid`, on the responses `inp` of the operator; `junk`
is what the uninitialised local `ttotal` holds on entry.  The result is the
container afterwards and the responses left (the function returns 0
whenever it returns); `none` when the operator stops answering or when the
conversion of the default to `int` is undefined. -/
def set_tau_grid (store : Flt → Flt → Flt) (junk : Flt) (lc : List (List Fluxrec))
    (setup : Setup) (inp : List Line) : Option (Setup × List Line) :=
  (tau_seed store setup inp).bind fun r1 =>
  (ask_dtau r1.1 r1.2).bind fun r2 =>
  ask_ntau (tau_span lc setup (List.range setup.ncurves.toNat) junk) r2.1 r2.2

/-- The day `raw->day` of the first raw sample; a read outside the curve
yields day 0. -/
def raw_first_day (raw : List Fluxrec) : Flt :=
  (arr_get raw 0 ⟨Flt.zero, Flt.zero⟩).day

/-- The day `(raw+nraw-1)->day` of the last raw sample. -/
def raw_last_day (raw : List Fluxrec) (nraw : Int) : Flt :=
  (arr_get raw (nraw - 1) ⟨Flt.zero, Flt.zero⟩).day

/-- The block of `set_grid_params` that sets the start date `intstart` of the
interpolation when it is not set. -/
def ask_intstart (setup : Setup) (raw : List Fluxrec) (inp : List Line) :
    Option (Setup × List Line) :=
  if setup.intstart.lt Flt.zero then
    if setup.askstart = YES ∧ setup.dosmooth ≠ SMINPLACE then
      match inp with
      | [] => none
      | line :: rest =>
        if line0 line ≠ 10 then
          (retry_f binary32 (fun x => x.lt Flt.zero) (line :: rest)).map
            (fun r => ({ setup with intstart := r.1 }, r.2))
        else some ({ setup with intstart := raw_first_day raw }, rest)
    else some ({ setup with intstart := raw_first_day raw }, inp)
  else some (setup, inp)

/-- The quotient `((raw+nraw-1)->day - setup->intstart) / setup->intstep` of
`set_grid_params`, computed in `float`. -/
def grid_quotient (setup : Setup) (raw : List Fluxrec) (nraw : Int) : Flt :=
  Flt.div binary32 (Flt.sub binary32 (raw_last_day raw nraw) setup.intstart) setup.intstep

/-- The block of `set_grid_params` that sets the size `ninterp` of the
interpolated array; `none` when the conversion to `int` or the sum is
undefined. -/
def grid_count (setup : Setup) (raw : List Fluxrec) (nraw : Int) : Option Setup :=
  if setup.dosmooth = SMINPLACE then some { setup with ninterp := nraw }
  else if Flt.zero.lt setup.intstep then
    ((grid_quotient setup raw nraw).to_int.bind (int_add 1)).map
      (fun n => { setup with ninterp := n })
  else some setup

/-- Function `set_grid_params`, on the responses `inp` of the operator: the
container afterwards and the responses left. -/
def set_grid_params (setup : Setup) (raw : List Fluxrec) (nraw : Int)
    (inp : List Line) : Option (Setup × List Line) :=
  (ask_intstart setup raw inp).bind
    (fun r => (grid_count r.1 raw nraw).map (fun s => (s, r.2)))

end Ieee

/-! ## Sample inputs over floating-point numbers -/

namespace Ieee

/-- A block of memory whose bytes are all 0. -/
def zero_block : Setup :=
  { nfiles := 0, ncurves := 0, infile := [], setupfile := none, outfile := none
    index := [], npoints := [], startday := [], endday := []
    dochi := 0, doxcorr := 0, doacorr := 0, dodisp := 0, dodcf := 0, docurvefit := 0
    dispchoice := 0, d2delta := Flt.zero, dooverlap := 0, dosmooth := 0, smtype := 0
    smwidth := Flt.zero, ninterp := 0, intstep := Flt.zero, intstart := Flt.zero
    askstart := 0, nvar := 0, flagbad := 0, meanchoice := 0
    mu0 := ⟨Flt.zero, Flt.zero, Flt.zero, Flt.zero⟩, dmu := Flt.zero, nmu := 0
    tauset := 0, tau0 := ⟨Flt.zero, Flt.zero, Flt.zero, Flt.zero⟩, dtau := Flt.zero
    ntau := 0, achifile := [], cchifile := [], dchifile := [], chilog := [], xclog := []
    root := [] }

/-- A fresh container: `new_setup` on a zeroed block. -/
def fresh_setup : Setup :=
  (new_setup (some zero_block)).getD zero_block

/-- The number that the decimal literal `text` denotes in the format `f`, as
the compiler and `sscanf` convert it (NaN when `text` is not a number). -/
def literal (f : Format) (text : String) : Flt :=
  (sscanf_f f text.toList).getD .nan

/-- A curve of two samples, on the days that the `float` literals `first`
and `last` denote. -/
def two_day_curve (first last : String) : List Fluxrec :=
  [⟨literal binary32 first, Flt.pos 1⟩, ⟨literal binary32 last, Flt.pos 1⟩]

/-- A block of memory that holds, where `new_setup` writes nothing, two curves
of two samples each. -/
def two_curve_block : Setup :=
  { zero_block with ncurves := 2, index := [0, 1], npoints := [2, 2] }

/-- A fresh container on `two_curve_block`. -/
def two_curve_fresh : Setup :=
  (new_setup (some two_curve_block)).getD two_curve_block

/-- The container `two_curve_fresh` after `setup_file` has read `lines`. -/
def two_curves_after (lines : List Line) : Setup :=
  (setup_file two_curve_fresh (some lines)).1

/-- Spec wording: the first operator response that converts to a `double`
that is not `<= 0` (a number greater than 0, or a NaN). -/
def first_not_below : List Line → Option Flt
  | [] => none
  | line :: rest =>
    match sscanf_f binary64 line with
    | some v => if v.le Flt.zero then first_not_below rest else some v
    | none => first_not_below rest

/-- The member keeps the `float` scanned into it (a `float` member). -/
def store_float (_ v : Flt) : Flt := v

/-- A configuration file that sets the four delays and the step `dtau` to the
literal `dtau`. -/
def tau_file (dtau : String) : List Line :=
  ["tau0 0 10 0 0\n".toList, ("dtau " ++ dtau ++ "\n").toList]

/-- Two curves of two samples each, from day 0 to the day that the literal
`last` denotes. -/
def span_curves (last : String) : List (List Fluxrec) :=
  [two_day_curve "0" last, two_day_curve "0" last]

/-- A fresh container after `setup_file` has read the line `intstep` with the
literal `step`. -/
def grid_setup (step : String) : Setup :=
  (setup_file fresh_setup (some [("intstep " ++ step ++ "\n").toList])).1

end Ieee

/-! ## Decimal literals as text -/

namespace Ieee

/-- Spec wording: the character of the decimal digit `d`. -/
def digit_char (d : Nat) : Char :=
  match d with
  | 0 => '0' | 1 => '1' | 2 => '2' | 3 => '3' | 4 => '4'
  | 5 => '5' | 6 => '6' | 7 => '7' | 8 => '8' | _ => '9'

/-- Spec wording: the text of the fraction of a literal: nothing, or a point
and the digits after it. -/
def fraction_text (frac : Option (List Nat)) : Line :=
  match frac with
  | none => []
  | some fp => '.' :: fp.map digit_char

/-- Spec wording: the text of the exponent of a literal: nothing, or an `e`,
a `-` when the flag is set, and the digits of the exponent. -/
def exponent_text (expo : Option (Bool × List Nat)) : Line :=
  match expo with
  | none => []
  | some e => 'e' :: ((if e.1 then ['-'] else []) ++ e.2.map digit_char)

/-- Spec wording: the text of a decimal literal: a `-` when `neg`, the digits
`ip`, the fraction and the exponent. -/
def literal_text (neg : Bool) (ip : List Nat) (frac : Option (List Nat))
    (expo : Option (Bool × List Nat)) : Line :=
  (if neg then ['-'] else []) ++
    (ip.map digit_char ++ (fraction_text frac ++ exponent_text expo))

/-- Spec wording: the digits of the literal read as one natural number. -/
def literal_mantissa (ip : List Nat) (frac : Option (List Nat)) : Nat :=
  digits_val (ip ++ frac.getD [])

/-- Spec wording: the exponent written: 0 when none is written or when no
digit follows the `e`. -/
def exponent_value (expo : Option (Bool × List Nat)) : Int :=
  match expo with
  | none => 0
  | some e => if e.1 then -(digits_val e.2 : Int) else (digits_val e.2 : Int)

/-- Spec wording: the power of ten by which the mantissa is scaled: the
exponent written less the number of digits after the point. -/
def literal_exponent (frac : Option (List Nat)) (expo : Option (Bool × List Nat)) : Int :=
  exponent_value expo - ((frac.getD []).length : Int)

/-- Spec wording: a `d2delta` line of the configuration file whose value is
the decimal literal given. -/
def d2delta_line (neg : Bool) (ip : List Nat) (frac : Option (List Nat))
    (expo : Option (Bool × List Nat)) : Line :=
  "d2delta ".toList ++ (literal_text neg ip frac expo ++ "\n".toList)

end Ieee

/-! ## Properties of the configuration file reader -/

/-- C1 (code bug): the line `dispchoice 7` carries an integer outside
{1,2,3,4}; `setup_file` stores 7 in `dispchoice` and keeps it, instead of
falling back to D21, and reports success.  The fallback is guarded by `&&`
where the sibling cases use `||`, so it is never taken for a scanned value. -/
theorem C1_dispchoice_seven_is_kept (setup : Setup) :
    setup_file setup (some ["dispchoice 7\n".toList])
      = ({ setup with dispchoice := 7 }, 0) ∧ (7 : Int) ≠ D21 := by
  have hk : read_setup_line "dispchoice 7\n".toList = DISPCHOICE := by decide
  have hv : sscanf_s_d "dispchoice 7\n".toList = some 7 := by decide
  have hd : data_line "dispchoice 7\n".toList = true := by decide
  refine ⟨?_, by decide⟩
  simp only [setup_file, setup_file_loop, setup_file_case, hk, hv, hd, int_and]
  simp

theorem case_no_error (s : Setup) (line : Line) :
    (setup_file_case s line).2 = true ↔ read_setup_line line ≠ SETUPERR := by
  unfold setup_file_case
  split <;> simp_all
  all_goals (split <;> simp_all)

theorem ask_flag_set (flag : Int) (inp : List Line) (r : Int × List Line)
    (h : ask_flag flag inp = some r) : r.1 ≠ UNSET := by
  unfold ask_flag at h
  split at h
  · cases inp with
    | nil => simp at h
    | cons line rest =>
      simp only [Option.some.injEq] at h
      rw [← h]
      split
      · show YES ≠ UNSET
        decide
      · show NO ≠ UNSET
        decide
  · simp only [Option.some.injEq] at h
    rw [← h]
    assumption

theorem ask_flag_kept (flag : Int) (inp : List Line) (hf : flag ≠ UNSET) :
    ask_flag flag inp = some (flag, inp) := by
  simp [ask_flag, hf]

theorem ask_dispchoice_frame (s : Setup) (inp : List Line) (r : Setup × List Line)
    (h : ask_dispchoice s inp = some r) :
    r.1 = { s with dispchoice := r.1.dispchoice } := by
  unfold ask_dispchoice at h
  split at h
  · cases inp with
    | nil => simp at h
    | cons line rest =>
      simp only at h
      split at h
      · simp only [Option.map_eq_some'] at h
        obtain ⟨a, _, ha⟩ := h
        rw [← ha]
      · simp only [Option.some.injEq] at h
        rw [← h]
  · simp only [Option.some.injEq] at h
    rw [← h]

theorem ask_d2delta_frame (s : Setup) (inp : List Line) (r : Setup × List Line)
    (h : ask_d2delta s inp = some r) :
    r.1 = { s with d2delta := r.1.d2delta } := by
  unfold ask_d2delta at h
  split at h
  · cases inp with
    | nil => simp at h
    | cons line rest =>
      simp only at h
      split at h
      · simp only [Option.map_eq_some'] at h
        obtain ⟨a, _, ha⟩ := h
        rw [← ha]
      · simp only [Option.some.injEq] at h
        rw [← h]
  · simp only [Option.some.injEq] at h
    rw [← h]

theorem ask_logs_frame (s : Setup) (inp : List Line) (r : Setup × List Line)
    (h : ask_logs s inp = some r) :
    r.1 = { s with chilog := r.1.chilog, xclog := r.1.xclog } := by
  unfold ask_logs at h
  simp only [Option.bind_eq_some] at h
  obtain ⟨a, _, b, _, hb⟩ := h
  simp only [Option.some.injEq] at hb
  rw [← hb]

/-- What `setup_delays` returns, block by block. -/
theorem setup_delays_blocks (s s' : Setup) (inp rest : List Line)
    (h : setup_delays s inp = some (s', rest)) :
    ∃ r1 r2 r3 : Setup × List Line,
      ask_flags s inp = some r1 ∧
      ask_dispchoice (smooth_gate r1.1) r1.2 = some r2 ∧
      ask_d2delta r2.1 r2.2 = some r3 ∧
      ask_logs r3.1 r3.2 = some (s', rest) := by
  unfold setup_delays at h
  simp only [Option.bind_eq_some] at h
  obtain ⟨r1, h1, r2, h2, r3, h3, h4⟩ := h
  exact ⟨r1, r2, r3, h1, h2, h3, h4⟩

/-- The members that the blocks after the method flags leave alone. -/
theorem setup_delays_flags (s s' : Setup) (inp rest : List Line)
    (h : setup_delays s inp = some (s', rest)) :
    ∃ r1 : Setup × List Line,
      ask_flags s inp = some r1 ∧
      s'.dochi = r1.1.dochi ∧ s'.doxcorr = r1.1.doxcorr ∧ s'.doacorr = r1.1.doacorr ∧
      s'.dodisp = r1.1.dodisp ∧ s'.dodcf = r1.1.dodcf ∧
      s'.docurvefit = r1.1.docurvefit ∧ s'.dosmooth = (smooth_gate r1.1).dosmooth := by
  obtain ⟨r1, r2, r3, h1, h2, h3, h4⟩ := setup_delays_blocks s s' inp rest h
  have f2 := ask_dispchoice_frame _ _ _ h2
  have f3 := ask_d2delta_frame _ _ _ h3
  have f4 := ask_logs_frame _ _ _ h4
  simp only at f4
  refine ⟨r1, h1, ?_⟩
  have g : ∀ t : Setup, (smooth_gate t).dochi = t.dochi ∧
      (smooth_gate t).doxcorr = t.doxcorr ∧ (smooth_gate t).doacorr = t.doacorr ∧
      (smooth_gate t).dodisp = t.dodisp ∧ (smooth_gate t).dodcf = t.dodcf ∧
      (smooth_gate t).docurvefit = t.docurvefit := by
    intro t
    unfold smooth_gate
    split <;> simp
  obtain ⟨g1, g2, g3, g4, g5, g6⟩ := g r1.1
  rw [f4, f3, f2]
  exact ⟨g1, g2, g3, g4, g5, g6, rfl⟩

theorem ask_flags_set (s : Setup) (inp : List Line) (r : Setup × List Line)
    (h : ask_flags s inp = some r) :
    r.1.dochi ≠ UNSET ∧ r.1.doxcorr ≠ UNSET ∧ r.1.doacorr ≠ UNSET ∧
      r.1.dodisp ≠ UNSET ∧ r.1.dodcf ≠ UNSET ∧ r.1.docurvefit ≠ UNSET := by
  unfold ask_flags at h
  simp only [Option.bind_eq_some] at h
  obtain ⟨a1, h1, a2, h2, a3, h3, a4, h4, a5, h5, a6, h6, hr⟩ := h
  simp only [Option.some.injEq] at hr
  rw [← hr]
  exact ⟨ask_flag_set _ _ _ h1, ask_flag_set _ _ _ h2, ask_flag_set _ _ _ h3,
    ask_flag_set _ _ _ h4, ask_flag_set _ _ _ h5, ask_flag_set _ _ _ h6⟩

/-- C5: whatever container enters `setup_delays` and whatever the operator
types, none of the six method flags is UNSET when `setup_delays` returns. -/
theorem C5_no_flag_unset_after_setup_delays (s s' : Setup) (inp rest : List Line)
    (h : setup_delays s inp = some (s', rest)) :
    s'.dochi ≠ UNSET ∧ s'.doxcorr ≠ UNSET ∧ s'.doacorr ≠ UNSET ∧
      s'.dodisp ≠ UNSET ∧ s'.dodcf ≠ UNSET ∧ s'.docurvefit ≠ UNSET := by
  obtain ⟨r1, h1, e1, e2, e3, e4, e5, e6, _⟩ := setup_delays_flags s s' inp rest h
  rw [e1, e2, e3, e4, e5, e6]
  exact ask_flags_set s inp r1 h1

/-- Witness of C5: a fresh container and an operator who accepts every
default. -/
theorem C5_witness :
    setup_delays fresh_setup [empty_line, empty_line, empty_line, empty_line]
        = some ({ fresh_setup with
                  dochi := NO, doxcorr := NO, dodisp := NO, docurvefit := NO
                  dosmooth := NOSMOOTH }, []) ∧
      (NO ≠ UNSET ∧ NO ≠ UNSET ∧ NO ≠ UNSET ∧ NO ≠ UNSET ∧ NO ≠ UNSET ∧ NO ≠ UNSET) :=
  ⟨by decide!,
    C5_no_flag_unset_after_setup_delays fresh_setup
      { fresh_setup with
        dochi := NO, doxcorr := NO, dodisp := NO, docurvefit := NO
        dosmooth := NOSMOOTH }
      [empty_line, empty_line, empty_line, empty_line] [] (by decide!)⟩

theorem ask_flags_dosmooth (s : Setup) (inp : List Line) (r : Setup × List Line)
    (h : ask_flags s inp = some r) : r.1.dosmooth = s.dosmooth := by
  unfold ask_flags at h
  simp only [Option.bind_eq_some] at h
  obtain ⟨a1, _, a2, _, a3, _, a4, _, a5, _, a6, _, hr⟩ := h
  simp only [Option.some.injEq] at hr
  rw [← hr]

/-- C3 (amended): when `setup_delays` returns with `dochi`, `doxcorr` and
`doacorr` all NO (zero), `dosmooth` is NOSMOOTH, whatever smoothing choice the
container held on entry; when one of the three is not zero, `dosmooth` is
what it was on entry. -/
theorem C3_nosmooth_when_flags_are_no (s s' : Setup) (inp rest : List Line)
    (h : setup_delays s inp = some (s', rest)) :
    (s'.dochi = NO ∧ s'.doxcorr = NO ∧ s'.doacorr = NO → s'.dosmooth = NOSMOOTH) ∧
      (¬ (s'.dochi = NO ∧ s'.doxcorr = NO ∧ s'.doacorr = NO) →
        s'.dosmooth = s.dosmooth) := by
  obtain ⟨r1, h1, e1, e2, e3, _, _, _, e7⟩ := setup_delays_flags s s' inp rest h
  have hs := ask_flags_dosmooth s inp r1 h1
  rw [e1, e2, e3, e7]
  unfold smooth_gate NO
  constructor
  · rintro ⟨a, b, c⟩
    simp [a, b, c]
  · intro hn
    have : r1.1.dochi ≠ 0 ∨ r1.1.doxcorr ≠ 0 ∨ r1.1.doacorr ≠ 0 := by
      by_contra hc
      push_neg at hc
      exact hn hc
    simp [this, hs]

/-- Witness of C3: the file asks for smoothing (`dosmooth 2`), the operator
chooses no method that interpolates, and `dosmooth` ends as NOSMOOTH. -/
theorem C3_witness :
    setup_delays (setup_file fresh_setup (some ["dosmooth 2\n".toList])).1
        [empty_line, empty_line, empty_line, empty_line]
        = some ({ fresh_setup with
                  dochi := NO, doxcorr := NO, dodisp := NO, docurvefit := NO
                  dosmooth := NOSMOOTH }, []) ∧
      (setup_file fresh_setup (some ["dosmooth 2\n".toList])).1.dosmooth = SMONLY ∧
      ((NO = NO ∧ NO = NO ∧ NO = NO → NOSMOOTH = NOSMOOTH) ∧
        (¬ (NO = NO ∧ NO = NO ∧ NO = NO) → NOSMOOTH = SMONLY)) :=
  ⟨by decide!, by decide!,
    C3_nosmooth_when_flags_are_no
      (setup_file fresh_setup (some ["dosmooth 2\n".toList])).1
      { fresh_setup with
        dochi := NO, doxcorr := NO, dodisp := NO, docurvefit := NO
        dosmooth := NOSMOOTH }
      [empty_line, empty_line, empty_line, empty_line] [] (by decide!)⟩

/-- C3 (counterexample): the file sets `dochi 2` and `dosmooth 2`; after
`setup_delays` none of `dochi`, `doxcorr`, `doacorr` equals YES (they are 2,
0 and 0), and yet `dosmooth` is still 2 (SMONLY), not NOSMOOTH. -/
theorem C3_counterexample :
    (setup_delays (setup_file fresh_setup (some C3_file)).1
        [empty_line, empty_line, empty_line, empty_line]).map
        (fun r => (r.1.dochi, r.1.doxcorr, r.1.doacorr, r.1.dosmooth, r.2))
      = some (2, NO, NO, SMONLY, []) ∧
      (2 : Int) ≠ YES ∧ NO ≠ YES ∧ SMONLY ≠ NOSMOOTH :=
  ⟨by rfl, by decide, by decide, by decide⟩

/-- C4 (code bug): the file line `dochi -1` carries an integer, which
`setup_file` stores: `dochi` is UNSET afterwards, so `setup_delays` asks the
operator for the flag, consumes the answer `y` and sets the flag to YES. -/
theorem C4_dochi_minus_one_is_asked :
    (setup_file fresh_setup (some C4_file)).1.dochi = UNSET ∧
      ask_flag (setup_file fresh_setup (some C4_file)).1.dochi ["y\n".toList, empty_line]
        = some (YES, [empty_line]) ∧
      (setup_delays (setup_file fresh_setup (some C4_file)).1
          ["y\n".toList, empty_line, empty_line, empty_line, empty_line]).map
          (fun r => (r.1.dochi, r.2))
        = some (YES, []) := by
  decide!

/-! ## Properties of `set_tau_grid` -/

theorem ask_tau0_frame (is : List Nat) :
    ∀ (s : Setup) (inp : List Line) (r : Setup × List Line),
      ask_tau0 is s inp = some r → r.1 = { s with tau0 := r.1.tau0 } := by
  induction is with
  | nil =>
    intro s inp r h
    simp only [ask_tau0, Option.some.injEq] at h
    rw [← h]
  | cons i is ih =>
    intro s inp r h
    cases inp with
    | nil => simp [ask_tau0] at h
    | cons line rest =>
      simp only [ask_tau0] at h
      split at h
      · split at h
        · simp at h
        · have := ih _ _ _ h
          rw [this]
      · exact ih _ _ _ h

theorem tau_seed_frame (s : Setup) (inp : List Line) (r : Setup × List Line)
    (h : tau_seed s inp = some r) : r.1 = { s with tau0 := r.1.tau0 } := by
  unfold tau_seed at h
  split at h
  · simp only [Option.some.injEq] at h
    rw [← h]
  · exact ask_tau0_frame _ _ _ _ h

theorem ask_dtau_frame (s : Setup) (inp : List Line) (r : Setup × List Line)
    (h : ask_dtau s inp = some r) : r.1 = { s with dtau := r.1.dtau } := by
  unfold ask_dtau at h
  split at h
  · cases inp with
    | nil => simp at h
    | cons line rest =>
      simp only at h
      split at h
      · simp only [Option.map_eq_some'] at h
        obtain ⟨a, _, ha⟩ := h
        rw [← ha]
      · simp only [Option.some.injEq] at h
        rw [← h]
  · simp only [Option.some.injEq] at h
    rw [← h]

/-- C7 (amended): for a strictly positive step `dtau` the default
floor(span / (4 * dtau)) of `set_tau_grid` is at least 1 exactly when
`span >= 4 * dtau`; for a span from 0 up to, and not including, `4 * dtau`
it is 0. -/
theorem C7_default_at_least_one_iff (span dtau : ℚ) (hd : 0 < dtau) :
    (1 ≤ ntau_default span dtau ↔ 4 * dtau ≤ span) ∧
      (0 ≤ span → span < 4 * dtau → ntau_default span dtau = 0) := by
  unfold ntau_default
  have h4 : (0 : ℚ) < 4 * dtau := by positivity
  constructor
  · rw [Int.le_floor, Int.cast_one, le_div_iff₀ h4, one_mul]
  · intro h0 h1
    rw [Int.floor_eq_iff]
    constructor
    · rw [Int.cast_zero]
      exact div_nonneg h0 (le_of_lt h4)
    · rw [Int.cast_zero, zero_add, div_lt_one h4]
      exact h1

/-- Witness of C7: span 100 and step 2. -/
theorem C7_witness :
    (0 : ℚ) < 2 ∧
      ((1 ≤ ntau_default 100 2 ↔ (4 : ℚ) * 2 ≤ 100) ∧
        ((0 : ℚ) ≤ 100 → (100 : ℚ) < 4 * 2 → ntau_default 100 2 = 0)) :=
  ⟨by norm_num, C7_default_at_least_one_iff 100 2 (by norm_num)⟩

/-- C7 (counterexample): span 1 and step 1 are strictly positive and the
default floor(1 / 4) is 0, which is not at least 1. -/
theorem C7_counterexample :
    (0 : ℚ) < 1 ∧ (0 : ℚ) < 1 ∧ ntau_default 1 1 = 0 ∧ ¬ (1 ≤ ntau_default 1 1) :=
  ⟨by norm_num, by norm_num, by decide!, by decide!⟩

/-! ## Properties of `set_mu_grid` -/

/-- C10: with `mu0[0] > 0` on entry `set_mu_grid` returns 0 and leaves the
four values of `mu0` as they are, whatever the curves; a second run on the
result returns 0 again with the same `mu0`. -/
theorem C10_mu0_kept_when_set (NFLUXSTEP : Int)
    (calc_mean_dt : List Fluxrec → Int → ℚ → ℚ → ℚ → ℚ → Int × ℚ)
    (mean mean' : Option (List ℚ)) (lc lc' : List (List Fluxrec))
    (npoints npoints' : List Int) (s : Setup) (h : s.mu0.get 0 0 > 0) :
    (set_mu_grid NFLUXSTEP calc_mean_dt mean lc npoints s).2 = 0 ∧
      (set_mu_grid NFLUXSTEP calc_mean_dt mean lc npoints s).1.mu0 = s.mu0 ∧
      (set_mu_grid NFLUXSTEP calc_mean_dt mean' lc' npoints'
          (set_mu_grid NFLUXSTEP calc_mean_dt mean lc npoints s).1).2 = 0 ∧
      (set_mu_grid NFLUXSTEP calc_mean_dt mean' lc' npoints'
          (set_mu_grid NFLUXSTEP calc_mean_dt mean lc npoints s).1).1.mu0
        = (set_mu_grid NFLUXSTEP calc_mean_dt mean lc npoints s).1.mu0 := by
  have key : ∀ (m : Option (List ℚ)) (l : List (List Fluxrec)) (np : List Int)
      (t : Setup), t.mu0.get 0 0 > 0 →
      (set_mu_grid NFLUXSTEP calc_mean_dt m l np t).2 = 0 ∧
        (set_mu_grid NFLUXSTEP calc_mean_dt m l np t).1.mu0 = t.mu0 := by
    intro m l np t ht
    unfold set_mu_grid
    by_cases hn : t.nmu = 0
    · have : ({ t with nmu := NFLUXSTEP } : Setup).mu0.get 0 0 > 0 := ht
      simp [hn, this]
    · simp [hn, ht]
  obtain ⟨k1, k2⟩ := key mean lc npoints s h
  have h' : (set_mu_grid NFLUXSTEP calc_mean_dt mean lc npoints s).1.mu0.get 0 0 > 0 := by
    rw [k2]
    exact h
  obtain ⟨k3, k4⟩ := key mean' lc' npoints' _ h'
  exact ⟨k1, k2, k3, k4⟩

/-- Witness of C10: the file set `mu0 1 2 0 0`; `set_mu_grid` returns 0 and
`mu0` is still 1, 2, 0, 0, also after a second run. -/
theorem C10_witness :
    C10_setup.mu0.get 0 0 > 0 ∧
      ((set_mu_grid 200 C10_calc_mean_dt (some [0, 0]) three_day_curves [2, 2] C10_setup).2 = 0 ∧
        (set_mu_grid 200 C10_calc_mean_dt (some [0, 0]) three_day_curves [2, 2] C10_setup).1.mu0
          = C10_setup.mu0 ∧
        (set_mu_grid 200 C10_calc_mean_dt none [] []
            (set_mu_grid 200 C10_calc_mean_dt (some [0, 0]) three_day_curves [2, 2]
              C10_setup).1).2 = 0 ∧
        (set_mu_grid 200 C10_calc_mean_dt none [] []
            (set_mu_grid 200 C10_calc_mean_dt (some [0, 0]) three_day_curves [2, 2]
              C10_setup).1).1.mu0
          = (set_mu_grid 200 C10_calc_mean_dt (some [0, 0]) three_day_curves [2, 2]
              C10_setup).1.mu0) ∧
      C10_setup.mu0 = ⟨1, 2, 0, 0⟩ :=
  ⟨by decide!,
    C10_mu0_kept_when_set 200 C10_calc_mean_dt (some [0, 0]) none three_day_curves [] [2, 2] []
      C10_setup (by decide!),
    by decide!⟩

/-! ## Properties of the flux-ratio derivation -/

theorem arr_get_natCast {α : Type} (a : List α) (j : Nat) (d : α) :
    arr_get a (j : Int) d = a.getD j d := by
  simp [arr_get]

/-- The mean that the loop of `set_mu_grid` asks `calc_mean_dt` to store for
curve `i`, the output slot holding `old`. -/
theorem mu_means_cons (calc_mean_dt : List Fluxrec → Int → ℚ → ℚ → ℚ → ℚ → Int × ℚ)
    (lc : List (List Fluxrec)) (npoints : List Int) (i : Nat) (is : List Nat)
    (st : List ℚ × Bool) :
    ∃ b : Bool,
      mu_means calc_mean_dt lc npoints (i :: is) st
        = mu_means calc_mean_dt lc npoints is
            (st.1.set i
              (calc_mean_dt (arr_get lc i []) (arr_get npoints i 0) (arr_get st.1 i 0)
                (lc_day lc i (Int.tdiv (arr_get npoints i 0) 4 - 1))
                (lc_day lc i (Int.tdiv (3 * arr_get npoints i 0) 4 - 1)) 0).2, b) :=
  ⟨_, rfl⟩

theorem mu_means_length (calc_mean_dt : List Fluxrec → Int → ℚ → ℚ → ℚ → ℚ → Int × ℚ)
    (lc : List (List Fluxrec)) (npoints : List Int) (is : List Nat) :
    ∀ st : List ℚ × Bool,
      (mu_means calc_mean_dt lc npoints is st).1.length = st.1.length := by
  induction is with
  | nil => intro st; rfl
  | cons i is ih =>
    intro st
    obtain ⟨b, hb⟩ := mu_means_cons calc_mean_dt lc npoints i is st
    rw [hb, ih]
    simp

theorem mu_means_get (calc_mean_dt : List Fluxrec → Int → ℚ → ℚ → ℚ → ℚ → Int × ℚ)
    (lc : List (List Fluxrec)) (npoints : List Int) (is : List Nat) (hnd : is.Nodup) :
    ∀ (st : List ℚ × Bool) (j : Nat), j < st.1.length →
      (mu_means calc_mean_dt lc npoints is st).1.getD j 0
        = if j ∈ is then
            (calc_mean_dt (arr_get lc j []) (arr_get npoints j 0) (st.1.getD j 0)
              (lc_day lc j (Int.tdiv (arr_get npoints j 0) 4 - 1))
              (lc_day lc j (Int.tdiv (3 * arr_get npoints j 0) 4 - 1)) 0).2
          else st.1.getD j 0 := by
  induction is with
  | nil => intro st j _; simp [mu_means]
  | cons i is ih =>
    intro st j hj
    obtain ⟨b, hb⟩ := mu_means_cons calc_mean_dt lc npoints i is st
    rw [hb]
    have hnd' := (List.nodup_cons.1 hnd)
    rw [ih hnd'.2 _ j (by simpa using hj)]
    by_cases hji : j = i
    · subst hji
      have hn : j ∉ is := hnd'.1
      simp only [hn, if_false, List.mem_cons, true_or, if_true, arr_get_natCast]
      rw [List.getD_eq_getElem?_getD, List.getElem?_set_self hj]
      rfl
    · have hne : i ≠ j := fun h => hji h.symm
      simp only [List.mem_cons, hji, false_or]
      rw [List.getD_eq_getElem?_getD, List.getElem?_set_ne hne, ← List.getD_eq_getElem?_getD]

theorem Arr4.get_set (a : Arr4) (i j : Int) (v d : ℚ) :
    (a.set i v).get j d = if i = j ∧ 0 ≤ j ∧ j < 4 then v else a.get j d := by
  unfold Arr4.set Arr4.get
  by_cases h0 : i = 0
  · subst h0
    by_cases j0 : j = 0
    · simp [j0]
    · have : ¬ ((0 : Int) = j) := fun h => j0 h.symm
      simp [j0, this]
  · by_cases h1 : i = 1
    · subst h1
      by_cases j1 : j = 1
      · simp [j1]
      · have : ¬ ((1 : Int) = j) := fun h => j1 h.symm
        simp [j1, this]
    · by_cases h2 : i = 2
      · subst h2
        by_cases j2 : j = 2
        · simp [j2]
        · have : ¬ ((2 : Int) = j) := fun h => j2 h.symm
          simp [j2, this]
      · by_cases h3 : i = 3
        · subst h3
          by_cases j3 : j = 3
          · simp [j3]
          · have : ¬ ((3 : Int) = j) := fun h => j3 h.symm
            simp [j3, this]
        · have : ¬ (i = j ∧ 0 ≤ j ∧ j < 4) := by omega
          simp [h0, h1, h2, h3, this]

theorem mu_ratios_get (mean : List ℚ) (is : List Nat) (hnd : is.Nodup) :
    ∀ (mu0 : Arr4) (j : Nat), j < 4 →
      (mu_ratios mean is mu0).get j 0
        = if j ∈ is then arr_get mean j 0 / arr_get mean 0 0 else mu0.get j 0 := by
  induction is with
  | nil => intro mu0 j _; simp [mu_ratios]
  | cons i is ih =>
    intro mu0 j hj
    have hnd' := (List.nodup_cons.1 hnd)
    simp only [mu_ratios]
    rw [ih hnd'.2 _ j hj, Arr4.get_set]
    by_cases hji : j = i
    · subst hji
      have hn : j ∉ is := hnd'.1
      have : (j : Int) < 4 := by omega
      simp [hn, this]
    · have hne : ¬ ((i : Int) = (j : Int)) := by omega
      simp [hji, hne]

/-- What the derivation of `set_mu_grid` leaves in `mu0[i]` and in `mean[i]`
for a curve `i` below `ncurves`. -/
theorem set_mu_grid_derived (NFLUXSTEP : Int)
    (calc_mean_dt : List Fluxrec → Int → ℚ → ℚ → ℚ → ℚ → Int × ℚ)
    (mean0 : List ℚ) (lc : List (List Fluxrec)) (npoints : List Int) (s : Setup)
    (i : Nat) (hskip : ¬ s.mu0.get 0 0 > 0) (hroom : mean0.length = s.ncurves.toNat)
    (hi : (i : Int) < s.ncurves) (hi4 : i < 4) :
    (set_mu_grid NFLUXSTEP calc_mean_dt (some mean0) lc npoints s).1.mu0.get i 0
      = (calc_mean_dt (arr_get lc i []) (arr_get npoints i 0) (arr_get mean0 i 0)
          (lc_day lc i (Int.tdiv (arr_get npoints i 0) 4 - 1))
          (lc_day lc i (Int.tdiv (3 * arr_get npoints i 0) 4 - 1)) 0).2
        / (calc_mean_dt (arr_get lc 0 []) (arr_get npoints 0 0) (arr_get mean0 0 0)
          (lc_day lc 0 (Int.tdiv (arr_get npoints 0 0) 4 - 1))
          (lc_day lc 0 (Int.tdiv (3 * arr_get npoints 0 0) 4 - 1)) 0).2 := by
  have hin : i < s.ncurves.toNat := by omega
  have h0n : 0 < s.ncurves.toNat := by omega
  have hskip' : ∀ t : Setup, t.mu0 = s.mu0 → t.ncurves = s.ncurves →
      (if t.mu0.get 0 0 > 0 then (t, (0 : Int))
        else ({ t with
                mu0 := mu_ratios
                  (mu_means calc_mean_dt lc npoints (List.range t.ncurves.toNat)
                    (mean0, true)).1 (List.range t.ncurves.toNat) t.mu0 }, 0)).1.mu0.get i 0
        = (mu_ratios
            (mu_means calc_mean_dt lc npoints (List.range s.ncurves.toNat)
              (mean0, true)).1 (List.range s.ncurves.toNat) s.mu0).get i 0 := by
    intro t h1 h2
    rw [h1, h2, if_neg hskip]
  have e : (set_mu_grid NFLUXSTEP calc_mean_dt (some mean0) lc npoints s).1.mu0.get i 0
      = (mu_ratios
            (mu_means calc_mean_dt lc npoints (List.range s.ncurves.toNat)
              (mean0, true)).1 (List.range s.ncurves.toNat) s.mu0).get i 0 := by
    unfold set_mu_grid
    by_cases hn : s.nmu = 0
    · simp only [hn, if_true]
      exact hskip' { s with nmu := NFLUXSTEP } rfl rfl
    · simp only [hn, if_false]
      exact hskip' s rfl rfl
  rw [e, mu_ratios_get _ _ (List.nodup_range _) _ i hi4]
  simp only [List.mem_range, hin, if_true]
  have g := mu_means_get calc_mean_dt lc npoints (List.range s.ncurves.toNat)
    (List.nodup_range _) (mean0, true)
  have gi := g i (by simpa [hroom] using hin)
  have g0 := g 0 (by simpa [hroom] using h0n)
  simp only [List.mem_range, hin, h0n, if_true] at gi g0
  rw [arr_get_natCast, gi]
  have z : arr_get (mu_means calc_mean_dt lc npoints (List.range s.ncurves.toNat)
      (mean0, true)).1 0 0
      = (mu_means calc_mean_dt lc npoints (List.range s.ncurves.toNat)
          (mean0, true)).1.getD 0 0 := arr_get_natCast _ 0 0
  rw [z, g0]
  simp [arr_get]

/-- C11 (amended): with `mu0[0] > 0` on entry `set_mu_grid` returns 0 without
deriving anything: every member of the container is as it was, except that
`nmu`, when it is 0 on entry, has been set to the default `NFLUXSTEP` before
the test of `mu0[0]`. -/
theorem C11_skip_keeps_all_but_nmu (NFLUXSTEP : Int)
    (calc_mean_dt : List Fluxrec → Int → ℚ → ℚ → ℚ → ℚ → Int × ℚ)
    (mean : Option (List ℚ)) (lc : List (List Fluxrec)) (npoints : List Int)
    (s : Setup) (h : s.mu0.get 0 0 > 0) :
    set_mu_grid NFLUXSTEP calc_mean_dt mean lc npoints s
      = ({ s with nmu := if s.nmu = 0 then NFLUXSTEP else s.nmu }, 0) := by
  unfold set_mu_grid
  by_cases hn : s.nmu = 0
  · have : ({ s with nmu := NFLUXSTEP } : Setup).mu0.get 0 0 > 0 := h
    simp [hn, this]
  · simp only [hn, if_false, h, if_true]

/-- Witness of C11: the file set `mu0 1 2 0 0` and `nmu 50`; nothing changes. -/
theorem C11_witness :
    C11_setup_nmu.mu0.get 0 0 > 0 ∧
      set_mu_grid 200 mean_flux_dt (some [0, 0]) flat_curves [4, 4] C11_setup_nmu
        = ({ C11_setup_nmu with
             nmu := if C11_setup_nmu.nmu = 0 then 200 else C11_setup_nmu.nmu }, 0) ∧
      (set_mu_grid 200 mean_flux_dt (some [0, 0]) flat_curves [4, 4] C11_setup_nmu).1
        = C11_setup_nmu :=
  ⟨by decide!,
    C11_skip_keeps_all_but_nmu 200 mean_flux_dt (some [0, 0]) flat_curves [4, 4]
      C11_setup_nmu (by decide!),
    by decide!⟩

/-- C11 (counterexample): the file set `mu0 1 2 0 0` and no `nmu`, so that
`mu0[0] > 0` and `nmu = 0` on entry; with the default `NFLUXSTEP` = 200 the
derivation is skipped and yet `nmu` is 200 on return, and no non-zero default
leaves `nmu` as it was. -/
theorem C11_counterexample :
    C11_setup.mu0.get 0 0 > 0 ∧ C11_setup.nmu = 0 ∧
      (set_mu_grid 200 mean_flux_dt (some [0, 0]) flat_curves [4, 4] C11_setup).1.nmu
        = 200 ∧
      ¬ ∃ n : Int, n ≠ 0 ∧
        (set_mu_grid n mean_flux_dt (some [0, 0]) flat_curves [4, 4] C11_setup).1.nmu
          = C11_setup.nmu := by
  refine ⟨by decide!, by decide!, by decide!, ?_⟩
  rintro ⟨n, hn, h⟩
  have hpos : C11_setup.mu0.get 0 0 > 0 := by decide!
  have hz : C11_setup.nmu = 0 := by decide!
  rw [C11_skip_keeps_all_but_nmu n mean_flux_dt (some [0, 0]) flat_curves [4, 4]
    C11_setup hpos] at h
  simp only [hz, if_true] at h
  exact hn h

theorem tdiv_four_eq_floor (n : Int) (h : 0 ≤ n) : Int.tdiv n 4 = ⌊(n : ℚ) / 4⌋ := by
  rw [Int.tdiv_eq_ediv h (by decide)]
  have := Rat.floor_intCast_div_natCast n 4
  simpa using this.symm

theorem tdiv_three_four_eq_floor (n : Int) (h : 0 ≤ n) :
    Int.tdiv (3 * n) 4 = ⌊3 * (n : ℚ) / 4⌋ := by
  rw [tdiv_four_eq_floor (3 * n) (by omega)]
  push_cast
  rfl

/-- For a curve with a number of points that is not negative, the window that
`set_mu_grid` passes to `calc_mean_dt` is the one of the spec wording. -/
theorem windowed_mean_eq (calc_mean_dt : List Fluxrec → Int → ℚ → ℚ → ℚ → ℚ → Int × ℚ)
    (lc : List (List Fluxrec)) (npoints : List Int) (mean0 : List ℚ) (i : Nat)
    (h : 0 ≤ arr_get npoints i 0) :
    windowed_mean calc_mean_dt lc npoints mean0 i
      = (calc_mean_dt (arr_get lc i []) (arr_get npoints i 0) (arr_get mean0 i 0)
          (lc_day lc i (Int.tdiv (arr_get npoints i 0) 4 - 1))
          (lc_day lc i (Int.tdiv (3 * arr_get npoints i 0) 4 - 1)) 0).2 := by
  unfold windowed_mean day_at_position
  rw [tdiv_four_eq_floor _ h, tdiv_three_four_eq_floor _ h]

/-- C12: when `set_mu_grid` performs the derivation, for every curve `i` the
mean kept in `mean[i]` is the one `calc_mean_dt` stores for the window bounded
by the points at 1-based positions floor(N_i/4) and floor(3*N_i/4), and on
return `mu0[i]` is that mean divided by the one of curve 0 (the array `mean`
has one slot per curve, the numbers of points are not negative, `i` is one of
the four slots of `mu0`). -/
theorem C12_mu0_is_ratio_of_windowed_means (NFLUXSTEP : Int)
    (calc_mean_dt : List Fluxrec → Int → ℚ → ℚ → ℚ → ℚ → Int × ℚ)
    (mean0 : List ℚ) (lc : List (List Fluxrec)) (npoints : List Int) (s : Setup)
    (i : Nat) (hskip : ¬ s.mu0.get 0 0 > 0) (hroom : mean0.length = s.ncurves.toNat)
    (hn : ∀ j : Nat, (j : Int) < s.ncurves → 0 ≤ arr_get npoints j 0)
    (hi : (i : Int) < s.ncurves) (hi4 : i < 4) :
    arr_get (mu_means calc_mean_dt lc npoints (List.range s.ncurves.toNat)
        (mean0, true)).1 i 0 = windowed_mean calc_mean_dt lc npoints mean0 i ∧
      (set_mu_grid NFLUXSTEP calc_mean_dt (some mean0) lc npoints s).1.mu0.get i 0
        = windowed_mean calc_mean_dt lc npoints mean0 i
          / windowed_mean calc_mean_dt lc npoints mean0 0 := by
  have hin : i < s.ncurves.toNat := by omega
  have h0 : ((0 : Nat) : Int) < s.ncurves := by omega
  constructor
  · rw [windowed_mean_eq _ _ _ _ _ (hn i hi), arr_get_natCast,
      mu_means_get calc_mean_dt lc npoints _ (List.nodup_range _) (mean0, true) i
        (by simpa [hroom] using hin)]
    simp [hin, arr_get]
  · rw [windowed_mean_eq _ _ _ _ _ (hn i hi), windowed_mean_eq _ _ _ _ _ (hn 0 h0)]
    exact set_mu_grid_derived NFLUXSTEP calc_mean_dt mean0 lc npoints s i hskip hroom hi hi4

/-- Witness of C12: two curves of constant flux 2 and 6, the mean taken as
the arithmetic mean of the window: `mu0[1]` is 6 / 2 = 3. -/
theorem C12_witness :
    ¬ four_point_setup.mu0.get 0 0 > 0 ∧
      ([0, 0] : List ℚ).length = four_point_setup.ncurves.toNat ∧
      (∀ j : Nat, (j : Int) < four_point_setup.ncurves → 0 ≤ arr_get ([4, 4] : List Int) j 0) ∧
      ((1 : Nat) : Int) < four_point_setup.ncurves ∧
      (arr_get (mu_means mean_flux_dt flat_curves [4, 4]
            (List.range four_point_setup.ncurves.toNat) ([0, 0], true)).1 (1 : Nat) 0
          = windowed_mean mean_flux_dt flat_curves [4, 4] [0, 0] 1 ∧
        (set_mu_grid 200 mean_flux_dt (some [0, 0]) flat_curves [4, 4]
            four_point_setup).1.mu0.get (1 : Nat) 0
          = windowed_mean mean_flux_dt flat_curves [4, 4] [0, 0] 1
            / windowed_mean mean_flux_dt flat_curves [4, 4] [0, 0] 0) ∧
      (set_mu_grid 200 mean_flux_dt (some [0, 0]) flat_curves [4, 4]
          four_point_setup).1.mu0 = ⟨1, 3, 0, 0⟩ := by
  have hn : ∀ j : Nat, (j : Int) < four_point_setup.ncurves → 0 ≤ arr_get ([4, 4] : List Int) j 0 := by
    intro j hj
    have h2 : four_point_setup.ncurves = 2 := by decide!
    rw [h2] at hj
    have : j = 0 ∨ j = 1 := by omega
    rcases this with rfl | rfl <;> decide
  exact ⟨by decide!, by decide!, hn, by decide!,
    C12_mu0_is_ratio_of_windowed_means 200 mean_flux_dt [0, 0] flat_curves [4, 4]
      four_point_setup 1 (by decide!) (by decide!) hn (by decide!) (by decide),
    by decide!⟩

/-- C13 (amended): when `set_mu_grid` performs the derivation on at least one
curve and the windowed mean of curve 0 is not zero, `mu0[0]` is exactly 1 on
return. -/
theorem C13_mu0_zero_is_one (NFLUXSTEP : Int)
    (calc_mean_dt : List Fluxrec → Int → ℚ → ℚ → ℚ → ℚ → Int × ℚ)
    (mean0 : List ℚ) (lc : List (List Fluxrec)) (npoints : List Int) (s : Setup)
    (hskip : ¬ s.mu0.get 0 0 > 0) (hroom : mean0.length = s.ncurves.toNat)
    (hc : 0 < s.ncurves) (hn : 0 ≤ arr_get npoints 0 0)
    (hm : windowed_mean calc_mean_dt lc npoints mean0 0 ≠ 0) :
    (set_mu_grid NFLUXSTEP calc_mean_dt (some mean0) lc npoints s).1.mu0.get 0 0 = 1 := by
  have h := set_mu_grid_derived NFLUXSTEP calc_mean_dt mean0 lc npoints s 0 hskip hroom
    (by simpa using hc) (by decide)
  have hw := windowed_mean_eq calc_mean_dt lc npoints mean0 0 (by simpa using hn)
  simp only [Nat.cast_zero] at h hw
  rw [h, ← hw]
  exact div_self hm

/-- Witness of C13: two curves of constant flux 2 and 6. -/
theorem C13_witness :
    ¬ four_point_setup.mu0.get 0 0 > 0 ∧
      ([0, 0] : List ℚ).length = four_point_setup.ncurves.toNat ∧
      0 < four_point_setup.ncurves ∧ 0 ≤ arr_get ([4, 4] : List Int) 0 0 ∧
      windowed_mean mean_flux_dt flat_curves [4, 4] [0, 0] 0 ≠ 0 ∧
      (set_mu_grid 200 mean_flux_dt (some [0, 0]) flat_curves [4, 4]
          four_point_setup).1.mu0.get 0 0 = 1 :=
  ⟨by decide!, by decide!, by decide!, by decide, by decide!,
    C13_mu0_zero_is_one 200 mean_flux_dt [0, 0] flat_curves [4, 4] four_point_setup
      (by decide!) (by decide!) (by decide!) (by decide) (by decide!)⟩

/-- C13 (counterexample): two curves whose fluxes are all 0, the mean taken
as the arithmetic mean of the window: the derivation is performed, it
returns 0, the mean of curve 0 is 0 and `mu0[0]`, the quotient 0 / 0, is not
1 (it is 0 here, and not a number in floating point). -/
theorem C13_counterexample :
    ¬ four_point_setup.mu0.get 0 0 > 0 ∧
      (set_mu_grid 200 mean_flux_dt (some [0, 0]) dark_curves [4, 4]
          four_point_setup).2 = 0 ∧
      windowed_mean mean_flux_dt dark_curves [4, 4] [0, 0] 0 = 0 ∧
      (set_mu_grid 200 mean_flux_dt (some [0, 0]) dark_curves [4, 4]
          four_point_setup).1.mu0.get 0 0 = 0 ∧
      (0 : ℚ) ≠ 1 :=
  ⟨by decide!, by decide!, by decide!, by decide!, by decide⟩

/-- C14 (code bug): `set_mu_grid` returns 0 whenever the array of means is
allocated, whatever `calc_mean_dt` returns: the flag `no_error`, which the
loop clears when `calc_mean_dt` fails, is not read before `return 0`.  With
a `calc_mean_dt` that fails on both curves the flag is cleared and the
function still returns 0. -/
theorem C14_set_mu_grid_returns_zero (NFLUXSTEP : Int)
    (calc_mean_dt : List Fluxrec → Int → ℚ → ℚ → ℚ → ℚ → Int × ℚ)
    (mean0 : List ℚ) (lc : List (List Fluxrec)) (npoints : List Int) (s : Setup) :
    (set_mu_grid NFLUXSTEP calc_mean_dt (some mean0) lc npoints s).2 = 0 ∧
      (mu_means failing_mean_dt flat_curves [4, 4]
          (List.range four_point_setup.ncurves.toNat) ([0, 0], true)).2 = false ∧
      (set_mu_grid 200 failing_mean_dt (some [0, 0]) flat_curves [4, 4]
          four_point_setup).2 = 0 := by
  refine ⟨?_, by decide!, by decide!⟩
  unfold set_mu_grid
  by_cases hn : s.nmu = 0
  · simp only [hn, if_true]
    split <;> rfl
  · simp only [hn, if_false]
    split <;> rfl

/-! ## Properties of `read_setup_line` and of the line filter -/

theorem read_setup_line_congr (l1 l2 : Line) (h : sscanf_s l1 = sscanf_s l2) :
    read_setup_line l1 = read_setup_line l2 := by
  unfold read_setup_line
  rw [h]

theorem keyword_table_codes :
    ∀ p ∈ keyword_table,
      sscanf_s p.1.toList = some p.1.toList ∧ read_setup_line p.1.toList = p.2 ∧
      sscanf_s (upper_case p.1) = some (upper_case p.1) ∧
      read_setup_line (upper_case p.1) = p.2 ∧ p.2 ≠ DEFAULT ∧ p.2 ≠ SETUPERR := by
  decide

theorem kw_is_false (tok : Line) (lo up : String) (code : Keyword)
    (hall : ∀ p ∈ keyword_table, tok ≠ p.1.toList ∧ tok ≠ upper_case p.1)
    (hm : (lo, code) ∈ keyword_table) (hu : upper_case lo = up.toList) :
    kw_is tok lo up = false := by
  have h := hall (lo, code) hm
  rw [hu] at h
  unfold kw_is
  have h1 : decide (tok = lo.toList) = false := decide_eq_false h.1
  have h2 : decide (tok = up.toList) = false := decide_eq_false h.2
  rw [h1, h2]
  rfl

/-- A token that is none of the 34 keywords in lower-case or upper-case
spelling has the code DEFAULT. -/
theorem read_setup_line_default (line tok : Line) (h : sscanf_s line = some tok)
    (hall : ∀ p ∈ keyword_table, tok ≠ p.1.toList ∧ tok ≠ upper_case p.1) :
    read_setup_line line = DEFAULT := by
  unfold read_setup_line
  rw [h]
  simp only [kw_is_false tok "dochi" "DOCHI" DOCHI hall (by decide) (by decide),
    kw_is_false tok "doxcorr" "DOXCORR" DOXCORR hall (by decide) (by decide),
    kw_is_false tok "doacorr" "DOACORR" DOACORR hall (by decide) (by decide),
    kw_is_false tok "dodisp" "DODISP" DODISP hall (by decide) (by decide),
    kw_is_false tok "dodcf" "DODCF" DODCF hall (by decide) (by decide),
    kw_is_false tok "docurvefit" "DOCURVEFIT" DOCURVEFIT hall (by decide) (by decide),
    kw_is_false tok "dispchoice" "DISPCHOICE" DISPCHOICE hall (by decide) (by decide),
    kw_is_false tok "d2delta" "D2DELTA" D2DELTA hall (by decide) (by decide),
    kw_is_false tok "dooverlap" "DOOVERLAP" DOOVERLAP hall (by decide) (by decide),
    kw_is_false tok "outfile" "OUTFILE" OUTFILE hall (by decide) (by decide),
    kw_is_false tok "achifile" "ACHIFILE" ACHIFILE hall (by decide) (by decide),
    kw_is_false tok "cchifile" "CCHIFILE" CCHIFILE hall (by decide) (by decide),
    kw_is_false tok "dchifile" "DCHIFILE" DCHIFILE hall (by decide) (by decide),
    kw_is_false tok "mu0" "MU0" MU0 hall (by decide) (by decide),
    kw_is_false tok "nmu" "NMU" NMU hall (by decide) (by decide),
    kw_is_false tok "tau0" "TAU0" TAU0 hall (by decide) (by decide),
    kw_is_false tok "dtau" "DTAU" DTAU hall (by decide) (by decide),
    kw_is_false tok "ntau" "NTAU" NTAU hall (by decide) (by decide),
    kw_is_false tok "dosmooth" "DOSMOOTH" DOSMOOTH hall (by decide) (by decide),
    kw_is_false tok "boxcar" "BOXCAR" BOXCAR hall (by decide) (by decide),
    kw_is_false tok "median" "MEDIAN" MEDIAN hall (by decide) (by decide),
    kw_is_false tok "varbox" "VARBOX" VARBOX hall (by decide) (by decide),
    kw_is_false tok "vartri" "VARTRI" VARTRI hall (by decide) (by decide),
    kw_is_false tok "triangle" "TRIANGLE" TRIANGLE hall (by decide) (by decide),
    kw_is_false tok "gauss" "GAUSS" GAUSS hall (by decide) (by decide),
    kw_is_false tok "ninterp" "NINTERP" NINTERP hall (by decide) (by decide),
    kw_is_false tok "intstep" "INTSTEP" INTSTEP hall (by decide) (by decide),
    kw_is_false tok "intstart" "INTSTART" INTSTART hall (by decide) (by decide),
    kw_is_false tok "askstart" "ASKSTART" ASKSTART hall (by decide) (by decide),
    kw_is_false tok "chilog" "CHILOG" CHILOG hall (by decide) (by decide),
    kw_is_false tok "xclog" "XCLOG" XCLOG hall (by decide) (by decide),
    kw_is_false tok "flagbad" "FLAGBAD" FLAGBAD hall (by decide) (by decide),
    kw_is_false tok "meanchoice" "MEANCHOICE" MEANCHOICE hall (by decide) (by decide),
    kw_is_false tok "root" "ROOT" ROOT hall (by decide) (by decide),
    Bool.false_eq_true, if_false]

theorem char_upper_lower (c : Char) : c.toLower.toUpper = c.toUpper := by
  by_cases h : 65 ≤ c.toNat ∧ c.toNat ≤ 90
  · have hc : c = Char.ofNat c.toNat := (Char.ofNat_toNat c).symm
    obtain ⟨h1, h2⟩ := h
    generalize c.toNat = n at hc h1 h2
    subst hc
    interval_cases n <;> decide
  · have : c.toLower = c := by
      unfold Char.toLower
      simp only [ge_iff_le, h, if_false]
    rw [this]

theorem char_lower_upper (c : Char) : c.toUpper.toLower = c.toLower := by
  by_cases h : 97 ≤ c.toNat ∧ c.toNat ≤ 122
  · have hc : c = Char.ofNat c.toNat := (Char.ofNat_toNat c).symm
    obtain ⟨h1, h2⟩ := h
    generalize c.toNat = n at hc h1 h2
    subst hc
    interval_cases n <;> decide
  · have : c.toUpper = c := by
      unfold Char.toUpper
      simp only [ge_iff_le, h, if_false]
    rw [this]

theorem char_lower_lower (c : Char) : c.toLower.toLower = c.toLower := by
  by_cases h : 65 ≤ c.toNat ∧ c.toNat ≤ 90
  · have hc : c = Char.ofNat c.toNat := (Char.ofNat_toNat c).symm
    obtain ⟨h1, h2⟩ := h
    generalize c.toNat = n at hc h1 h2
    subst hc
    interval_cases n <;> decide
  · have : c.toLower = c := by
      unfold Char.toLower
      simp only [ge_iff_le, h, if_false]
    rw [this, this]

theorem char_upper_upper (c : Char) : c.toUpper.toUpper = c.toUpper := by
  by_cases h : 97 ≤ c.toNat ∧ c.toNat ≤ 122
  · have hc : c = Char.ofNat c.toNat := (Char.ofNat_toNat c).symm
    obtain ⟨h1, h2⟩ := h
    generalize c.toNat = n at hc h1 h2
    subst hc
    interval_cases n <;> decide
  · have : c.toUpper = c := by
      unfold Char.toUpper
      simp only [ge_iff_le, h, if_false]
    rw [this, this]

/-- The test of one keyword gives the same answer on the lower-case and on the
upper-case spelling of a token. -/
theorem kw_is_case (t : Line) (lo up : String)
    (h1 : lo.toList.map Char.toUpper = up.toList)
    (h2 : up.toList.map Char.toLower = lo.toList) (h3 : lo.toList ≠ up.toList) :
    kw_is (t.map Char.toLower) lo up = kw_is (t.map Char.toUpper) lo up := by
  have hLU : (t.map Char.toLower).map Char.toUpper = t.map Char.toUpper := by
    rw [List.map_map]
    exact List.map_congr_left (fun c _ => char_upper_lower c)
  have hUL : (t.map Char.toUpper).map Char.toLower = t.map Char.toLower := by
    rw [List.map_map]
    exact List.map_congr_left (fun c _ => char_lower_upper c)
  have hLL : (t.map Char.toLower).map Char.toLower = t.map Char.toLower := by
    rw [List.map_map]
    exact List.map_congr_left (fun c _ => char_lower_lower c)
  have hUU : (t.map Char.toUpper).map Char.toUpper = t.map Char.toUpper := by
    rw [List.map_map]
    exact List.map_congr_left (fun c _ => char_upper_upper c)
  have a1 : t.map Char.toLower ≠ up.toList := by
    intro h
    rw [h, h2] at hLL
    exact h3 hLL
  have a2 : t.map Char.toUpper ≠ lo.toList := by
    intro h
    rw [h, h1] at hUU
    exact h3 hUU.symm
  have a3 : t.map Char.toLower = lo.toList ↔ t.map Char.toUpper = up.toList := by
    constructor
    · intro h
      rw [← hLU, h, h1]
    · intro h
      rw [← hUL, h, h2]
  unfold kw_is
  rw [decide_eq_false a1, decide_eq_false a2, Bool.or_false, Bool.false_or]
  exact decide_eq_decide.2 a3

/-- C15 (amended): `read_setup_line` returns the same code for the
all-lower-case and for the all-upper-case spelling of a token. -/
theorem C15_lower_and_upper_spelling_agree (l1 l2 t : Line)
    (h1 : sscanf_s l1 = some (t.map Char.toLower))
    (h2 : sscanf_s l2 = some (t.map Char.toUpper)) :
    read_setup_line l1 = read_setup_line l2 := by
  unfold read_setup_line
  rw [h1, h2]
  simp only [kw_is_case t "dochi" "DOCHI" (by decide) (by decide) (by decide),
    kw_is_case t "doxcorr" "DOXCORR" (by decide) (by decide) (by decide),
    kw_is_case t "doacorr" "DOACORR" (by decide) (by decide) (by decide),
    kw_is_case t "dodisp" "DODISP" (by decide) (by decide) (by decide),
    kw_is_case t "dodcf" "DODCF" (by decide) (by decide) (by decide),
    kw_is_case t "docurvefit" "DOCURVEFIT" (by decide) (by decide) (by decide),
    kw_is_case t "dispchoice" "DISPCHOICE" (by decide) (by decide) (by decide),
    kw_is_case t "d2delta" "D2DELTA" (by decide) (by decide) (by decide),
    kw_is_case t "dooverlap" "DOOVERLAP" (by decide) (by decide) (by decide),
    kw_is_case t "outfile" "OUTFILE" (by decide) (by decide) (by decide),
    kw_is_case t "achifile" "ACHIFILE" (by decide) (by decide) (by decide),
    kw_is_case t "cchifile" "CCHIFILE" (by decide) (by decide) (by decide),
    kw_is_case t "dchifile" "DCHIFILE" (by decide) (by decide) (by decide),
    kw_is_case t "mu0" "MU0" (by decide) (by decide) (by decide),
    kw_is_case t "nmu" "NMU" (by decide) (by decide) (by decide),
    kw_is_case t "tau0" "TAU0" (by decide) (by decide) (by decide),
    kw_is_case t "dtau" "DTAU" (by decide) (by decide) (by decide),
    kw_is_case t "ntau" "NTAU" (by decide) (by decide) (by decide),
    kw_is_case t "dosmooth" "DOSMOOTH" (by decide) (by decide) (by decide),
    kw_is_case t "boxcar" "BOXCAR" (by decide) (by decide) (by decide),
    kw_is_case t "median" "MEDIAN" (by decide) (by decide) (by decide),
    kw_is_case t "varbox" "VARBOX" (by decide) (by decide) (by decide),
    kw_is_case t "vartri" "VARTRI" (by decide) (by decide) (by decide),
    kw_is_case t "triangle" "TRIANGLE" (by decide) (by decide) (by decide),
    kw_is_case t "gauss" "GAUSS" (by decide) (by decide) (by decide),
    kw_is_case t "ninterp" "NINTERP" (by decide) (by decide) (by decide),
    kw_is_case t "intstep" "INTSTEP" (by decide) (by decide) (by decide),
    kw_is_case t "intstart" "INTSTART" (by decide) (by decide) (by decide),
    kw_is_case t "askstart" "ASKSTART" (by decide) (by decide) (by decide),
    kw_is_case t "chilog" "CHILOG" (by decide) (by decide) (by decide),
    kw_is_case t "xclog" "XCLOG" (by decide) (by decide) (by decide),
    kw_is_case t "flagbad" "FLAGBAD" (by decide) (by decide) (by decide),
    kw_is_case t "meanchoice" "MEANCHOICE" (by decide) (by decide) (by decide),
    kw_is_case t "root" "ROOT" (by decide) (by decide) (by decide)]

/-- Witness of C15: the lines `dochi 1` and `DOCHI 1`. -/
theorem C15_witness :
    sscanf_s "dochi 1\n".toList = some ("DoChi".toList.map Char.toLower) ∧
      sscanf_s "DOCHI 1\n".toList = some ("DoChi".toList.map Char.toUpper) ∧
      read_setup_line "dochi 1\n".toList = read_setup_line "DOCHI 1\n".toList ∧
      read_setup_line "dochi 1\n".toList = DOCHI :=
  ⟨by decide, by decide,
    C15_lower_and_upper_spelling_agree "dochi 1\n".toList "DOCHI 1\n".toList
      "DoChi".toList (by decide) (by decide),
    by decide⟩

/-- C15 (counterexample): the keyword tokens `dochi` and `DoChi` differ only
in the case of their letters, and `read_setup_line` returns DOCHI for the
first and DEFAULT for the second. -/
theorem C15_counterexample :
    sscanf_s "dochi 1\n".toList = some "dochi".toList ∧
      sscanf_s "DoChi 1\n".toList = some "DoChi".toList ∧
      "dochi".toList.map Char.toLower = "DoChi".toList.map Char.toLower ∧
      read_setup_line "dochi 1\n".toList = DOCHI ∧
      read_setup_line "DoChi 1\n".toList = DEFAULT ∧
      read_setup_line "dochi 1\n".toList ≠ read_setup_line "DoChi 1\n".toList := by
  decide

/-- C16: each of the 34 keywords, written in lower case, has its own code,
which is neither DEFAULT nor SETUPERR, and every token that is none of the 34
keywords in all-lower-case or all-upper-case spelling has the code DEFAULT. -/
theorem C16_keyword_codes :
    keyword_table.length = 34 ∧
      (keyword_table.map (fun p => p.2)).Nodup ∧
      (∀ p ∈ keyword_table, ∀ line : Line, sscanf_s line = some p.1.toList →
        read_setup_line line = p.2 ∧ p.2 ≠ DEFAULT ∧ p.2 ≠ SETUPERR) ∧
      (∀ line tok : Line, sscanf_s line = some tok →
        (∀ p ∈ keyword_table, tok ≠ p.1.toList ∧ tok ≠ upper_case p.1) →
        read_setup_line line = DEFAULT) := by
  refine ⟨by decide, by decide, ?_, read_setup_line_default⟩
  intro p hp line h
  obtain ⟨c1, c2, _, _, c5, c6⟩ := keyword_table_codes p hp
  exact ⟨(read_setup_line_congr line p.1.toList (h.trans c1.symm)).trans c2, c5, c6⟩

/-- A line that the reading loop passes over without effect may be taken out
of the file, wherever it stands. -/
theorem loop_without_line (line : Line)
    (hskip : ∀ (s : Setup) (rest : List Line),
      setup_file_loop s (line :: rest) = setup_file_loop s rest) :
    ∀ (pre : List Line) (s : Setup) (rest : List Line),
      setup_file_loop s (pre ++ line :: rest) = setup_file_loop s (pre ++ rest) := by
  intro pre
  induction pre with
  | nil => intro s rest; exact hskip s rest
  | cons p pre ih =>
    intro s rest
    simp only [List.cons_append, setup_file_loop]
    split
    · split
      · exact ih _ rest
      · rfl
    · exact ih s rest

/-- C17: a data line whose leading token is none of the recognised keywords
changes no member of the container and does not end the reading: the
container after the `switch` is the one before, with `no_error` still set,
and `setup_file` gives the same container and the same return value as on the
file without that line, wherever the line stands. -/
theorem C17_unknown_keyword_is_ignored (s : Setup) (pre rest : List Line)
    (line tok : Line) (hd : data_line line = true) (ht : sscanf_s line = some tok)
    (hall : ∀ p ∈ keyword_table, tok ≠ p.1.toList ∧ tok ≠ upper_case p.1) :
    setup_file_case s line = (s, true) ∧
      setup_file s (some (pre ++ line :: rest)) = setup_file s (some (pre ++ rest)) := by
  have hk := read_setup_line_default line tok ht hall
  have hc : ∀ t : Setup, setup_file_case t line = (t, true) := by
    intro t
    simp only [setup_file_case, hk]
  have hskip : ∀ (t : Setup) (r : List Line),
      setup_file_loop t (line :: r) = setup_file_loop t r := by
    intro t r
    simp only [setup_file_loop, hd, hc, if_true]
  refine ⟨hc s, ?_⟩
  simp only [setup_file, loop_without_line line hskip pre s rest]

/-- Witness of C17: the line `verbose 1` between the lines `dochi 1` and
`ntau 4`. -/
theorem C17_witness :
    data_line "verbose 1\n".toList = true ∧
      sscanf_s "verbose 1\n".toList = some "verbose".toList ∧
      (∀ p ∈ keyword_table,
        "verbose".toList ≠ p.1.toList ∧ "verbose".toList ≠ upper_case p.1) ∧
      (setup_file_case fresh_setup "verbose 1\n".toList = (fresh_setup, true) ∧
        setup_file fresh_setup
            (some (["dochi 1\n".toList] ++ "verbose 1\n".toList :: ["ntau 4\n".toList]))
          = setup_file fresh_setup (some (["dochi 1\n".toList] ++ ["ntau 4\n".toList]))) ∧
      setup_file fresh_setup
          (some (["dochi 1\n".toList] ++ "verbose 1\n".toList :: ["ntau 4\n".toList]))
        = ({ fresh_setup with dochi := 1, ntau := 4 }, 0) :=
  ⟨by decide, by decide, by decide,
    C17_unknown_keyword_is_ignored fresh_setup ["dochi 1\n".toList] ["ntau 4\n".toList]
      "verbose 1\n".toList "verbose".toList (by decide) (by decide) (by decide),
    by decide!⟩

theorem skip_space_of_blank (line : Line) (h : ∀ c ∈ line, isspace c = true) :
    skip_space line = [] := by
  induction line with
  | nil => rfl
  | cons c cs ih =>
    have hc : isspace c = true := h c (List.mem_cons_self c cs)
    simp only [skip_space, hc, if_true]
    exact ih (fun d hd => h d (List.mem_cons_of_mem c hd))

theorem sscanf_s_of_blank (line : Line) (h : ∀ c ∈ line, isspace c = true) :
    sscanf_s line = none := by
  simp [sscanf_s, scan_s, skip_space_of_blank line h, scan_token]

/-- C18 (amended): a line whose first character is a control character (code
below 32: the empty line, a line that starts with a tab) or is `#` is skipped
by `setup_file`, which gives the same container and the same return value as
on the file without that line, wherever the line stands; a blank line that
starts with a space is not skipped: `setup_file` stops at it and returns 1. -/
theorem C18_control_and_comment_lines_skipped (s : Setup) (pre rest : List Line)
    (line : Line) :
    ((line0 line < 32 ∨ line0 line = 35) →
      setup_file s (some (pre ++ line :: rest)) = setup_file s (some (pre ++ rest))) ∧
      (line0 line = 32 → (∀ c ∈ line, isspace c = true) →
        setup_file s (some (line :: rest)) = (s, 1)) := by
  constructor
  · intro h
    have hd : data_line line = false := by
      unfold data_line
      rcases h with h | h
      · have : ¬ (32 ≤ line0 line) := by omega
        simp [this]
      · simp [h]
    have hskip : ∀ (t : Setup) (r : List Line),
        setup_file_loop t (line :: r) = setup_file_loop t r := by
      intro t r
      simp [setup_file_loop, hd]
    simp only [setup_file, loop_without_line line hskip pre s rest]
  · intro h32 hb
    have hd : data_line line = true := by
      unfold data_line
      simp [h32]
    have hk : read_setup_line line = SETUPERR := by
      simp [read_setup_line, sscanf_s_of_blank line hb]
    simp [setup_file, setup_file_loop, hd, setup_file_case, hk]

/-- Witness of C18: the empty line, a line of one tab, a comment line, and
the blank line of two spaces. -/
theorem C18_witness :
    (line0 empty_line < 32 ∨ line0 empty_line = 35) ∧
      (line0 "\t\n".toList < 32 ∨ line0 "\t\n".toList = 35) ∧
      (line0 "# dochi 1\n".toList < 32 ∨ line0 "# dochi 1\n".toList = 35) ∧
      setup_file fresh_setup (some (["dochi 1\n".toList] ++ empty_line :: ["ntau 4\n".toList]))
        = setup_file fresh_setup (some (["dochi 1\n".toList] ++ ["ntau 4\n".toList])) ∧
      setup_file fresh_setup
          (some (["dochi 1\n".toList] ++ "\t\n".toList :: ["ntau 4\n".toList]))
        = setup_file fresh_setup (some (["dochi 1\n".toList] ++ ["ntau 4\n".toList])) ∧
      setup_file fresh_setup
          (some (["dochi 1\n".toList] ++ "# dochi 1\n".toList :: ["ntau 4\n".toList]))
        = setup_file fresh_setup (some (["dochi 1\n".toList] ++ ["ntau 4\n".toList])) ∧
      line0 "  \n".toList = 32 ∧ (∀ c ∈ "  \n".toList, isspace c = true) ∧
      setup_file fresh_setup (some ("  \n".toList :: ["ntau 4\n".toList]))
        = (fresh_setup, 1) :=
  ⟨by decide, by decide, by decide,
    (C18_control_and_comment_lines_skipped fresh_setup ["dochi 1\n".toList]
      ["ntau 4\n".toList] empty_line).1 (by decide),
    (C18_control_and_comment_lines_skipped fresh_setup ["dochi 1\n".toList]
      ["ntau 4\n".toList] "\t\n".toList).1 (by decide),
    (C18_control_and_comment_lines_skipped fresh_setup ["dochi 1\n".toList]
      ["ntau 4\n".toList] "# dochi 1\n".toList).1 (by decide),
    by decide, by decide,
    (C18_control_and_comment_lines_skipped fresh_setup [] ["ntau 4\n".toList]
      "  \n".toList).2 (by decide) (by decide)⟩

/-- C18 (counterexample): the line of two spaces contains no character that
is not white space, and `setup_file` does not skip it: on the file of that
line followed by `ntau 4` it returns 1 and never reads `ntau 4`, while on the
file `ntau 4` alone it returns 0 with `ntau` 4. -/
theorem C18_counterexample :
    (∀ c ∈ "  \n".toList, isspace c = true) ∧
      (setup_file fresh_setup (some ["  \n".toList, "ntau 4\n".toList])).2 = 1 ∧
      (setup_file fresh_setup (some ["  \n".toList, "ntau 4\n".toList])).1.ntau = 0 ∧
      (setup_file fresh_setup (some ["ntau 4\n".toList])).2 = 0 ∧
      (setup_file fresh_setup (some ["ntau 4\n".toList])).1.ntau = 4 :=
  ⟨by decide, by rfl, by rfl, by rfl, by rfl⟩

theorem ite_ne_err (c : Bool) (a b : Keyword) (ha : a ≠ SETUPERR) (hb : b ≠ SETUPERR) :
    (if c = true then a else b) ≠ SETUPERR := by
  cases c
  · simpa using hb
  · simpa using ha

theorem read_setup_line_err (line : Line) :
    read_setup_line line = SETUPERR ↔ sscanf_s line = none := by
  unfold read_setup_line
  cases sscanf_s line with
  | none => simp
  | some tok =>
    simp only [reduceCtorEq, iff_false]
    repeat' (first | (exact fun h => Keyword.noConfusion h) | apply ite_ne_err)

theorem loop_no_error (lines : List Line) :
    ∀ s : Setup, (setup_file_loop s lines).2 = false ↔
      ∃ line ∈ lines, data_line line = true ∧ sscanf_s line = none := by
  induction lines with
  | nil => intro s; simp [setup_file_loop]
  | cons line rest ih =>
    intro s
    unfold setup_file_loop
    by_cases hd : data_line line = true
    · by_cases he : read_setup_line line = SETUPERR
      · have h2 : (setup_file_case s line).2 = false := by
          have := (case_no_error s line).not
          simpa [he] using this
        have hn := (read_setup_line_err line).1 he
        simp [hd, h2, hn]
      · have h2 : (setup_file_case s line).2 = true := (case_no_error s line).2 he
        have hn : ¬ sscanf_s line = none := fun h => he ((read_setup_line_err line).2 h)
        simp only [hd, h2, if_true, List.mem_cons, exists_eq_or_imp, hn, and_false,
          false_or]
        exact ih _
    · simp only [hd, Bool.false_eq_true, if_false, List.mem_cons, exists_eq_or_imp,
        false_and, false_or]
      exact ih s

/-- C19: for a file that can be opened, `setup_file` returns 1 exactly when
some line that passes the line filter (it is not skipped as a blank or `#`
line) has no keyword token, and 0 otherwise; a line that has a keyword token
never clears `no_error`, whatever its values are. -/
theorem C19_failure_iff_line_without_keyword (s : Setup) (lines : List Line) :
    ((setup_file s (some lines)).2 = 1 ↔
        ∃ line ∈ lines, data_line line = true ∧ sscanf_s line = none) ∧
      ((setup_file s (some lines)).2 = 0 ↔
        ¬ ∃ line ∈ lines, data_line line = true ∧ sscanf_s line = none) ∧
      (∀ (t : Setup) (line : Line), sscanf_s line ≠ none →
        (setup_file_case t line).2 = true) := by
  have h := loop_no_error lines s
  refine ⟨?_, ?_, ?_⟩
  · rw [← h]
    simp only [setup_file]
    cases (setup_file_loop s lines).2 <;> simp
  · rw [← h]
    simp only [setup_file]
    cases (setup_file_loop s lines).2 <;> simp
  · intro t line hn
    exact (case_no_error t line).2 (fun he => hn ((read_setup_line_err line).1 he))

/-- Sample for C19: every value of the file is malformed or out of range and
`setup_file` returns 0; with a blank line of two spaces it returns 1. -/
theorem C19_witness :
    (setup_file fresh_setup
        (some ["dochi abc\n".toList, "dtau -3\n".toList, "mu0 1 2\n".toList,
          "meanchoice 9\n".toList, "outfile\n".toList])).2 = 0 ∧
      (setup_file fresh_setup (some ["dochi 1\n".toList, "  \n".toList])).2 = 1 ∧
      ((setup_file fresh_setup (some ["dochi 1\n".toList, "  \n".toList])).2 = 1 ↔
        ∃ line ∈ ["dochi 1\n".toList, "  \n".toList],
          data_line line = true ∧ sscanf_s line = none) :=
  ⟨by decide!, by decide!,
    (C19_failure_iff_line_without_keyword fresh_setup
      ["dochi 1\n".toList, "  \n".toList]).1⟩

/-- C20 (code bug): a configuration file is named and `setup_file` fails on
it (it cannot be opened, or it holds a data line without keyword);
`get_setup_params` skips `setup_delays` and returns 0 all the same. -/
theorem C20_get_setup_params_returns_zero (setup : Setup) (name : Line)
    (inp : List Line) :
    (setup_file (hardwired_methods { setup with setupfile := some name }) none).2 = 1 ∧
      get_setup_params { setup with setupfile := some name } none inp
        = some (hardwired_methods { setup with setupfile := some name }, 0, inp) ∧
      (setup_file (hardwired_methods { setup with setupfile := some name })
        (some [blank_line])).2 = 1 ∧
      get_setup_params { setup with setupfile := some name } (some [blank_line]) inp
        = some (hardwired_methods { setup with setupfile := some name }, 0, inp) := by
  have hd : data_line blank_line = true := by decide
  have hk : read_setup_line blank_line = SETUPERR := by decide
  have hl : ∀ t : Setup, setup_file_loop t [blank_line] = (t, false) := by
    intro t
    simp only [setup_file_loop, hd, setup_file_case, hk, if_true]
    simp
  refine ⟨rfl, ?_, ?_, ?_⟩
  · simp [get_setup_params, hardwired_methods, setup_file]
  · simp [setup_file, hl]
  · simp [get_setup_params, hardwired_methods, setup_file, hl]

/-! ## Properties of `get_setup_params` and `setup_from_command_line` -/

theorem ask_flags_frame (s : Setup) (inp : List Line) (r : Setup × List Line)
    (h : ask_flags s inp = some r) :
    r.1 = { s with
            dochi := r.1.dochi, doxcorr := r.1.doxcorr, doacorr := r.1.doacorr
            dodisp := r.1.dodisp, dodcf := r.1.dodcf, docurvefit := r.1.docurvefit } := by
  unfold ask_flags at h
  simp only [Option.bind_eq_some] at h
  obtain ⟨a1, _, a2, _, a3, _, a4, _, a5, _, a6, _, hr⟩ := h
  simp only [Option.some.injEq] at hr
  rw [← hr]

theorem smooth_gate_frame (s : Setup) :
    smooth_gate s = { s with dosmooth := (smooth_gate s).dosmooth } := by
  unfold smooth_gate
  split <;> rfl

/-- The members of the two search grids are not written by `setup_delays`. -/
theorem setup_delays_grid (s s' : Setup) (inp rest : List Line)
    (h : setup_delays s inp = some (s', rest)) :
    s'.dtau = s.dtau ∧ s'.ntau = s.ntau ∧ s'.tau0 = s.tau0 ∧ s'.tauset = s.tauset ∧
      s'.mu0 = s.mu0 ∧ s'.nmu = s.nmu ∧ s'.dmu = s.dmu := by
  obtain ⟨r1, r2, r3, h1, h2, h3, h4⟩ := setup_delays_blocks s s' inp rest h
  have f1 := ask_flags_frame _ _ _ h1
  have g := smooth_gate_frame r1.1
  have f2 := ask_dispchoice_frame _ _ _ h2
  have f3 := ask_d2delta_frame _ _ _ h3
  have f4 := ask_logs_frame _ _ _ h4
  simp only at f4
  have h_dtau : s'.dtau = s.dtau := by
    have e4 : s'.dtau = r3.1.dtau := by rw [f4]
    have e3 : r3.1.dtau = r2.1.dtau := by rw [f3]
    have e2 : r2.1.dtau = (smooth_gate r1.1).dtau := by rw [f2]
    have eg : (smooth_gate r1.1).dtau = r1.1.dtau := by rw [g]
    have e1 : r1.1.dtau = s.dtau := by rw [f1]
    rw [e4, e3, e2, eg, e1]
  have h_ntau : s'.ntau = s.ntau := by
    have e4 : s'.ntau = r3.1.ntau := by rw [f4]
    have e3 : r3.1.ntau = r2.1.ntau := by rw [f3]
    have e2 : r2.1.ntau = (smooth_gate r1.1).ntau := by rw [f2]
    have eg : (smooth_gate r1.1).ntau = r1.1.ntau := by rw [g]
    have e1 : r1.1.ntau = s.ntau := by rw [f1]
    rw [e4, e3, e2, eg, e1]
  have h_tau0 : s'.tau0 = s.tau0 := by
    have e4 : s'.tau0 = r3.1.tau0 := by rw [f4]
    have e3 : r3.1.tau0 = r2.1.tau0 := by rw [f3]
    have e2 : r2.1.tau0 = (smooth_gate r1.1).tau0 := by rw [f2]
    have eg : (smooth_gate r1.1).tau0 = r1.1.tau0 := by rw [g]
    have e1 : r1.1.tau0 = s.tau0 := by rw [f1]
    rw [e4, e3, e2, eg, e1]
  have h_tauset : s'.tauset = s.tauset := by
    have e4 : s'.tauset = r3.1.tauset := by rw [f4]
    have e3 : r3.1.tauset = r2.1.tauset := by rw [f3]
    have e2 : r2.1.tauset = (smooth_gate r1.1).tauset := by rw [f2]
    have eg : (smooth_gate r1.1).tauset = r1.1.tauset := by rw [g]
    have e1 : r1.1.tauset = s.tauset := by rw [f1]
    rw [e4, e3, e2, eg, e1]
  have h_mu0 : s'.mu0 = s.mu0 := by
    have e4 : s'.mu0 = r3.1.mu0 := by rw [f4]
    have e3 : r3.1.mu0 = r2.1.mu0 := by rw [f3]
    have e2 : r2.1.mu0 = (smooth_gate r1.1).mu0 := by rw [f2]
    have eg : (smooth_gate r1.1).mu0 = r1.1.mu0 := by rw [g]
    have e1 : r1.1.mu0 = s.mu0 := by rw [f1]
    rw [e4, e3, e2, eg, e1]
  have h_nmu : s'.nmu = s.nmu := by
    have e4 : s'.nmu = r3.1.nmu := by rw [f4]
    have e3 : r3.1.nmu = r2.1.nmu := by rw [f3]
    have e2 : r2.1.nmu = (smooth_gate r1.1).nmu := by rw [f2]
    have eg : (smooth_gate r1.1).nmu = r1.1.nmu := by rw [g]
    have e1 : r1.1.nmu = s.nmu := by rw [f1]
    rw [e4, e3, e2, eg, e1]
  have h_dmu : s'.dmu = s.dmu := by
    have e4 : s'.dmu = r3.1.dmu := by rw [f4]
    have e3 : r3.1.dmu = r2.1.dmu := by rw [f3]
    have e2 : r2.1.dmu = (smooth_gate r1.1).dmu := by rw [f2]
    have eg : (smooth_gate r1.1).dmu = r1.1.dmu := by rw [g]
    have e1 : r1.1.dmu = s.dmu := by rw [f1]
    rw [e4, e3, e2, eg, e1]
  exact ⟨h_dtau, h_ntau, h_tau0, h_tauset, h_mu0, h_nmu, h_dmu⟩

theorem get_setup_params_eq (setup : Setup) (file : Option (List Line))
    (inp : List Line) (r : Setup × Int × List Line)
    (h : get_setup_params setup file inp = some r) :
    r.2.1 = 0 ∧
      (setup_delays (file_stage setup file) inp = some (r.1, r.2.2) ∨
        r.1 = file_stage setup file) := by
  unfold get_setup_params at h
  unfold file_stage
  by_cases hs : (hardwired_methods setup).setupfile.isSome = true
  · simp only [hs, if_true] at h ⊢
    by_cases hz : (setup_file (hardwired_methods setup) file).2 = 0
    · simp only [hz, if_true, Option.map_eq_some'] at h
      obtain ⟨a, ha, hr⟩ := h
      rw [← hr]
      exact ⟨rfl, Or.inl ha⟩
    · simp only [hz, if_false, Option.some.injEq] at h
      rw [← h]
      exact ⟨rfl, Or.inr rfl⟩
  · simp only [hs, if_false, if_true, Option.map_eq_some', Bool.false_eq_true] at h ⊢
    obtain ⟨a, ha, hr⟩ := h
    rw [← hr]
    exact ⟨rfl, Or.inl ha⟩

/-- C21 (amended): `get_setup_params` derives no grid: when it returns, the
members of the delay grid and of the flux-ratio grid (`dtau`, `ntau`, `tau0`,
`tauset`, `mu0`, `nmu`, `dmu`) are what the file left, and what they were on
entry when no file is named; the return value is 0. -/
theorem C21_get_setup_params_derives_no_grid (setup : Setup)
    (file : Option (List Line)) (inp : List Line) (r : Setup × Int × List Line)
    (h : get_setup_params setup file inp = some r) :
    r.2.1 = 0 ∧
      (r.1.dtau = (file_stage setup file).dtau ∧ r.1.ntau = (file_stage setup file).ntau ∧
        r.1.tau0 = (file_stage setup file).tau0 ∧
        r.1.tauset = (file_stage setup file).tauset ∧
        r.1.mu0 = (file_stage setup file).mu0 ∧ r.1.nmu = (file_stage setup file).nmu ∧
        r.1.dmu = (file_stage setup file).dmu) ∧
      (setup.setupfile = none →
        r.1.dtau = setup.dtau ∧ r.1.ntau = setup.ntau ∧ r.1.tau0 = setup.tau0 ∧
        r.1.tauset = setup.tauset ∧ r.1.mu0 = setup.mu0 ∧ r.1.nmu = setup.nmu ∧
        r.1.dmu = setup.dmu) := by
  obtain ⟨h0, hr⟩ := get_setup_params_eq setup file inp r h
  have key : r.1.dtau = (file_stage setup file).dtau ∧
      r.1.ntau = (file_stage setup file).ntau ∧
      r.1.tau0 = (file_stage setup file).tau0 ∧
      r.1.tauset = (file_stage setup file).tauset ∧
      r.1.mu0 = (file_stage setup file).mu0 ∧ r.1.nmu = (file_stage setup file).nmu ∧
      r.1.dmu = (file_stage setup file).dmu := by
    rcases hr with hr | hr
    · exact setup_delays_grid _ _ _ _ hr
    · rw [hr]
      exact ⟨rfl, rfl, rfl, rfl, rfl, rfl, rfl⟩
  refine ⟨h0, key, ?_⟩
  intro hn
  have hf : file_stage setup file = hardwired_methods setup := by
    unfold file_stage
    have : (hardwired_methods setup).setupfile = none := hn
    simp [this]
  rw [hf] at key
  exact key

/-- Witness of C21: the container of the command line `tdelays -1 curves.dat`
and an operator who accepts the default. -/
theorem C21_witness :
    get_setup_params one_file_setup none [empty_line]
        = some (one_file_result, 0, []) ∧
      ((0 : Int) = 0 ∧
        (one_file_result.dtau = (file_stage one_file_setup none).dtau ∧
          one_file_result.ntau = (file_stage one_file_setup none).ntau ∧
          one_file_result.tau0 = (file_stage one_file_setup none).tau0 ∧
          one_file_result.tauset = (file_stage one_file_setup none).tauset ∧
          one_file_result.mu0 = (file_stage one_file_setup none).mu0 ∧
          one_file_result.nmu = (file_stage one_file_setup none).nmu ∧
          one_file_result.dmu = (file_stage one_file_setup none).dmu) ∧
        (one_file_setup.setupfile = none →
          one_file_result.dtau = one_file_setup.dtau ∧
          one_file_result.ntau = one_file_setup.ntau ∧
          one_file_result.tau0 = one_file_setup.tau0 ∧
          one_file_result.tauset = one_file_setup.tauset ∧
          one_file_result.mu0 = one_file_setup.mu0 ∧
          one_file_result.nmu = one_file_setup.nmu ∧
          one_file_result.dmu = one_file_setup.dmu)) ∧
      one_file_setup.setupfile = none ∧ one_file_result.dtau = 0 ∧
      one_file_result.nmu = 0 :=
  ⟨by decide!,
    C21_get_setup_params_derives_no_grid one_file_setup none [empty_line]
      (one_file_result, 0, []) (by decide!),
    by decide!, by decide!, by decide!⟩

/-- C21 (counterexample): the command line `tdelays -1 curves.dat` names no
setup file; `get_setup_params` returns successfully after the one prompt of
`setup_delays`, and on return `dtau` is 0 and `nmu` is 0: neither grid has
been derived. -/
theorem C21_counterexample :
    (get_setup_params one_file_setup none [empty_line]).map (fun r => r.2)
        = some (0, []) ∧
      (get_setup_params one_file_setup none [empty_line]).map (fun r => r.1.dtau)
        = some 0 ∧
      (get_setup_params one_file_setup none [empty_line]).map (fun r => r.1.nmu)
        = some 0 ∧
      ¬ ((0 : ℚ) < 0) :=
  ⟨by decide!, by decide!, by decide!, by decide⟩

/-- C22: with no configuration file named and the dispersion variant not
set (as in a container made by `setup_from_command_line` without a setup
file), the only prompt of `get_setup_params` is the one for the dispersion
variant; answered with the empty line it leaves `dochi`, `doxcorr`, `doacorr`,
`dodcf` and `docurvefit` NO, `dodisp` YES, `dispchoice` D21 and `dosmooth`
NOSMOOTH, every other member being as on entry. -/
theorem C22_defaults_without_file (s : Setup) (file : Option (List Line))
    (line : Line) (rest : List Line) (h1 : s.setupfile = none)
    (h2 : s.dispchoice = UNSET) (h3 : line0 line = 10) :
    get_setup_params s file (line :: rest)
      = some ({ s with
                dochi := NO, doxcorr := NO, doacorr := NO, dodisp := YES, dodcf := NO
                docurvefit := NO, dispchoice := D21, dosmooth := NOSMOOTH }, 0, rest) := by
  simp [get_setup_params, hardwired_methods, h1, setup_delays, ask_flags, ask_flag,
    smooth_gate, ask_dispchoice, ask_d2delta, ask_logs, ask_log, h2, h3, NO, YES, UNSET,
    D21, D22, DLOVELL, NOSMOOTH]

/-- Witness of C22: the container of the command line `tdelays -1 curves.dat`. -/
theorem C22_witness :
    setup_from_command_line (some zero_block) one_file_argv 3 = some one_file_setup ∧
      one_file_setup.setupfile = none ∧ one_file_setup.dispchoice = UNSET ∧
      line0 empty_line = 10 ∧
      get_setup_params one_file_setup none (empty_line :: [])
        = some ({ one_file_setup with
                  dochi := NO, doxcorr := NO, doacorr := NO, dodisp := YES, dodcf := NO
                  docurvefit := NO, dispchoice := D21, dosmooth := NOSMOOTH }, 0, []) :=
  ⟨by decide!, by decide!, by decide!, by decide,
    C22_defaults_without_file one_file_setup none empty_line [] (by decide!) (by decide!)
      (by decide)⟩

/-- C23: the scenario of the file `dochi 1`, `dodisp 0`, `tau0 0 10 0 0`,
`dtau 2.0` and two curves of days 0 to 100.  After `setup_file` and
`setup_delays` (the operator accepting the defaults of the three prompts for
`doxcorr`, `docurvefit` and the chisq logfile) `dochi` is YES, `dodisp` is NO,
the blocks for the dispersion variant and for delta consume no response and
leave `dispchoice` and `d2delta` alone, `tauset` is YES and `dtau` is 2; then
`set_tau_grid` with the empty line at the step-count prompt gives `ntau` 12,
so that `tau0[1] - ntau*dtau` is -14 and `tau0[1] + ntau*dtau` is 34. -/
theorem C23_scenario :
    (setup_file { fresh_setup with ncurves := 2, index := [0, 1], npoints := [101, 101] }
        (some C23_file)).2 = 0 ∧
      setup_delays C23_after_file [empty_line, empty_line, empty_line]
        = some (C23_after_delays, []) ∧
      C23_after_delays.dochi = YES ∧ C23_after_delays.dodisp = NO ∧
      ask_flags C23_after_file [empty_line, empty_line, empty_line]
        = some (C23_after_delays, [empty_line]) ∧
      ask_dispchoice (smooth_gate C23_after_delays) [empty_line]
        = some (C23_after_delays, [empty_line]) ∧
      ask_d2delta C23_after_delays [empty_line] = some (C23_after_delays, [empty_line]) ∧
      C23_after_delays.dispchoice = UNSET ∧ C23_after_delays.d2delta = -1 ∧
      C23_after_delays.tauset = YES ∧ C23_after_delays.dtau = 2 ∧
      C23_after_delays.tau0 = ⟨0, 10, 0, 0⟩ ∧
      set_tau_grid 0 [daily_curve, daily_curve] C23_after_delays [empty_line]
        = some ({ C23_after_delays with ntau := 12 }, []) ∧
      C23_after_delays.tau0.get 1 0 - ((12 : Int) : ℚ) * C23_after_delays.dtau = -14 ∧
      C23_after_delays.tau0.get 1 0 + ((12 : Int) : ℚ) * C23_after_delays.dtau = 34 :=
  ⟨by decide!, by decide!, by decide!, by decide!, by decide!, by decide!, by decide!,
    by decide!, by decide!, by decide!, by decide!, by decide!, by decide!, by decide!,
    by decide!⟩

theorem arr_get_put_zero {α : Type} (a : List α) (v junk d : α) :
    arr_get (arr_put a 0 v junk) 0 d = v := by
  cases a <;> simp [arr_put, arr_get]

theorem arr_get_put_one {α : Type} (a : List α) (v w junk d : α) :
    arr_get (arr_put (arr_put a 0 v junk) 1 w junk) 0 d = v ∧
      arr_get (arr_put (arr_put a 0 v junk) 1 w junk) 1 d = w := by
  cases a with
  | nil => simp [arr_put, arr_get]
  | cons h t =>
    cases t with
    | nil => simp [arr_put, arr_get]
    | cons h2 t2 => simp [arr_put, arr_get]

/-- C24: with the memory for the container allocated, `setup_from_command_line`
returns no container exactly when the flag `argv[1]` is neither `-1` nor `-2`;
for `-1` the container has `nfiles` 1, `ncurves` 2 and `infile[0]` is
`argv[2]`; for `-2` it has `nfiles` 2, `ncurves` 2, `infile[0]` is `argv[2]`
and `infile[1]` is `argv[3]`. -/
theorem C24_command_line_flag (block : Setup) (argv : List Line) (narg : Int)
    (flag : Line) (hf : argv.get? 1 = some flag) :
    (setup_from_command_line (some block) argv narg = none ↔
        flag ≠ flag_one ∧ flag ≠ flag_two) ∧
      (flag = flag_one → ∃ s : Setup,
        setup_from_command_line (some block) argv narg = some s ∧
        s.nfiles = 1 ∧ s.ncurves = 2 ∧ arr_get s.infile 0 none = argv.get? 2) ∧
      (flag = flag_two → ∃ s : Setup,
        setup_from_command_line (some block) argv narg = some s ∧
        s.nfiles = 2 ∧ s.ncurves = 2 ∧ arr_get s.infile 0 none = argv.get? 2 ∧
        arr_get s.infile 1 none = argv.get? 3) := by
  have h12 : flag_two ≠ flag_one := by decide
  obtain ⟨s0, hs0⟩ : ∃ s0, new_setup (some block) = some s0 := ⟨_, rfl⟩
  have key : setup_from_command_line (some block) argv narg
      = if flag = flag_one then some (fill_from_argv { s0 with nfiles := 1 } argv narg)
        else if flag = flag_two then some (fill_from_argv { s0 with nfiles := 2 } argv narg)
        else none := by
    simp only [setup_from_command_line, hs0, hf, Option.some.injEq]
  rw [key]
  refine ⟨?_, ?_, ?_⟩
  · by_cases h1 : flag = flag_one
    · simp only [h1, if_true, ne_eq, not_true_eq_false, false_and, iff_false]
      exact fun h => Option.noConfusion h
    · by_cases h2 : flag = flag_two
      · simp only [h1, h2, if_false, if_true, ne_eq, not_true_eq_false, and_false,
          iff_false]
        exact fun h => Option.noConfusion h
      · simp only [h1, h2, if_false, ne_eq, not_false_eq_true, and_self]
  · intro h1
    refine ⟨fill_from_argv { s0 with nfiles := 1 } argv narg, ?_, ?_⟩
    · simp only [h1, if_true]
    · simp only [fill_from_argv, if_true]
      exact ⟨trivial, trivial, arr_get_put_zero _ _ _ _⟩
  · intro h2
    refine ⟨fill_from_argv { s0 with nfiles := 2 } argv narg, ?_, ?_⟩
    · simp only [h2, h12, if_false, if_true]
    · have e : ¬ ((2 : Int) = 1) := by decide
      simp only [fill_from_argv, e, if_false, if_true]
      exact ⟨trivial, trivial, (arr_get_put_one _ _ _ _ _).1,
        (arr_get_put_one _ _ _ _ _).2⟩

/-- Witness of C24: the command line `tdelays -2 a.dat b.dat run.setup`. -/
theorem C24_witness :
    two_file_argv.get? 1 = some flag_two ∧
      ((setup_from_command_line (some zero_block) two_file_argv 5 = none ↔
          flag_two ≠ flag_one ∧ flag_two ≠ flag_two) ∧
        (flag_two = flag_one → ∃ s : Setup,
          setup_from_command_line (some zero_block) two_file_argv 5 = some s ∧
          s.nfiles = 1 ∧ s.ncurves = 2 ∧ arr_get s.infile 0 none = two_file_argv.get? 2) ∧
        (flag_two = flag_two → ∃ s : Setup,
          setup_from_command_line (some zero_block) two_file_argv 5 = some s ∧
          s.nfiles = 2 ∧ s.ncurves = 2 ∧ arr_get s.infile 0 none = two_file_argv.get? 2 ∧
          arr_get s.infile 1 none = two_file_argv.get? 3)) ∧
      (setup_from_command_line (some zero_block) two_file_argv 5).map
          (fun s => (s.nfiles, s.ncurves, s.infile, s.setupfile))
        = some (2, 2, [some "a.dat".toList, some "b.dat".toList],
            some "run.setup".toList) ∧
      setup_from_command_line (some zero_block)
          ["tdelays".toList, "-3".toList, "a.dat".toList] 3 = none :=
  ⟨by decide,
    C24_command_line_flag zero_block two_file_argv 5 flag_two (by decide),
    by rfl, by decide!⟩

/-! ## Properties of the value checks of `setup_file` -/

/-- C26 (code bug): the line `boxcar 500` carries a width above 100;
`setup_file` stores 500 in `smwidth` and keeps it, instead of the value -1
that asks for the width again; `smtype` is SMBOXCAR. -/
theorem C26_boxcar_width_is_kept (setup : Setup) :
    (setup_file_case setup "boxcar 500\n".toList).1.smwidth = 500 ∧
      (setup_file_case setup "boxcar 500\n".toList).1.smtype = SMBOXCAR ∧
      (500 : ℚ) > 100 ∧ (500 : ℚ) ≠ -1 := by
  have hk : read_setup_line "boxcar 500\n".toList = BOXCAR := by decide
  have hv : sscanf_s_f "boxcar 500\n".toList = some 500 := by decide!
  refine ⟨?_, ?_, by norm_num, by norm_num⟩
  · simp only [setup_file_case, hk, float_and, hv]
  · simp only [setup_file_case, hk]

/-- C28 (code bug): the line `dochi -5` carries a negative integer, which
`setup_file` stores and keeps instead of NO; and on a container whose `dochi`
is YES the malformed line `dochi abc` leaves YES, not NO. -/
theorem C28_flag_value_is_kept (setup : Setup) :
    (setup_file_case setup "dochi -5\n".toList).1.dochi = -5 ∧
      (setup_file_case { setup with dochi := YES } "dochi abc\n".toList).1.dochi = YES ∧
      (-5 : Int) ≠ NO ∧ YES ≠ NO := by
  have hk : read_setup_line "dochi -5\n".toList = DOCHI := by decide
  have hv : sscanf_s_d "dochi -5\n".toList = some (-5) := by decide
  have hk2 : read_setup_line "dochi abc\n".toList = DOCHI := by decide
  have hv2 : sscanf_s_d "dochi abc\n".toList = none := by decide
  refine ⟨?_, ?_, by decide, by decide⟩
  · simp only [setup_file_case, hk, int_and, hv]
  · simp only [setup_file_case, hk2, int_and, hv2]
    rfl

theorem case_meanchoice (s : Setup) (line : Line) (h : meanchoice_ok s.meanchoice) :
    meanchoice_ok (setup_file_case s line).1.meanchoice := by
  unfold setup_file_case
  split <;> try (simp only; exact h)
  all_goals first
    | (split <;> (simp only; exact h))
    | skip
  simp only [int_or]
  split
  · split
    · exact Or.inl rfl
    · rename_i v _ hb
      simp only [Bool.or_eq_true, decide_eq_true_eq, not_or, not_lt] at hb
      unfold meanchoice_ok
      omega
  · exact Or.inl rfl

theorem loop_meanchoice (lines : List Line) :
    ∀ s : Setup, meanchoice_ok s.meanchoice →
      meanchoice_ok (setup_file_loop s lines).1.meanchoice := by
  induction lines with
  | nil => intro s h; simpa [setup_file_loop] using h
  | cons line rest ih =>
    intro s h
    unfold setup_file_loop
    split
    · split
      · exact ih _ (case_meanchoice s line h)
      · exact case_meanchoice s line h
    · exact ih s h

/-- C29: on a container made by `new_setup`, whatever the file, `meanchoice`
is UNSET, 0, 1 or 2 after `setup_file`; and a `meanchoice` line whose value is
missing, not a number, negative or above 2 sets it to UNSET. -/
theorem C29_meanchoice_range (mem : Option Setup) (s0 : Setup)
    (file : Option (List Line)) (h0 : new_setup mem = some s0) :
    meanchoice_ok (setup_file s0 file).1.meanchoice ∧
      (∀ (s : Setup) (line : Line), read_setup_line line = MEANCHOICE →
        (sscanf_s_d line = none ∨ ∃ v : Int, sscanf_s_d line = some v ∧ (v < 0 ∨ 2 < v)) →
        (setup_file_case s line).1.meanchoice = UNSET) := by
  have hu : s0.meanchoice = UNSET := by
    cases mem with
    | none => simp [new_setup] at h0
    | some m =>
      simp only [new_setup, Option.some.injEq] at h0
      rw [← h0]
  constructor
  · cases file with
    | none =>
      simp only [setup_file]
      exact Or.inl hu
    | some lines =>
      simp only [setup_file]
      exact loop_meanchoice lines s0 (Or.inl hu)
  · intro s line hk hv
    simp only [setup_file_case, hk, int_or]
    rcases hv with hn | ⟨v, hv, hr⟩
    · simp [hn]
    · have : (decide (v < 0) || decide (v > 2)) = true := by
        simp only [Bool.or_eq_true, decide_eq_true_eq]
        exact hr
      simp [hv, this]

/-- Witness of C29: a file with the lines `meanchoice 1` and `meanchoice 7`. -/
theorem C29_witness :
    new_setup (some zero_block) = some fresh_setup ∧
      meanchoice_ok
        (setup_file fresh_setup
          (some ["meanchoice 1\n".toList, "meanchoice 7\n".toList])).1.meanchoice ∧
      (setup_file fresh_setup (some ["meanchoice 1\n".toList])).1.meanchoice = 1 ∧
      (setup_file fresh_setup
          (some ["meanchoice 1\n".toList, "meanchoice 7\n".toList])).1.meanchoice
        = UNSET :=
  ⟨by decide!,
    (C29_meanchoice_range (some zero_block) fresh_setup
      (some ["meanchoice 1\n".toList, "meanchoice 7\n".toList]) (by decide!)).1,
    by rfl, by rfl⟩

/-- C30 (code bug): the file sets `dodisp 0` and `dispchoice 3` and no
`d2delta`; in `setup_delays` the dispersion method resolves to NO, the block
for the variant is skipped, and the block for delta still asks: it consumes
the response `2.5` and changes `d2delta` from -1 to 2.5. -/
theorem C30_delta_is_asked_without_dispersion :
    C30_setup.dodisp = NO ∧ C30_setup.dispchoice = D22 ∧ C30_setup.d2delta = -1 ∧
      ask_dispchoice C30_setup ["2.5\n".toList] = some (C30_setup, ["2.5\n".toList]) ∧
      ask_d2delta C30_setup ["2.5\n".toList]
        = some ({ C30_setup with d2delta := 5 / 2 }, []) ∧
      (setup_delays C30_setup
          [empty_line, empty_line, empty_line, "2.5\n".toList]).map
          (fun r => (r.1.dodisp, r.1.dispchoice, r.1.d2delta, r.2))
        = some (NO, D22, 5 / 2, []) :=
  ⟨by decide!, by decide!, by decide!, by decide!, by decide!, by decide!⟩

/-! ## Properties of `get_interp_step`, of the delay seeds and of the grid size -/

/-- C31 (code bug): `intstep` is 0 on entry, so `get_interp_step` asks for the
step; the operator types `0`, which the retry loop accepts (it rejects only
values below 0 or above 30), and `intstep` is 0 on return, not strictly
positive. -/
theorem C31_zero_step_is_accepted (setup : Setup) :
    ({ setup with intstep := 0 } : Setup).intstep ≤ 0 ∧
      get_interp_step { setup with intstep := 0 } ["0\n".toList]
        = some ({ setup with intstep := 0 }, []) ∧
      ¬ ((0 : ℚ) < 0) := by
  have hv : sscanf_f "0\n".toList = some 0 := by decide!
  have hl : line0 "0\n".toList ≠ 10 := by decide
  refine ⟨le_refl _, ?_, lt_irrefl 0⟩
  simp only [get_interp_step, le_refl, if_true, hl, ne_eq, not_false_eq_true, retry_f, hv]
  simp

/-- C32 (code bug): two curves, the unshifted one (`index[0]`) spanning 100
days and the other 40 days, `dtau` 2, the empty line at the step-count prompt:
`set_tau_grid` takes the default from the span of the curve handled last,
floor(40 / 8) = 5, not from the span of the unshifted curve, which gives
floor(100 / 8) = 12. -/
theorem C32_default_uses_last_curve :
    arr_get C32_setup.index 0 0 = 0 ∧
      lc_day C32_curves 0 (arr_get C32_setup.npoints 0 0 - 1) - lc_day C32_curves 0 0
        = 100 ∧
      lc_day C32_curves 1 (arr_get C32_setup.npoints 1 0 - 1) - lc_day C32_curves 1 0
        = 40 ∧
      tau_span C32_curves C32_setup (List.range C32_setup.ncurves.toNat) 0 = 40 ∧
      set_tau_grid 0 C32_curves C32_setup [empty_line]
        = some ({ C32_setup with ntau := 5 }, []) ∧
      ntau_default 100 C32_setup.dtau = 12 ∧ ntau_default 40 C32_setup.dtau = 5 :=
  ⟨by decide!, by decide!, by decide!, by decide!, by decide!, by decide!, by decide!⟩

theorem ask_ntau_frame (tt : ℚ) (s : Setup) (inp : List Line) (r : Setup × List Line)
    (h : ask_ntau tt s inp = some r) : r.1 = { s with ntau := r.1.ntau } := by
  unfold ask_ntau at h
  split at h
  · cases inp with
    | nil => simp at h
    | cons line rest =>
      simp only at h
      split at h
      · simp only [Option.map_eq_some'] at h
        obtain ⟨a, _, ha⟩ := h
        rw [← ha]
      · simp only [Option.some.injEq] at h
        rw [← h]
  · simp only [Option.some.injEq] at h
    rw [← h]

/-- The loop on the delay seeds writes `tau0[2]` and `tau0[3]` only for a curve
numbered 2 or more. -/
theorem ask_tau0_high_slots (is : List Nat) (his : ∀ i ∈ is, i < 2) :
    ∀ (s : Setup) (inp : List Line) (r : Setup × List Line),
      ask_tau0 is s inp = some r →
      r.1.tau0.x2 = s.tau0.x2 ∧ r.1.tau0.x3 = s.tau0.x3 := by
  induction is with
  | nil =>
    intro s inp r h
    simp only [ask_tau0, Option.some.injEq] at h
    rw [← h]
    exact ⟨rfl, rfl⟩
  | cons i is ih =>
    intro s inp r h
    have hi : i < 2 := his i (List.mem_cons_self i is)
    have his' : ∀ j ∈ is, j < 2 := fun j hj => his j (List.mem_cons_of_mem i hj)
    cases inp with
    | nil => simp [ask_tau0] at h
    | cons line rest =>
      simp only [ask_tau0] at h
      split at h
      · split at h
        · simp at h
        · rename_i v _
          have := ih his' _ _ _ h
          have e : ∀ q : ℚ, (s.tau0.set (i : Int) q).x2 = s.tau0.x2 ∧
              (s.tau0.set (i : Int) q).x3 = s.tau0.x3 := by
            intro q
            have h01 : i = 0 ∨ i = 1 := by omega
            rcases h01 with rfl | rfl <;> exact ⟨rfl, rfl⟩
          exact ⟨this.1.trans (e _).1, this.2.trans (e _).2⟩
      · exact ih his' _ _ _ h

/-- C33: `set_tau_grid` never changes `tauset`; with `tauset` YES on entry it
leaves `tau0` as it is and the block on the seeds consumes no response; with
two curves `tau0[2]` and `tau0[3]` are not touched; the empty line as response
for a curve leaves the container as it is and passes to the next curve, so
that two empty responses leave `tau0` unchanged. -/
theorem C33_tau_seeds (junk : ℚ) (lc : List (List Fluxrec)) (s s' : Setup)
    (inp rest : List Line) (h : set_tau_grid junk lc s inp = some (s', rest)) :
    s'.tauset = s.tauset ∧
      (s.tauset = YES → s'.tau0 = s.tau0 ∧ tau_seed s inp = some (s, inp)) ∧
      (s.ncurves = 2 → s'.tau0.x2 = s.tau0.x2 ∧ s'.tau0.x3 = s.tau0.x3) ∧
      (∀ (i : Nat) (is : List Nat) (t : Setup) (line : Line) (more : List Line),
        line0 line = 10 → ask_tau0 (i :: is) t (line :: more) = ask_tau0 is t more) ∧
      (s.tauset ≠ YES → s.ncurves = 2 → ∀ (l0 l1 : Line) (more : List Line),
        inp = l0 :: l1 :: more → line0 l0 = 10 → line0 l1 = 10 → s'.tau0 = s.tau0) := by
  unfold set_tau_grid at h
  simp only [Option.bind_eq_some] at h
  obtain ⟨⟨s1, r1⟩, h1, ⟨s2, r2⟩, h2, h3⟩ := h
  have f1 := tau_seed_frame _ _ _ h1
  have f2 := ask_dtau_frame _ _ _ h2
  have f3 := ask_ntau_frame _ _ _ _ h3
  simp only at f1 f2 f3
  have e3 : s'.tau0 = s2.tau0 := by rw [f3]
  have e2 : s2.tau0 = s1.tau0 := by rw [f2]
  have t3 : s'.tauset = s2.tauset := by rw [f3]
  have t2 : s2.tauset = s1.tauset := by rw [f2]
  have t1 : s1.tauset = s.tauset := by rw [f1]
  have hstep : ∀ (i : Nat) (is : List Nat) (t : Setup) (line : Line)
      (more : List Line), line0 line = 10 →
      ask_tau0 (i :: is) t (line :: more) = ask_tau0 is t more := by
    intro i is t line more hl
    simp [ask_tau0, hl]
  refine ⟨by rw [t3, t2, t1], ?_, ?_, hstep, ?_⟩
  · intro hy
    have hs : tau_seed s inp = some (s, inp) := by simp [tau_seed, hy]
    rw [hs] at h1
    simp only [Option.some.injEq, Prod.mk.injEq] at h1
    refine ⟨?_, hs⟩
    rw [e3, e2, ← h1.1]
  · intro hc
    rw [e3, e2]
    unfold tau_seed at h1
    split at h1
    · simp only [Option.some.injEq, Prod.mk.injEq] at h1
      rw [← h1.1]
      exact ⟨rfl, rfl⟩
    · have hr : List.range s.ncurves.toNat = [0, 1] := by
        rw [hc]
        rfl
      rw [hr] at h1
      exact ask_tau0_high_slots [0, 1] (by decide) _ _ _ h1
  · intro hn hc l0 l1 more hi h0 hl1
    have hr : List.range s.ncurves.toNat = [0, 1] := by
      rw [hc]
      rfl
    have hs : tau_seed s inp = some (s, more) := by
      simp only [tau_seed, hn, if_false, hr, hi]
      rw [hstep 0 [1] s l0 (l1 :: more) h0, hstep 1 [] s l1 more hl1]
      rfl
    rw [hs] at h1
    simp only [Option.some.injEq, Prod.mk.injEq] at h1
    rw [e3, e2, ← h1.1]

/-- Witness of C33: a fresh container with two curves; the operator accepts
the seed of curve 1, types `7` for curve 2, accepts the step and types `5`
for the number of steps. -/
theorem C33_witness :
    set_tau_grid 0 three_day_curves two_curve_setup
        [empty_line, "7\n".toList, empty_line, "5\n".toList]
      = some ({ two_curve_setup with tau0 := ⟨0, 7, 0, 0⟩, dtau := 1, ntau := 5 }, []) ∧
      UNSET = two_curve_setup.tauset ∧ two_curve_setup.ncurves = 2 ∧
      ((7 : ℚ) ≠ 0) ∧
      ask_tau0 [0, 1] two_curve_setup [empty_line, "7\n".toList]
        = ask_tau0 [1] two_curve_setup ["7\n".toList] :=
  ⟨by decide!,
    (C33_tau_seeds 0 three_day_curves two_curve_setup
      { two_curve_setup with tau0 := ⟨0, 7, 0, 0⟩, dtau := 1, ntau := 5 }
      [empty_line, "7\n".toList, empty_line, "5\n".toList] [] (by decide!)).1,
    by decide!, by norm_num,
    (C33_tau_seeds 0 three_day_curves two_curve_setup
      { two_curve_setup with tau0 := ⟨0, 7, 0, 0⟩, dtau := 1, ntau := 5 }
      [empty_line, "7\n".toList, empty_line, "5\n".toList] [] (by decide!)).2.2.2.1
      0 [1] two_curve_setup empty_line ["7\n".toList] (by decide)⟩

/-- C34: the loop of `set_mu_grid` reads the days of the samples at the
0-based positions `startindex - 1` and `endindex - 1`; for a curve of
`N >= 4` points both lie between 0 and `N - 1` and the first is not greater
than the second; for `N` = 1, 2 or 3 the first is -1, outside the curve. -/
theorem C34_window_positions (N : Int) :
    (4 ≤ N → 0 ≤ mu_startindex N - 1 ∧ mu_startindex N - 1 ≤ mu_endindex N - 1 ∧
        mu_endindex N - 1 ≤ N - 1) ∧
      (1 ≤ N ∧ N ≤ 3 → mu_startindex N - 1 = -1) ∧
      (∀ (calc_mean_dt : List Fluxrec → Int → ℚ → ℚ → ℚ → ℚ → Int × ℚ)
        (lc : List (List Fluxrec)) (npoints : List Int) (i : Nat) (is : List Nat)
        (st : List ℚ × Bool), arr_get npoints i 0 = N →
        ∃ b : Bool,
          mu_means calc_mean_dt lc npoints (i :: is) st
            = mu_means calc_mean_dt lc npoints is
                (st.1.set i
                  (calc_mean_dt (arr_get lc i []) N (arr_get st.1 i 0)
                    (lc_day lc i (mu_startindex N - 1))
                    (lc_day lc i (mu_endindex N - 1)) 0).2, b)) := by
  refine ⟨?_, ?_, ?_⟩
  · intro h
    unfold mu_startindex mu_endindex
    rw [Int.tdiv_eq_ediv (by omega) (by decide), Int.tdiv_eq_ediv (by omega) (by decide)]
    omega
  · intro h
    unfold mu_startindex
    rw [Int.tdiv_eq_ediv (by omega) (by decide)]
    omega
  · intro calc_mean_dt lc npoints i is st hN
    obtain ⟨b, hb⟩ := mu_means_cons calc_mean_dt lc npoints i is st
    rw [hN] at hb
    exact ⟨b, hb⟩

/-- Witness of C34: curves of 4, 10 and 3 points. -/
theorem C34_witness :
    (0 ≤ mu_startindex 4 - 1 ∧ mu_startindex 4 - 1 ≤ mu_endindex 4 - 1 ∧
        mu_endindex 4 - 1 ≤ 4 - 1) ∧
      (0 ≤ mu_startindex 10 - 1 ∧ mu_startindex 10 - 1 ≤ mu_endindex 10 - 1 ∧
        mu_endindex 10 - 1 ≤ 10 - 1) ∧
      mu_startindex 3 - 1 = -1 ∧
      (mu_startindex 10 - 1, mu_endindex 10 - 1) = (1, 6) :=
  ⟨(C34_window_positions 4).1 (by decide), (C34_window_positions 10).1 (by decide),
    (C34_window_positions 3).2.1 (by decide), by decide⟩

/-! ## The flag `tauset` after a rejected `tau0` line -/

theorem fp_not_le_zero (v : Ieee.Flt) (h : v.le Ieee.Flt.zero = false) :
    Ieee.Flt.zero.lt v = true ∨ v = Ieee.Flt.nan := by
  cases v with
  | nan => exact Or.inr rfl
  | inf s =>
    cases s with
    | true => simp [Ieee.Flt.le, Ieee.Flt.zero] at h
    | false => exact Or.inl rfl
  | fin s x =>
    left
    simp only [Ieee.Flt.le, Ieee.Flt.zero, decide_eq_false_iff_not, not_le] at h
    simp only [Ieee.Flt.lt, Ieee.Flt.zero, decide_eq_true_eq]
    exact h

theorem fp_not_lt_zero (v : Ieee.Flt) (h : v.lt Ieee.Flt.zero = false) :
    Ieee.Flt.zero.le v = true ∨ v = Ieee.Flt.nan := by
  cases v with
  | nan => exact Or.inr rfl
  | inf s =>
    cases s with
    | true => simp [Ieee.Flt.lt, Ieee.Flt.zero] at h
    | false => exact Or.inl rfl
  | fin s x =>
    left
    simp only [Ieee.Flt.lt, Ieee.Flt.zero, decide_eq_false_iff_not, not_lt] at h
    simp only [Ieee.Flt.le, Ieee.Flt.zero, decide_eq_true_eq]
    exact h

theorem fp_pos_of_nonneg_ne (v : Ieee.Flt) (h : v.lt Ieee.Flt.zero = false)
    (hz : v.eq Ieee.Flt.zero = false) :
    Ieee.Flt.zero.lt v = true ∨ v = Ieee.Flt.nan := by
  cases v with
  | nan => exact Or.inr rfl
  | inf s =>
    cases s with
    | true => simp [Ieee.Flt.lt, Ieee.Flt.zero] at h
    | false => exact Or.inl rfl
  | fin s x =>
    left
    simp only [Ieee.Flt.lt, Ieee.Flt.zero, decide_eq_false_iff_not, not_lt] at h
    simp only [Ieee.Flt.eq, Ieee.Flt.zero, decide_eq_false_iff_not] at hz
    simp only [Ieee.Flt.lt, Ieee.Flt.zero, decide_eq_true_eq]
    exact lt_of_le_of_ne h (Ne.symm hz)

theorem fp_pos_not_le (v : Ieee.Flt) (h : Ieee.Flt.zero.lt v = true) :
    v.le Ieee.Flt.zero = false := by
  cases v with
  | nan => simp [Ieee.Flt.lt, Ieee.Flt.zero] at h
  | inf s =>
    cases s with
    | true => simp [Ieee.Flt.lt, Ieee.Flt.zero] at h
    | false => rfl
  | fin s x =>
    simp only [Ieee.Flt.lt, Ieee.Flt.zero, decide_eq_true_eq] at h
    simp only [Ieee.Flt.le, Ieee.Flt.zero, decide_eq_false_iff_not, not_le]
    exact h

theorem fp_retry_f_ok (f : Ieee.Format) (bad : Ieee.Flt → Bool) (l : List Line) :
    ∀ r : Ieee.Flt × List Line, Ieee.retry_f f bad l = some r → bad r.1 = false := by
  induction l with
  | nil => intro r h; simp [Ieee.retry_f] at h
  | cons line rest ih =>
    intro r h
    simp only [Ieee.retry_f] at h
    split at h
    · split at h
      · exact ih r h
      · simp only [Option.some.injEq] at h
        rw [← h]
        simpa using ‹¬ bad _ = true›
    · exact ih r h

theorem fp_retry_first (l : List Line) :
    (Ieee.retry_f Ieee.binary64 (fun x => x.le Ieee.Flt.zero) l).map (fun r => r.1)
      = Ieee.first_not_below l := by
  induction l with
  | nil => simp [Ieee.retry_f, Ieee.first_not_below]
  | cons line rest ih =>
    simp only [Ieee.retry_f, Ieee.first_not_below]
    cases hs : Ieee.sscanf_f Ieee.binary64 line with
    | none => simpa using ih
    | some v =>
      by_cases hv : v.le Ieee.Flt.zero = true
      · simpa [hv] using ih
      · simp [hv]

theorem fp_tau_span_last (lc : List (List Ieee.Fluxrec)) (s : Ieee.Setup) (l : List Nat)
    (i : Nat) :
    ∀ junk : Ieee.Flt, Ieee.tau_span lc s (l ++ [i]) junk
      = Ieee.Flt.sub Ieee.binary32
          (Ieee.lc_day lc (arr_get s.index i 0) (arr_get s.npoints (arr_get s.index i 0) 0 - 1))
          (Ieee.lc_day lc (arr_get s.index i 0) 0) := by
  induction l with
  | nil => intro junk; simp [Ieee.tau_span]
  | cons a l ih => intro junk; simp only [List.cons_append, Ieee.tau_span]; exact ih _

/-- With at least one curve, the local `ttotal` of `set_tau_grid` ends as the
`float` difference of the last and the first day of the curve
`index[ncurves-1]`. -/
theorem fp_tau_span_curves (lc : List (List Ieee.Fluxrec)) (s : Ieee.Setup)
    (junk : Ieee.Flt) (hc : 0 < s.ncurves) :
    Ieee.tau_span lc s (List.range s.ncurves.toNat) junk
      = Ieee.Flt.sub Ieee.binary32
          (Ieee.lc_day lc (arr_get s.index (s.ncurves - 1) 0)
            (arr_get s.npoints (arr_get s.index (s.ncurves - 1) 0) 0 - 1))
          (Ieee.lc_day lc (arr_get s.index (s.ncurves - 1) 0) 0) := by
  obtain ⟨n, hn⟩ : ∃ n : Nat, s.ncurves.toNat = n + 1 := ⟨s.ncurves.toNat - 1, by omega⟩
  have hi : ((n : Nat) : Int) = s.ncurves - 1 := by omega
  rw [hn, List.range_succ, fp_tau_span_last, hi]

theorem fp_ask_tau0_frame (store : Ieee.Flt → Ieee.Flt → Ieee.Flt) (is : List Nat) :
    ∀ (s : Ieee.Setup) (inp : List Line) (r : Ieee.Setup × List Line),
      Ieee.ask_tau0 store is s inp = some r → r.1 = { s with tau0 := r.1.tau0 } := by
  induction is with
  | nil =>
    intro s inp r h
    simp only [Ieee.ask_tau0, Option.some.injEq] at h
    rw [← h]
  | cons i is ih =>
    intro s inp r h
    cases inp with
    | nil => simp [Ieee.ask_tau0] at h
    | cons line rest =>
      simp only [Ieee.ask_tau0] at h
      split at h
      · split at h
        · simp at h
        · have := ih _ _ _ h
          rw [this]
      · exact ih _ _ _ h

theorem fp_tau_seed_frame (store : Ieee.Flt → Ieee.Flt → Ieee.Flt) (s : Ieee.Setup)
    (inp : List Line) (r : Ieee.Setup × List Line)
    (h : Ieee.tau_seed store s inp = some r) : r.1 = { s with tau0 := r.1.tau0 } := by
  unfold Ieee.tau_seed at h
  split at h
  · simp only [Option.some.injEq] at h
    rw [← h]
  · exact fp_ask_tau0_frame _ _ _ _ _ h

theorem fp_ask_dtau_frame (s : Ieee.Setup) (inp : List Line) (r : Ieee.Setup × List Line)
    (h : Ieee.ask_dtau s inp = some r) : r.1 = { s with dtau := r.1.dtau } := by
  unfold Ieee.ask_dtau at h
  split at h
  · cases inp with
    | nil => simp at h
    | cons line rest =>
      simp only at h
      split at h
      · simp only [Option.map_eq_some'] at h
        obtain ⟨a, _, ha⟩ := h
        rw [← ha]
      · simp only [Option.some.injEq] at h
        rw [← h]
  · simp only [Option.some.injEq] at h
    rw [← h]

/-- The blocks on `tau0` and `dtau` leave `ntau` alone. -/
theorem fp_tau_pre_ntau (store : Ieee.Flt → Ieee.Flt → Ieee.Flt) (s s1 : Ieee.Setup)
    (inp r1 : List Line)
    (h : (Ieee.tau_seed store s inp).bind (fun r => Ieee.ask_dtau r.1 r.2) = some (s1, r1)) :
    s1.ntau = s.ntau := by
  simp only [Option.bind_eq_some] at h
  obtain ⟨a, ha, hb⟩ := h
  have f1 := fp_tau_seed_frame _ _ _ _ ha
  have f2 := fp_ask_dtau_frame _ _ _ hb
  simp only at f2
  rw [f2, f1]

theorem fp_set_tau_grid_eq (store : Ieee.Flt → Ieee.Flt → Ieee.Flt) (junk : Ieee.Flt)
    (lc : List (List Ieee.Fluxrec)) (s : Ieee.Setup) (inp : List Line) :
    Ieee.set_tau_grid store junk lc s inp
      = ((Ieee.tau_seed store s inp).bind (fun r => Ieee.ask_dtau r.1 r.2)).bind
          (fun r =>
            Ieee.ask_ntau (Ieee.tau_span lc s (List.range s.ncurves.toNat) junk) r.1 r.2) := by
  unfold Ieee.set_tau_grid
  cases Ieee.tau_seed store s inp with
  | none => rfl
  | some a =>
    simp only [Option.some_bind]

/-- An exact quotient: when the product `4 * b` and the quotient `a / (4 * b)`
are numbers of the format, the machine quotient of `set_tau_grid` floors to
the floor of the exact quotient. -/
theorem fp_ntau_exact (a b : ℚ) (ha : 0 ≤ a) (hb : 0 < b)
    (hm : Ieee.Flt.round Ieee.binary64 false (4 * b) = .fin false (4 * b))
    (hq : Ieee.Flt.round Ieee.binary64 false (a / (4 * b)) = .fin false (a / (4 * b)))
    (hr : ⌊a / (4 * b)⌋ ≤ 2147483647) :
    Ieee.ntau_default (.fin false a) (.fin false b) = some ⌊a / (4 * b)⌋ := by
  have h4 : (4 : ℚ) * b ≠ 0 := by positivity
  have hnn : 0 ≤ a / (4 * b) := by positivity
  have hfl : 0 ≤ ⌊a / (4 * b)⌋ := Int.floor_nonneg.mpr hnn
  simp only [Ieee.ntau_default, Ieee.ntau_quotient, Ieee.Flt.mul, Ieee.Flt.pos, bne_self_eq_false,
    hm, Ieee.Flt.div, h4, if_false, hq, Ieee.Flt.floor, Ieee.Flt.val, Bool.false_eq_true,
    not_lt.mpr hfl]
  by_cases h0 : 0 < ⌊a / (4 * b)⌋
  · simp only [h0, if_true, Ieee.Flt.to_int, Ieee.Flt.val, Bool.false_eq_true, if_false,
      Int.floor_intCast]
    have : (0 : ℚ) ≤ (⌊a / (4 * b)⌋ : ℚ) := by exact_mod_cast hfl
    simp only [this, if_true]
    rw [if_pos ⟨by omega, hr⟩]
  · have hz : ⌊a / (4 * b)⌋ = 0 := by omega
    simp [h0, hz, Ieee.Flt.to_int, Ieee.Flt.val]

/-- C6 (amended): when `ntau` is 0 on entry and the operator answers the
step-count prompt with an empty line, `set_tau_grid` stores in `ntau` the
floor of the quotient `ttotal / (4.0 * dtau)` as the machine computes it:
`ttotal` is the `float` difference of the last and the first day of the curve
handled last, the product and the quotient are rounded to `double`, and the
floored quotient is converted to `int` (no defined result when it is not an
`int`).  When the product and the quotient are exact, this is the floor of
the exact quotient. -/
theorem C6_ntau_default_in_machine_arithmetic (store : Ieee.Flt → Ieee.Flt → Ieee.Flt)
    (junk : Ieee.Flt) (lc : List (List Ieee.Fluxrec)) (s s1 : Ieee.Setup)
    (inp rest : List Line) (line : Line)
    (hn : s.ntau = 0) (hc : 0 < s.ncurves)
    (hpre : (Ieee.tau_seed store s inp).bind (fun r => Ieee.ask_dtau r.1 r.2)
      = some (s1, line :: rest))
    (hline : line0 line = 10) :
    Ieee.set_tau_grid store junk lc s inp
        = (Ieee.Flt.to_int
            (Ieee.Flt.floor
              (Ieee.Flt.div Ieee.binary64
                (Ieee.Flt.sub Ieee.binary32
                  (Ieee.lc_day lc (arr_get s.index (s.ncurves - 1) 0)
                    (arr_get s.npoints (arr_get s.index (s.ncurves - 1) 0) 0 - 1))
                  (Ieee.lc_day lc (arr_get s.index (s.ncurves - 1) 0) 0))
                (Ieee.Flt.mul Ieee.binary64 (Ieee.Flt.pos 4) s1.dtau)))).map
            (fun d => ({ s1 with ntau := d }, rest)) ∧
      (∀ a b : ℚ,
        Ieee.Flt.sub Ieee.binary32
            (Ieee.lc_day lc (arr_get s.index (s.ncurves - 1) 0)
              (arr_get s.npoints (arr_get s.index (s.ncurves - 1) 0) 0 - 1))
            (Ieee.lc_day lc (arr_get s.index (s.ncurves - 1) 0) 0) = .fin false a →
        s1.dtau = .fin false b → 0 ≤ a → 0 < b →
        Ieee.Flt.round Ieee.binary64 false (4 * b) = .fin false (4 * b) →
        Ieee.Flt.round Ieee.binary64 false (a / (4 * b)) = .fin false (a / (4 * b)) →
        ⌊a / (4 * b)⌋ ≤ 2147483647 →
        Ieee.set_tau_grid store junk lc s inp
          = some ({ s1 with ntau := ⌊a / (4 * b)⌋ }, rest)) := by
  have h1 : s1.ntau = 0 := by rw [fp_tau_pre_ntau store s s1 inp _ hpre, hn]
  have hmain : Ieee.set_tau_grid store junk lc s inp
      = (Ieee.ntau_default
          (Ieee.Flt.sub Ieee.binary32
            (Ieee.lc_day lc (arr_get s.index (s.ncurves - 1) 0)
              (arr_get s.npoints (arr_get s.index (s.ncurves - 1) 0) 0 - 1))
            (Ieee.lc_day lc (arr_get s.index (s.ncurves - 1) 0) 0)) s1.dtau).map
          (fun d => ({ s1 with ntau := d }, rest)) := by
    rw [fp_set_tau_grid_eq, hpre, fp_tau_span_curves lc s junk hc]
    simp only [Option.some_bind, Ieee.ask_ntau, h1, if_true]
    cases Ieee.ntau_default _ s1.dtau with
    | none => rfl
    | some d => simp [hline]
  refine ⟨hmain, ?_⟩
  intro a b hsp hd ha hb hm hq hr
  rw [hmain, hsp, hd, fp_ntau_exact a b ha hb hm hq hr]
  rfl

/-- Witness of C6: two curves of days 0 to 100, step 2 from the file, an
empty answer at the step-count prompt: the quotient 100 / 8 is exact and
`ntau` is 12. -/
theorem C6_witness :
    (Ieee.two_curves_after (Ieee.tau_file "2.0")).ntau = 0 ∧
      Ieee.set_tau_grid Ieee.store_float Ieee.Flt.zero (Ieee.span_curves "100")
          (Ieee.two_curves_after (Ieee.tau_file "2.0")) [empty_line]
        = some ({ Ieee.two_curves_after (Ieee.tau_file "2.0") with ntau := ⌊(100 : ℚ) / (4 * 2)⌋ },
            []) ∧
      ⌊(100 : ℚ) / (4 * 2)⌋ = 12 :=
  ⟨by decide!,
    (C6_ntau_default_in_machine_arithmetic Ieee.store_float Ieee.Flt.zero
      (Ieee.span_curves "100") (Ieee.two_curves_after (Ieee.tau_file "2.0"))
      (Ieee.two_curves_after (Ieee.tau_file "2.0")) [empty_line] [] empty_line
      (by decide!) (by decide!) (by decide!) (by decide!)).2 100 2
      (by decide!) (by decide!) (by norm_num) (by norm_num) (by decide!) (by decide!)
      (by decide!),
    by decide!⟩

/-- C6 (counterexample): with the step `dtau 0.1` of the file and curves that
span the days 0 to 2, the empty answer leaves `ntau` = 5, while the floor of
the exact quotient of the span by four times the stored step is 4 (the double
nearest to 0.1 is above 0.1); with `dtau 0.07` and a span of 7 days `ntau` is
24, while the exact quotient of the values typed, 7 / 0.28, is 25. -/
theorem C6_counterexample :
    (Ieee.two_curves_after (Ieee.tau_file "0.1")).ntau = 0 ∧
      (Ieee.set_tau_grid Ieee.store_float Ieee.Flt.zero (Ieee.span_curves "2")
          (Ieee.two_curves_after (Ieee.tau_file "0.1")) [empty_line]).map
        (fun r => (r.1.ntau, r.1.dtau, r.2))
        = some (5, Ieee.literal Ieee.binary64 "0.1", []) ∧
      ⌊((2 : ℚ) - 0) / (4 * (Ieee.literal Ieee.binary64 "0.1").val)⌋ = 4 ∧
      (Ieee.set_tau_grid Ieee.store_float Ieee.Flt.zero (Ieee.span_curves "7")
          (Ieee.two_curves_after (Ieee.tau_file "0.07")) [empty_line]).map
        (fun r => (r.1.ntau, r.1.dtau, r.2))
        = some (24, Ieee.literal Ieee.binary64 "0.07", []) ∧
      ⌊((7 : ℚ) - 0) / (4 * (7 / 100))⌋ = 25 :=
  ⟨by decide!, by decide!, by decide!, by decide!, by decide!⟩

/-- C8 (code bug): two curves that span 3 days, `tau0` and `dtau 1` from the
file, `ntau` 0 on entry: the derived default is floor(3 / 4) = 0, the empty
answer at the step-count prompt is accepted and `ntau` is 0 on return, not
strictly positive; the same value typed at the prompt is refused and the
operator is asked again. -/
theorem C8_zero_default_is_accepted :
    0 ≤ (Ieee.two_curves_after (Ieee.tau_file "1")).ntau ∧
      Ieee.ntau_default (Ieee.literal Ieee.binary32 "3") (Ieee.literal Ieee.binary64 "1")
        = some 0 ∧
      (Ieee.set_tau_grid Ieee.store_float Ieee.Flt.zero (Ieee.span_curves "3")
          (Ieee.two_curves_after (Ieee.tau_file "1")) [empty_line]).map
        (fun r => (r.1.ntau, r.2)) = some (0, []) ∧
      ¬ ((0 : Int) < 0) ∧
      (Ieee.set_tau_grid Ieee.store_float Ieee.Flt.zero (Ieee.span_curves "3")
          (Ieee.two_curves_after (Ieee.tau_file "1")) ["0\n".toList, "2\n".toList]).map
        (fun r => (r.1.ntau, r.2)) = some (2, []) :=
  ⟨by decide!, by decide!, by decide!, by decide, by decide!⟩

theorem fp_case_dtau (s : Ieee.Setup) (line : Line)
    (h : s.dtau.lt Ieee.Flt.zero = false) :
    (Ieee.setup_file_case s line).1.dtau.lt Ieee.Flt.zero = false := by
  unfold Ieee.setup_file_case
  split <;> try (simp only; exact h)
  all_goals first
    | (split <;> (simp only; exact h))
    | skip
  simp only [Ieee.float_or]
  split
  · split
    · rfl
    · rename_i v _ hb
      simpa using hb
  · rfl

theorem fp_loop_dtau (lines : List Line) :
    ∀ s : Ieee.Setup, s.dtau.lt Ieee.Flt.zero = false →
      (Ieee.setup_file_loop s lines).1.dtau.lt Ieee.Flt.zero = false := by
  induction lines with
  | nil => intro s h; simpa [Ieee.setup_file_loop] using h
  | cons line rest ih =>
    intro s h
    unfold Ieee.setup_file_loop
    split
    · split
      · exact ih _ (fp_case_dtau s line h)
      · exact fp_case_dtau s line h
    · exact ih s h

/-- After `setup_file` on a container made by `new_setup`, `dtau < 0` is
false. -/
theorem fp_setup_file_dtau (mem : Option Ieee.Setup) (s0 : Ieee.Setup)
    (file : Option (List Line)) (h0 : Ieee.new_setup mem = some s0) :
    (Ieee.setup_file s0 file).1.dtau.lt Ieee.Flt.zero = false := by
  have hz : s0.dtau = Ieee.Flt.zero := by
    cases mem with
    | none => simp [Ieee.new_setup] at h0
    | some m =>
      simp only [Ieee.new_setup, Option.some.injEq] at h0
      rw [← h0]
  cases file with
  | none =>
    simp only [Ieee.setup_file, hz]
    rfl
  | some lines =>
    simp only [Ieee.setup_file]
    exact fp_loop_dtau lines s0 (by rw [hz]; rfl)

/-- What the step-size block of `set_tau_grid` does. -/
theorem fp_ask_dtau_cases (s : Ieee.Setup) (inp : List Line) (r : Ieee.Setup × List Line)
    (h : Ieee.ask_dtau s inp = some r) :
    (s.dtau.eq Ieee.Flt.zero = false → r.1.dtau = s.dtau ∧ r.2 = inp) ∧
      (s.dtau.eq Ieee.Flt.zero = true →
        r.1.dtau.le Ieee.Flt.zero = false ∧ ∃ line rest1, inp = line :: rest1 ∧
        (line0 line = 10 → r.1.dtau = Ieee.Flt.pos 1) ∧
        (line0 line ≠ 10 → Ieee.first_not_below (line :: rest1) = some r.1.dtau)) := by
  unfold Ieee.ask_dtau at h
  constructor
  · intro hn
    simp only [hn, Bool.false_eq_true, if_false, Option.some.injEq] at h
    rw [← h]
    exact ⟨rfl, rfl⟩
  · intro hn
    simp only [hn, if_true] at h
    cases inp with
    | nil => simp at h
    | cons line rest1 =>
      by_cases hl : line0 line = 10
      · simp only [hl, ne_eq, not_true_eq_false, if_false, Option.some.injEq] at h
        rw [← h]
        exact ⟨fp_pos_not_le (Ieee.Flt.pos 1) (by decide!), line, rest1, rfl, fun _ => rfl,
          fun hc => absurd hl hc⟩
      · simp only [hl, ne_eq, not_false_eq_true, if_true, Option.map_eq_some'] at h
        obtain ⟨a, ha, hr⟩ := h
        have hp := fp_retry_f_ok _ _ _ _ ha
        have hf := fp_retry_first (line :: rest1)
        rw [ha] at hf
        rw [← hr]
        refine ⟨by simpa using hp, line, rest1, rfl, fun hc => absurd hc hl, fun _ => ?_⟩
        exact hf.symm

theorem fp_ask_ntau_dtau (tt : Ieee.Flt) (s : Ieee.Setup) (inp : List Line)
    (r : Ieee.Setup × List Line)
    (h : Ieee.ask_ntau tt s inp = some r) : r.1.dtau = s.dtau := by
  unfold Ieee.ask_ntau at h
  split at h
  · split at h
    · simp at h
    · cases inp with
      | nil => simp at h
      | cons line rest =>
        simp only at h
        split at h
        · simp only [Option.map_eq_some'] at h
          obtain ⟨a, _, ha⟩ := h
          rw [← ha]
        · simp only [Option.some.injEq] at h
          rw [← h]
  · simp only [Option.some.injEq] at h
    rw [← h]

/-- C9 (amended): on a container that `setup_file` made of a fresh one,
`dtau <= 0` is false when `set_tau_grid` returns: `dtau` is strictly positive
or a NaN.  It is the value of the file if that does not compare equal to 0
(such a value is positive or a NaN); otherwise it is 1 if the operator
answers the step-size prompt with the empty line, and else the first
response that converts to a `double` that is not `<= 0`. -/
theorem C9_dtau_after_set_tau_grid (store : Ieee.Flt → Ieee.Flt → Ieee.Flt)
    (mem : Option Ieee.Setup) (s0 : Ieee.Setup)
    (file : Option (List Line)) (junk : Ieee.Flt) (lc : List (List Ieee.Fluxrec))
    (inp rest : List Line) (s' : Ieee.Setup)
    (h0 : Ieee.new_setup mem = some s0)
    (h : Ieee.set_tau_grid store junk lc (Ieee.setup_file s0 file).1 inp = some (s', rest)) :
    (Ieee.Flt.zero.lt s'.dtau = true ∨ s'.dtau = Ieee.Flt.nan) ∧
      s'.dtau.le Ieee.Flt.zero = false ∧
      ((Ieee.setup_file s0 file).1.dtau.eq Ieee.Flt.zero = false →
        s'.dtau = (Ieee.setup_file s0 file).1.dtau) ∧
      ((Ieee.setup_file s0 file).1.dtau.eq Ieee.Flt.zero = true →
        ∃ (s1 : Ieee.Setup) (line : Line) (rest1 : List Line),
          Ieee.tau_seed store (Ieee.setup_file s0 file).1 inp = some (s1, line :: rest1) ∧
          (line0 line = 10 → s'.dtau = Ieee.Flt.pos 1) ∧
          (line0 line ≠ 10 → Ieee.first_not_below (line :: rest1) = some s'.dtau)) := by
  have hnn := fp_setup_file_dtau mem s0 file h0
  unfold Ieee.set_tau_grid at h
  simp only [Option.bind_eq_some] at h
  obtain ⟨⟨s1, r1⟩, h1, ⟨s2, r2⟩, h2, h3⟩ := h
  have f1 := fp_tau_seed_frame _ _ _ _ h1
  have e1 : s1.dtau = (Ieee.setup_file s0 file).1.dtau := by
    simp only at f1
    rw [f1]
  have e3 : s'.dtau = s2.dtau := fp_ask_ntau_dtau _ _ _ _ h3
  obtain ⟨c1, c2⟩ := fp_ask_dtau_cases _ _ _ h2
  simp only at c1 c2
  rw [e1] at c1 c2
  rw [e3]
  have hle : s2.dtau.le Ieee.Flt.zero = false := by
    cases hz : (Ieee.setup_file s0 file).1.dtau.eq Ieee.Flt.zero with
    | true => exact (c2 hz).1
    | false =>
      rw [(c1 hz).1]
      rcases fp_pos_of_nonneg_ne _ hnn hz with hp | hn
      · exact fp_pos_not_le _ hp
      · rw [hn]
        rfl
  refine ⟨fp_not_le_zero _ hle, hle, fun hz => (c1 hz).1, ?_⟩
  intro hz
  obtain ⟨_, line, rest1, hl, p1, p2⟩ := c2 hz
  refine ⟨s1, line, rest1, ?_, p1, p2⟩
  rw [h1, hl]

/-- Witness of C9: no `dtau` line in the file and the operator types `abc`,
`-3` and then `0.5` at the step-size prompt: `dtau` ends as 1/2. -/
theorem C9_witness :
    Ieee.new_setup (some Ieee.two_curve_block) = some Ieee.two_curve_fresh ∧
      (Ieee.set_tau_grid Ieee.store_float Ieee.Flt.zero (Ieee.span_curves "3")
          (Ieee.setup_file Ieee.two_curve_fresh (some ["ntau 4\n".toList])).1
          [empty_line, empty_line, "abc\n".toList, "-3\n".toList, "0.5\n".toList]).map
        (fun r => (r.1.dtau, r.2)) = some (Ieee.Flt.pos (1 / 2), []) ∧
      (Ieee.Flt.zero.lt (Ieee.Flt.pos (1 / 2)) = true ∨ Ieee.Flt.pos (1 / 2) = Ieee.Flt.nan) :=
  ⟨by decide!, by decide!,
    (C9_dtau_after_set_tau_grid Ieee.store_float (some Ieee.two_curve_block)
      Ieee.two_curve_fresh (some ["ntau 4\n".toList]) Ieee.Flt.zero (Ieee.span_curves "3")
      [empty_line, empty_line, "abc\n".toList, "-3\n".toList, "0.5\n".toList] []
      { (Ieee.setup_file Ieee.two_curve_fresh (some ["ntau 4\n".toList])).1 with
        dtau := Ieee.Flt.pos (1 / 2) }
      (by decide!) (by decide!)).1⟩

/-- C9 (counterexample): the file line `dtau nan` is converted by `%lf` to a
NaN, which is not below 0 and does not compare equal to 0: `set_tau_grid`
asks nothing about the step and returns with `dtau` a NaN, which is not
strictly positive.  The response `nan` at the step-size prompt ends the retry
loop in the same way. -/
theorem C9_counterexample :
    Ieee.new_setup (some Ieee.two_curve_block) = some Ieee.two_curve_fresh ∧
      (Ieee.set_tau_grid Ieee.store_float Ieee.Flt.zero (Ieee.span_curves "3")
          (Ieee.setup_file Ieee.two_curve_fresh
            (some ["dtau nan\n".toList, "ntau 4\n".toList])).1
          [empty_line, empty_line]).map
        (fun r => (r.1.dtau, r.2)) = some (Ieee.Flt.nan, []) ∧
      Ieee.Flt.zero.lt Ieee.Flt.nan = false ∧
      (Ieee.set_tau_grid Ieee.store_float Ieee.Flt.zero (Ieee.span_curves "3")
          (Ieee.setup_file Ieee.two_curve_fresh (some ["ntau 4\n".toList])).1
          [empty_line, empty_line, "nan\n".toList]).map
        (fun r => (r.1.dtau, r.2)) = some (Ieee.Flt.nan, []) :=
  ⟨by decide!, by decide!, by decide!, by decide!⟩

/-! ## The conversion of a decimal literal -/

theorem fp_digit_char_cases (d : Nat) (h : d < 10) :
    Ieee.digit_char d = '0' ∧ d = 0 ∨ Ieee.digit_char d = '1' ∧ d = 1 ∨
    Ieee.digit_char d = '2' ∧ d = 2 ∨ Ieee.digit_char d = '3' ∧ d = 3 ∨
    Ieee.digit_char d = '4' ∧ d = 4 ∨ Ieee.digit_char d = '5' ∧ d = 5 ∨
    Ieee.digit_char d = '6' ∧ d = 6 ∨ Ieee.digit_char d = '7' ∧ d = 7 ∨
    Ieee.digit_char d = '8' ∧ d = 8 ∨ Ieee.digit_char d = '9' ∧ d = 9 := by
  interval_cases d <;> simp [Ieee.digit_char]

theorem fp_scan_digits_char (d : Nat) (h : d < 10) (t : Line) :
    scan_digits (Ieee.digit_char d :: t) = (d :: (scan_digits t).1, (scan_digits t).2) := by
  rcases fp_digit_char_cases d h with h | h | h | h | h | h | h | h | h | h <;>
    (obtain ⟨hc, hd⟩ := h; rw [hc, hd]; simp [scan_digits, isdigit])

theorem fp_scan_digits_text (ds : List Nat) (h : ∀ d ∈ ds, d < 10) (t : Line) :
    scan_digits (ds.map Ieee.digit_char ++ t)
      = (ds ++ (scan_digits t).1, (scan_digits t).2) := by
  induction ds with
  | nil => simp
  | cons d ds ih =>
    have hd : d < 10 := h d (List.mem_cons_self d ds)
    have hds : ∀ x ∈ ds, x < 10 := fun x hx => h x (List.mem_cons_of_mem d hx)
    simp only [List.map_cons, List.cons_append]
    rw [fp_scan_digits_char d hd, ih hds]

theorem fp_scan_digits_stop (ds : List Nat) (h : ∀ d ∈ ds, d < 10) (c : Char) (t : Line)
    (hc : isdigit c = false) :
    scan_digits (ds.map Ieee.digit_char ++ c :: t) = (ds, c :: t) := by
  rw [fp_scan_digits_text ds h]
  simp [scan_digits, hc]

theorem fp_scan_exponent_text (expo : Option (Bool × List Nat)) (rest : Line)
    (h : ∀ e, expo = some e → ∀ d ∈ e.2, d < 10) :
    Ieee.scan_exponent 'e'
        (Ieee.exponent_text expo
          ++ '\n' :: rest)
      = (Ieee.exponent_value expo,
         '\n' :: rest) := by
  cases expo with
  | none =>
    simp only [Ieee.exponent_text, Ieee.exponent_value, List.nil_append, Ieee.scan_exponent]
    rw [if_neg (by decide)]
  | some e =>
    obtain ⟨en, ex⟩ := e
    have hex : ∀ d ∈ ex, d < 10 := h (en, ex) rfl
    have hstop := fp_scan_digits_stop ex hex '\n' rest (by decide)
    simp only [Ieee.exponent_text, Ieee.exponent_value, List.cons_append, Ieee.scan_exponent]
    rw [if_pos (by decide)]
    cases en with
    | true =>
      simp only [if_true, List.cons_append, List.nil_append, List.append_assoc, hstop]
    | false =>
      simp only [Bool.false_eq_true, if_false, List.nil_append]
      cases ex with
      | nil => simp [scan_digits, isdigit, digits_val]
      | cons d ex' =>
        have hd : d < 10 := hex d (List.mem_cons_self d ex')
        have hstop' := hstop
        simp only [List.map_cons, List.cons_append] at hstop' ⊢
        rcases fp_digit_char_cases d hd with h | h | h | h | h | h | h | h | h | h <;>
          (obtain ⟨hc, _⟩ := h; rw [hc] at hstop' ⊢; simp [hstop'])

theorem fp_scan_fraction_text (frac : Option (List Nat)) (c : Char) (t : Line)
    (h : ∀ fp, frac = some fp → ∀ d ∈ fp, d < 10) (hc1 : c ≠ '.')
    (hc2 : isdigit c = false) :
    Ieee.scan_fraction scan_digits
        (Ieee.fraction_text frac ++ c :: t)
      = (frac.isSome, frac.getD [], c :: t) := by
  cases frac with
  | none =>
    simp only [Ieee.fraction_text, List.nil_append, Option.isSome_none, Option.getD_none]
    unfold Ieee.scan_fraction
    split
    · rename_i heq
      simp only [List.cons.injEq] at heq
      exact absurd heq.1 hc1
    · rfl
  | some fp =>
    have hfp : ∀ d ∈ fp, d < 10 := h fp rfl
    simp only [Ieee.fraction_text, List.cons_append, Ieee.scan_fraction, Option.isSome_some,
      Option.getD_some, fp_scan_digits_stop fp hfp c t hc2]

/-- The text of the exponent, followed by the end of the line, starts with a
character that is no digit, no point and no `x`. -/
theorem fp_exponent_head (expo : Option (Bool × List Nat)) (rest : Line) :
    ∃ (c : Char) (t : Line),
      Ieee.exponent_text expo
        ++ '\n' :: rest = c :: t ∧
      c ≠ '.' ∧ isdigit c = false ∧ Ieee.lower c ≠ 'x' := by
  cases expo with
  | none => exact ⟨'\n', rest, rfl, by decide, by decide, by decide⟩
  | some e => exact ⟨'e', _, rfl, by decide, by decide, by decide⟩

/-- The text of the fraction and of the exponent, followed by the end of the
line, starts with a character that is no digit and no `x`. -/
theorem fp_fraction_head (frac : Option (List Nat)) (expo : Option (Bool × List Nat))
    (rest : Line) :
    ∃ (c : Char) (t : Line),
      Ieee.fraction_text frac ++
      (Ieee.exponent_text expo
        ++ '\n' :: rest) = c :: t ∧
      isdigit c = false ∧ Ieee.lower c ≠ 'x' := by
  cases frac with
  | none =>
    obtain ⟨c, t, h, _, h2, h3⟩ := fp_exponent_head expo rest
    exact ⟨c, t, by simpa using h, h2, h3⟩
  | some fp => exact ⟨'.', _, rfl, by decide, by decide⟩

/-- A decimal literal with at least one digit before the point is converted
to `mantissa * 10^exponent`, rounded to the format; the text up to the end of
the line is read. -/
theorem fp_scan_decimal_text (f : Ieee.Format) (neg : Bool) (ip : List Nat)
    (frac : Option (List Nat)) (expo : Option (Bool × List Nat)) (rest : Line)
    (hip : ∀ d ∈ ip, d < 10) (hne : ip ≠ [])
    (hfrac : ∀ fp, frac = some fp → ∀ d ∈ fp, d < 10)
    (hexpo : ∀ e, expo = some e → ∀ d ∈ e.2, d < 10) :
    Ieee.scan_decimal f neg
        (ip.map Ieee.digit_char ++
          (Ieee.fraction_text frac ++
          (Ieee.exponent_text expo
            ++ '\n' :: rest)))
      = some (Ieee.decimal_value f neg (Ieee.literal_mantissa ip frac)
          (Ieee.literal_exponent frac expo), '\n' :: rest) := by
  obtain ⟨c1, t1, h1, hd1, _⟩ := fp_fraction_head frac expo rest
  obtain ⟨c2, t2, h2, hp2, hd2, _⟩ := fp_exponent_head expo rest
  have e1 := fp_scan_digits_stop ip hip c1 t1 hd1
  rw [← h1] at e1
  have e2 := fp_scan_fraction_text frac c2 t2 hfrac hp2 hd2
  rw [← h2] at e2
  have e3 := fp_scan_exponent_text expo rest hexpo
  unfold Ieee.scan_decimal
  simp only [e1, e2, e3, hne, false_and, if_false, Ieee.literal_mantissa,
    Ieee.literal_exponent]

theorem fp_digits_head (ip : List Nat) (hip : ∀ d ∈ ip, d < 10) (frac : Option (List Nat))
    (expo : Option (Bool × List Nat)) (rest : Line) :
    ∃ (c : Char) (t : Line),
      ip.map Ieee.digit_char ++
        (Ieee.fraction_text frac ++ (Ieee.exponent_text expo ++ '\n' :: rest)) = c :: t ∧
      Ieee.lower c ≠ 'x' := by
  cases ip with
  | nil =>
    obtain ⟨c, t, h, _, h3⟩ := fp_fraction_head frac expo rest
    exact ⟨c, t, by simpa using h, h3⟩
  | cons d ip' =>
    have hd : d < 10 := hip d (List.mem_cons_self d ip')
    refine ⟨Ieee.digit_char d, _, rfl, ?_⟩
    rcases fp_digit_char_cases d hd with h | h | h | h | h | h | h | h | h | h <;>
      (obtain ⟨hc, _⟩ := h; rw [hc]; decide)

theorem fp_scan_unsigned_text (f : Ieee.Format) (neg : Bool) (ip : List Nat)
    (frac : Option (List Nat)) (expo : Option (Bool × List Nat)) (rest : Line)
    (hip : ∀ d ∈ ip, d < 10) (hne : ip ≠ [])
    (hfrac : ∀ fp, frac = some fp → ∀ d ∈ fp, d < 10)
    (hexpo : ∀ e, expo = some e → ∀ d ∈ e.2, d < 10) :
    Ieee.scan_unsigned f neg
        (ip.map Ieee.digit_char ++
          (Ieee.fraction_text frac ++ (Ieee.exponent_text expo ++ '\n' :: rest)))
      = some (Ieee.decimal_value f neg (Ieee.literal_mantissa ip frac)
          (Ieee.literal_exponent frac expo), '\n' :: rest) := by
  rw [← fp_scan_decimal_text f neg ip frac expo rest hip hne hfrac hexpo]
  cases ip with
  | nil => exact absurd rfl hne
  | cons d ip' =>
    have hd : d < 10 := hip d (List.mem_cons_self d ip')
    have hip' : ∀ x ∈ ip', x < 10 := fun x hx => hip x (List.mem_cons_of_mem d hx)
    obtain ⟨c, t, ht, hx⟩ := fp_digits_head ip' hip' frac expo rest
    simp only [List.map_cons, List.cons_append]
    rw [ht]
    have hhex : ¬ (Ieee.digit_char d = '0' ∧
        ((c :: t).head?.map Ieee.lower) = some 'x') := by
      intro hc
      simp only [List.head?_cons, Option.map_some', Option.some.injEq] at hc
      exact hx hc.2
    have hn : Ieee.lower (Ieee.digit_char d) ≠ 'n' := by
      rcases fp_digit_char_cases d hd with h | h | h | h | h | h | h | h | h | h <;>
        (obtain ⟨hc, _⟩ := h; rw [hc]; decide)
    have hi : Ieee.lower (Ieee.digit_char d) ≠ 'i' := by
      rcases fp_digit_char_cases d hd with h | h | h | h | h | h | h | h | h | h <;>
        (obtain ⟨hc, _⟩ := h; rw [hc]; decide)
    simp only [Ieee.scan_unsigned, hn, hi, if_false, hhex]

theorem fp_scan_float_text (f : Ieee.Format) (neg : Bool) (ip : List Nat)
    (frac : Option (List Nat)) (expo : Option (Bool × List Nat)) (rest : Line)
    (hip : ∀ d ∈ ip, d < 10) (hne : ip ≠ [])
    (hfrac : ∀ fp, frac = some fp → ∀ d ∈ fp, d < 10)
    (hexpo : ∀ e, expo = some e → ∀ d ∈ e.2, d < 10) :
    Ieee.scan_float f (' ' :: (Ieee.literal_text neg ip frac expo ++ '\n' :: rest))
      = some (Ieee.decimal_value f neg (Ieee.literal_mantissa ip frac)
          (Ieee.literal_exponent frac expo), '\n' :: rest) := by
  have hu := fp_scan_unsigned_text f neg ip frac expo rest hip hne hfrac hexpo
  have hsp : skip_space (' ' :: (Ieee.literal_text neg ip frac expo ++ '\n' :: rest))
      = skip_space (Ieee.literal_text neg ip frac expo ++ '\n' :: rest) := by
    simp [skip_space, isspace]
  unfold Ieee.scan_float
  rw [hsp]
  cases neg with
  | true =>
    simp only [Ieee.literal_text, if_true, List.cons_append, List.nil_append,
      List.append_assoc]
    have : skip_space ('-' :: (ip.map Ieee.digit_char ++
        (Ieee.fraction_text frac ++ (Ieee.exponent_text expo ++ '\n' :: rest))))
        = '-' :: (ip.map Ieee.digit_char ++
        (Ieee.fraction_text frac ++ (Ieee.exponent_text expo ++ '\n' :: rest))) := by
      simp [skip_space, isspace]
    rw [this]
    exact hu
  | false =>
    simp only [Ieee.literal_text, Bool.false_eq_true, if_false, List.nil_append,
      List.append_assoc]
    cases ip with
    | nil => exact absurd rfl hne
    | cons d ip' =>
      have hd : d < 10 := hip d (List.mem_cons_self d ip')
      simp only [List.map_cons, List.cons_append] at hu ⊢
      rcases fp_digit_char_cases d hd with h | h | h | h | h | h | h | h | h | h <;>
        (obtain ⟨hc, _⟩ := h; rw [hc] at hu ⊢; simp [skip_space, isspace, hu])

/-- Inside the range of the formats the value of a literal is the exact
number `m * 10^e`, rounded once. -/
theorem fp_decimal_value_exact (f : Ieee.Format) (neg : Bool) (m : Nat) (e : Int)
    (h1 : -400 ≤ e) (h2 : e ≤ 400) :
    Ieee.decimal_value f neg m e = Ieee.Flt.round f neg ((m : ℚ) * (10 : ℚ) ^ e) := by
  unfold Ieee.decimal_value
  by_cases hm : m = 0
  · simp [hm, Ieee.Flt.round]
  · have hlog : ¬ ((Ieee.log2 m / 3 : Nat) : Int) + 1 + e < -400 := by
      have : (0 : Int) ≤ ((Ieee.log2 m / 3 : Nat) : Int) := Int.natCast_nonneg _
      omega
    simp only [hm, if_false, not_lt.mpr h2, hlog]
    by_cases he : 0 ≤ e
    · simp only [he, if_true]
      congr 1
      obtain ⟨n, rfl⟩ := Int.eq_ofNat_of_zero_le he
      simp
    · simp only [he, if_false]
      congr 1
      obtain ⟨n, hn⟩ := Int.exists_eq_neg_ofNat (le_of_lt (not_le.mp he))
      subst hn
      simp [div_eq_mul_inv]

/-- A `d2delta` line with a decimal literal: the keyword is recognised and
`sscanf` converts the literal to the `float` nearest to the number it
denotes. -/
theorem fp_d2delta_literal (neg : Bool) (ip : List Nat) (frac : Option (List Nat))
    (expo : Option (Bool × List Nat))
    (hip : ∀ d ∈ ip, d < 10) (hne : ip ≠ [])
    (hfrac : ∀ fp, frac = some fp → ∀ d ∈ fp, d < 10)
    (hexpo : ∀ e, expo = some e → ∀ d ∈ e.2, d < 10) :
    read_setup_line (Ieee.d2delta_line neg ip frac expo) = D2DELTA ∧
      Ieee.sscanf_s_f Ieee.binary32 (Ieee.d2delta_line neg ip frac expo)
        = some (Ieee.decimal_value Ieee.binary32 neg (Ieee.literal_mantissa ip frac)
            (Ieee.literal_exponent frac expo)) := by
  have hs : scan_s (Ieee.d2delta_line neg ip frac expo)
      = some ("d2delta".toList,
          ' ' :: (Ieee.literal_text neg ip frac expo ++ '\n' :: [])) := by
    simp [Ieee.d2delta_line, scan_s, skip_space, scan_token, isspace]
  constructor
  · have hk : sscanf_s (Ieee.d2delta_line neg ip frac expo) = sscanf_s "d2delta\n".toList := by
      have h0 : sscanf_s "d2delta\n".toList = some "d2delta".toList := by decide
      rw [h0]
      simp only [sscanf_s, hs, Option.map_some']
    rw [read_setup_line_congr _ _ hk]
    decide
  · simp only [Ieee.sscanf_s_f, hs, Option.some_bind,
      fp_scan_float_text Ieee.binary32 neg ip frac expo [] hip hne hfrac hexpo,
      Option.map_some']

/-- C25 (amended): after a `d2delta` line, `d2delta` is the `float` that
`sscanf` converts from the text after the keyword when it converts one that
is not below 0 (a number `>= 0`, an infinity or a NaN), and 5 in every other
case (nothing converted, or a value below 0); so `d2delta < 0` is false
afterwards (`d2delta >= 0` holds unless it is a NaN), no other member changes
and the line does not clear `no_error`.  For a value token that is a decimal
literal (digits, an optional fraction, an optional exponent) the value
converted is the `float` nearest to the number the literal denotes. -/
theorem C25_d2delta_line (s : Ieee.Setup) (line : Line)
    (hk : read_setup_line line = D2DELTA) :
    (∀ v : Ieee.Flt, Ieee.sscanf_s_f Ieee.binary32 line = some v →
        v.lt Ieee.Flt.zero = false → (Ieee.setup_file_case s line).1.d2delta = v) ∧
      ((Ieee.sscanf_s_f Ieee.binary32 line = none ∨
          ∃ v : Ieee.Flt, Ieee.sscanf_s_f Ieee.binary32 line = some v ∧
            v.lt Ieee.Flt.zero = true) →
        (Ieee.setup_file_case s line).1.d2delta = Ieee.Flt.pos 5) ∧
      (Ieee.setup_file_case s line).1.d2delta.lt Ieee.Flt.zero = false ∧
      (Ieee.Flt.zero.le (Ieee.setup_file_case s line).1.d2delta = true ∨
        (Ieee.setup_file_case s line).1.d2delta = Ieee.Flt.nan) ∧
      (Ieee.setup_file_case s line).1
        = { s with d2delta := (Ieee.setup_file_case s line).1.d2delta } ∧
      (Ieee.setup_file_case s line).2 = true ∧
      (∀ (neg : Bool) (ip : List Nat) (frac : Option (List Nat))
          (expo : Option (Bool × List Nat)),
        (∀ d ∈ ip, d < 10) → ip ≠ [] → (∀ fp, frac = some fp → ∀ d ∈ fp, d < 10) →
        (∀ e, expo = some e → ∀ d ∈ e.2, d < 10) →
        read_setup_line (Ieee.d2delta_line neg ip frac expo) = D2DELTA ∧
        (Ieee.setup_file_case s (Ieee.d2delta_line neg ip frac expo)).1.d2delta
          = (if (Ieee.decimal_value Ieee.binary32 neg (Ieee.literal_mantissa ip frac)
                  (Ieee.literal_exponent frac expo)).lt Ieee.Flt.zero = true
              then Ieee.Flt.pos 5
              else Ieee.decimal_value Ieee.binary32 neg (Ieee.literal_mantissa ip frac)
                  (Ieee.literal_exponent frac expo)) ∧
        (-400 ≤ Ieee.literal_exponent frac expo → Ieee.literal_exponent frac expo ≤ 400 →
          Ieee.decimal_value Ieee.binary32 neg (Ieee.literal_mantissa ip frac)
              (Ieee.literal_exponent frac expo)
            = Ieee.Flt.round Ieee.binary32 neg
                ((Ieee.literal_mantissa ip frac : ℚ)
                  * (10 : ℚ) ^ Ieee.literal_exponent frac expo))) := by
  have hlt : (Ieee.setup_file_case s line).1.d2delta.lt Ieee.Flt.zero = false := by
    cases h : Ieee.sscanf_s_f Ieee.binary32 line with
    | none =>
      simp only [Ieee.setup_file_case, hk, Ieee.float_or, h]
      rfl
    | some v =>
      cases hv : v.lt Ieee.Flt.zero with
      | true =>
        simp only [Ieee.setup_file_case, hk, Ieee.float_or, h, hv, if_true]
        rfl
      | false =>
        simp only [Ieee.setup_file_case, hk, Ieee.float_or, h, hv, Bool.false_eq_true,
          if_false]
  refine ⟨?_, ?_, hlt, fp_not_lt_zero _ hlt, ?_, ?_, ?_⟩
  · intro v hv h0
    simp [Ieee.setup_file_case, hk, Ieee.float_or, hv, h0]
  · rintro (hn | ⟨v, hv, hlt⟩)
    · simp [Ieee.setup_file_case, hk, Ieee.float_or, hn]
    · simp [Ieee.setup_file_case, hk, Ieee.float_or, hv, hlt]
  · simp only [Ieee.setup_file_case, hk]
  · simp only [Ieee.setup_file_case, hk]
  · intro neg ip frac expo hip hne hfrac hexpo
    obtain ⟨hkey, hval⟩ := fp_d2delta_literal neg ip frac expo hip hne hfrac hexpo
    refine ⟨hkey, ?_, fun h1 h2 => fp_decimal_value_exact _ _ _ _ h1 h2⟩
    simp only [Ieee.setup_file_case, hkey, Ieee.float_or, hval]

/-- Witness of C25: the lines `d2delta 2.5e1` (25 is stored), `d2delta 0.1`
(the `float` nearest to 0.1), `d2delta 2e` (2), `d2delta 0x1p-1` (0.5),
`d2delta 1e39` and `d2delta inf` (an infinity), `d2delta -0` (the negative
zero), and `d2delta -1`, `d2delta abc`, `d2delta` (5). -/
theorem C25_witness :
    (Ieee.setup_file_case Ieee.fresh_setup "d2delta 2.5e1\n".toList).1.d2delta
        = Ieee.Flt.fin false 25 ∧
      (Ieee.setup_file_case Ieee.fresh_setup "d2delta 0.1\n".toList).1.d2delta
        = Ieee.Flt.fin false (13421773 / 134217728) ∧
      (Ieee.setup_file_case Ieee.fresh_setup "d2delta 2e\n".toList).1.d2delta
        = Ieee.Flt.fin false 2 ∧
      (Ieee.setup_file_case Ieee.fresh_setup "d2delta 0x1p-1\n".toList).1.d2delta
        = Ieee.Flt.fin false (1 / 2) ∧
      (Ieee.setup_file_case Ieee.fresh_setup "d2delta 1e39\n".toList).1.d2delta
        = Ieee.Flt.inf false ∧
      (Ieee.setup_file_case Ieee.fresh_setup "d2delta inf\n".toList).1.d2delta
        = Ieee.Flt.inf false ∧
      (Ieee.setup_file_case Ieee.fresh_setup "d2delta -0\n".toList).1.d2delta
        = Ieee.Flt.fin true 0 ∧
      (Ieee.setup_file_case Ieee.fresh_setup "d2delta -1\n".toList).1.d2delta
        = Ieee.Flt.pos 5 ∧
      (Ieee.setup_file_case Ieee.fresh_setup "d2delta abc\n".toList).1.d2delta
        = Ieee.Flt.pos 5 ∧
      (Ieee.setup_file_case Ieee.fresh_setup "d2delta\n".toList).1.d2delta
        = Ieee.Flt.pos 5 ∧
      Ieee.d2delta_line true [1, 2] (some [5]) (some (true, [1])) = "d2delta -12.5e-1\n".toList ∧
      Ieee.decimal_value Ieee.binary32 true (Ieee.literal_mantissa [1, 2] (some [5]))
          (Ieee.literal_exponent (some [5]) (some (true, [1])))
        = Ieee.Flt.round Ieee.binary32 true
            ((Ieee.literal_mantissa [1, 2] (some [5]) : ℚ)
              * (10 : ℚ) ^ Ieee.literal_exponent (some [5]) (some (true, [1]))) ∧
      Ieee.Flt.round Ieee.binary32 true ((125 : ℚ) * (10 : ℚ) ^ (-2 : Int))
        = Ieee.Flt.fin true (5 / 4) :=
  ⟨(C25_d2delta_line Ieee.fresh_setup "d2delta 2.5e1\n".toList (by decide)).1 _
      (by decide!) (by decide!),
    (C25_d2delta_line Ieee.fresh_setup "d2delta 0.1\n".toList (by decide)).1 _
      (by decide!) (by decide!),
    (C25_d2delta_line Ieee.fresh_setup "d2delta 2e\n".toList (by decide)).1 _
      (by decide!) (by decide!),
    (C25_d2delta_line Ieee.fresh_setup "d2delta 0x1p-1\n".toList (by decide)).1 _
      (by decide!) (by decide!),
    (C25_d2delta_line Ieee.fresh_setup "d2delta 1e39\n".toList (by decide)).1 _
      (by decide!) (by decide!),
    (C25_d2delta_line Ieee.fresh_setup "d2delta inf\n".toList (by decide)).1 _
      (by decide!) (by decide!),
    (C25_d2delta_line Ieee.fresh_setup "d2delta -0\n".toList (by decide)).1 _
      (by decide!) (by decide!),
    (C25_d2delta_line Ieee.fresh_setup "d2delta -1\n".toList (by decide)).2.1
      (Or.inr ⟨Ieee.Flt.fin true 1, by decide!, by decide!⟩),
    (C25_d2delta_line Ieee.fresh_setup "d2delta abc\n".toList (by decide)).2.1
      (Or.inl (by decide!)),
    (C25_d2delta_line Ieee.fresh_setup "d2delta\n".toList (by decide)).2.1
      (Or.inl (by decide!)),
    by decide,
    ((C25_d2delta_line Ieee.fresh_setup "d2delta\n".toList (by decide)).2.2.2.2.2.2
      true [1, 2] (some [5]) (some (true, [1])) (by decide) (by decide)
      (by intro fp h; cases h; decide) (by intro e h; cases h; decide)).2.2
      (by decide) (by decide),
    by decide!⟩

/-- C25 (counterexample): the value token of the line `d2delta nan` is not a
number `>= 0`, `sscanf` converts it to a NaN, `NaN < 0.0` is false and the NaN
is kept: `d2delta` is not 5 and `d2delta >= 0` is false. -/
theorem C25_counterexample :
    read_setup_line "d2delta nan\n".toList = D2DELTA ∧
      (Ieee.setup_file_case Ieee.fresh_setup "d2delta nan\n".toList).1.d2delta
        = Ieee.Flt.nan ∧
      Ieee.Flt.nan ≠ Ieee.Flt.pos 5 ∧
      Ieee.Flt.zero.le Ieee.Flt.nan = false :=
  ⟨by decide, by decide!, by decide, by decide⟩

theorem fp_pow2_pos (e : Int) : 0 < Ieee.pow2 e := by
  unfold Ieee.pow2
  split
  · exact_mod_cast Nat.pos_of_ne_zero (by positivity)
  · apply div_pos one_pos
    exact_mod_cast Nat.pos_of_ne_zero (by positivity)

theorem fp_round_even_nonneg (x : ℚ) (h : 0 ≤ x) : 0 ≤ Ieee.round_even x := by
  have hf : 0 ≤ ⌊x⌋ := Int.floor_nonneg.mpr h
  unfold Ieee.round_even
  simp only
  split
  · exact hf
  · split
    · omega
    · split
      · exact hf
      · omega

/-- Rounding keeps the sign: the result is the infinity of that sign or a
finite value of that sign with a magnitude that is not negative. -/
theorem fp_round_cases (f : Ieee.Format) (neg : Bool) (a : ℚ) :
    Ieee.Flt.round f neg a = .inf neg ∨
      ∃ r : ℚ, Ieee.Flt.round f neg a = .fin neg r ∧ 0 ≤ r ∧ (a ≤ 0 → r = 0) := by
  unfold Ieee.Flt.round
  by_cases ha : a ≤ 0
  · right
    exact ⟨0, by simp [ha], le_refl 0, fun _ => rfl⟩
  · simp only [ha, if_false]
    split
    · left; rfl
    · right
      refine ⟨_, rfl, ?_, ?_⟩
      on_goal 2 => intro h; exact h.elim
      apply mul_nonneg
      · exact_mod_cast fp_round_even_nonneg _
          (div_nonneg (le_of_lt (not_le.mp ha)) (le_of_lt (fp_pow2_pos _)))
      · exact le_of_lt (fp_pow2_pos _)

/-- The difference `l - i` for `i <= l`: a NaN, the positive infinity, or a
finite value that is not negative. -/
theorem fp_sub_of_le (f : Ieee.Format) (l i : Ieee.Flt) (h : i.le l = true) :
    Ieee.Flt.sub f l i = .nan ∨ Ieee.Flt.sub f l i = .inf false ∨
      ∃ (n : Bool) (m : ℚ), Ieee.Flt.sub f l i = .fin n m ∧ 0 ≤ m ∧ (n = false ∨ m = 0) := by
  cases l with
  | nan => cases i <;> simp [Ieee.Flt.le] at h
  | inf s =>
    cases i with
    | nan => simp [Ieee.Flt.le] at h
    | inf t =>
      by_cases hst : s = t
      · left; simp [Ieee.Flt.sub, hst]
      · cases s <;> cases t <;> simp_all [Ieee.Flt.le, Ieee.Flt.sub]
    | fin t y =>
      cases s with
      | true => simp [Ieee.Flt.le] at h
      | false => right; left; rfl
  | fin s x =>
    cases i with
    | nan => simp [Ieee.Flt.le] at h
    | inf t =>
      cases t with
      | true => right; left; rfl
      | false => simp [Ieee.Flt.le] at h
    | fin t y =>
      simp only [Ieee.Flt.le, decide_eq_true_eq] at h
      simp only [Ieee.Flt.sub]
      by_cases hd : (Ieee.Flt.fin s x).val - (Ieee.Flt.fin t y).val = 0
      · right; right
        exact ⟨(s && !t), 0, by simp [hd], le_refl 0, Or.inr rfl⟩
      · simp only [hd, if_false]
        have hpos : ¬ ((Ieee.Flt.fin s x).val - (Ieee.Flt.fin t y).val < 0) := by
          intro hc
          linarith
        simp only [Ieee.Flt.of_rat, hpos, if_false]
        rcases fp_round_cases f false ((Ieee.Flt.fin s x).val - (Ieee.Flt.fin t y).val) with
          hi | ⟨r, hr, h0, _⟩
        · right; left; exact hi
        · right; right
          exact ⟨false, r, hr, h0, Or.inl rfl⟩

/-- The quotient `d / p` for a positive `p` and a `d` that is a difference as
above: when it is finite, its value is not negative. -/
theorem fp_div_nonneg (f : Ieee.Format) (d p : Ieee.Flt) (hp : Ieee.Flt.zero.lt p = true)
    (hd : d = .nan ∨ d = .inf false ∨
      ∃ (n : Bool) (m : ℚ), d = .fin n m ∧ 0 ≤ m ∧ (n = false ∨ m = 0))
    (n : Bool) (q : ℚ) (hq : Ieee.Flt.div f d p = .fin n q) :
    0 ≤ (Ieee.Flt.fin n q).val := by
  rcases hd with rfl | rfl | ⟨dn, m, rfl, hm, hsign⟩
  · cases p <;> simp [Ieee.Flt.div] at hq
  · cases p <;> simp [Ieee.Flt.div] at hq
  · cases p with
    | nan => simp [Ieee.Flt.lt, Ieee.Flt.zero] at hp
    | inf t =>
      simp only [Ieee.Flt.div, Ieee.Flt.fin.injEq] at hq
      rw [← hq.2]
      simp [Ieee.Flt.val]
    | fin t y =>
      simp only [Ieee.Flt.lt, Ieee.Flt.zero, decide_eq_true_eq, Ieee.Flt.val,
        Bool.false_eq_true, if_false] at hp
      have hy : y ≠ 0 := by
        intro hc
        rw [hc] at hp
        simp at hp
      simp only [Ieee.Flt.div, hy, if_false] at hq
      rcases fp_round_cases f (dn != t) (m / y) with hi | ⟨r, hr, h0, hz⟩
      · rw [hi] at hq
        simp at hq
      · rw [hr] at hq
        simp only [Ieee.Flt.fin.injEq] at hq
        rw [← hq.1, ← hq.2]
        by_cases hmy : m / y ≤ 0
        · rw [hz hmy]
          simp [Ieee.Flt.val]
        · have hmy' : 0 < m / y := not_le.mp hmy
          have hm0 : m ≠ 0 := by
            intro hc
            rw [hc] at hmy'
            simp at hmy'
          have hmpos : 0 < m := lt_of_le_of_ne hm (Ne.symm hm0)
          have hypos : 0 < y := by
            by_contra hc
            have : y < 0 := lt_of_le_of_ne (not_lt.mp hc) hy
            have := div_neg_of_pos_of_neg hmpos this
            linarith
          have hdn : dn = false := by
            rcases hsign with h1 | h1
            · exact h1
            · exact absurd h1 hm0
          have ht : t = false := by
            cases t with
            | false => rfl
            | true =>
              simp only [if_true] at hp
              linarith
          simp [Ieee.Flt.val, hdn, ht, h0]

theorem fp_ask_intstart_frame (s : Ieee.Setup) (raw : List Ieee.Fluxrec) (inp : List Line)
    (r : Ieee.Setup × List Line) (h : Ieee.ask_intstart s raw inp = some r) :
    r.1 = { s with intstart := r.1.intstart } := by
  unfold Ieee.ask_intstart at h
  split at h
  · split at h
    · cases inp with
      | nil => simp at h
      | cons line rest =>
        simp only at h
        split at h
        · simp only [Option.map_eq_some'] at h
          obtain ⟨a, _, ha⟩ := h
          rw [← ha]
        · simp only [Option.some.injEq] at h
          rw [← h]
    · simp only [Option.some.injEq] at h
      rw [← h]
  · simp only [Option.some.injEq] at h
    rw [← h]

/-- C35 (amended): when `set_grid_params` returns, with `dosmooth` SMINPLACE
`ninterp` is `nraw`; otherwise, with `intstep > 0` and the last raw day not
earlier than the start `intstart` in force, the quotient
`(lastday - intstart) / intstep` that the machine computes in `float` (the
difference and the quotient each rounded to nearest) is finite and not
negative, `ninterp` is 1 plus its integral part, `ninterp >= 1`, and
`ninterp - 1 <= quotient < ninterp`.  A start that is not below 0 on entry
is kept. -/
theorem C35_grid_size (s s' : Ieee.Setup) (raw : List Ieee.Fluxrec) (nraw : Int)
    (inp rest : List Line)
    (h : Ieee.set_grid_params s raw nraw inp = some (s', rest)) :
    (s.dosmooth = SMINPLACE → s'.ninterp = nraw) ∧
      (s.dosmooth ≠ SMINPLACE → Ieee.Flt.zero.lt s.intstep = true →
        s'.intstart.le (Ieee.raw_last_day raw nraw) = true →
        s'.intstep = s.intstep ∧
        (∃ (n : Bool) (q : ℚ), Ieee.grid_quotient s' raw nraw = .fin n q) ∧
        0 ≤ (Ieee.grid_quotient s' raw nraw).val ∧
        s'.ninterp = 1 + ⌊(Ieee.grid_quotient s' raw nraw).val⌋ ∧
        1 ≤ s'.ninterp ∧
        (s'.ninterp : ℚ) - 1 ≤ (Ieee.grid_quotient s' raw nraw).val ∧
        (Ieee.grid_quotient s' raw nraw).val < (s'.ninterp : ℚ)) ∧
      (s.intstart.lt Ieee.Flt.zero = false → s'.intstart = s.intstart) := by
  unfold Ieee.set_grid_params at h
  simp only [Option.bind_eq_some, Option.map_eq_some', Prod.mk.injEq] at h
  obtain ⟨⟨s1, r1⟩, h1, s2, h2, hs, _⟩ := h
  simp only at h2
  subst hs
  have f1 := fp_ask_intstart_frame _ _ _ _ h1
  simp only at f1
  have ed : s1.dosmooth = s.dosmooth := by rw [f1]
  have es : s1.intstep = s.intstep := by rw [f1]
  refine ⟨?_, ?_, ?_⟩
  · intro hd
    have hd1 : s1.dosmooth = SMINPLACE := by rw [ed]; exact hd
    simp only [Ieee.grid_count, hd1, if_true, Option.some.injEq] at h2
    rw [← h2]
  · intro hd hpos hle
    have hd1 : s1.dosmooth ≠ SMINPLACE := by rw [ed]; exact hd
    have hpos1 : Ieee.Flt.zero.lt s1.intstep = true := by rw [es]; exact hpos
    simp only [Ieee.grid_count, hd1, if_false, hpos1, if_true, Option.map_eq_some',
      Option.bind_eq_some] at h2
    obtain ⟨n, ⟨t, ht, hn⟩, h2⟩ := h2
    have ei : s2.intstart = s1.intstart := by rw [← h2]
    have ep : s2.intstep = s1.intstep := by rw [← h2]
    have en : s2.ninterp = n := by rw [← h2]
    have eq : Ieee.grid_quotient s2 raw nraw = Ieee.grid_quotient s1 raw nraw := by
      simp only [Ieee.grid_quotient, ei, ep]
    rw [ei] at hle
    rw [eq, en, ep, es]
    have hsub := fp_sub_of_le Ieee.binary32 (Ieee.raw_last_day raw nraw) s1.intstart hle
    cases hQ : Ieee.grid_quotient s1 raw nraw with
    | nan => rw [hQ] at ht; simp [Ieee.Flt.to_int] at ht
    | inf b => rw [hQ] at ht; simp [Ieee.Flt.to_int] at ht
    | fin b q =>
      have hv : 0 ≤ (Ieee.Flt.fin b q).val :=
        fp_div_nonneg Ieee.binary32 _ _ hpos1 hsub b q hQ
      rw [hQ] at ht
      simp only [Ieee.Flt.to_int, hv, if_true] at ht
      split at ht
      · rename_i hr
        simp only [Option.some.injEq] at ht
        unfold Ieee.int_add at hn
        split at hn
        · simp only [Option.some.injEq] at hn
          have hfl : 0 ≤ ⌊(Ieee.Flt.fin b q).val⌋ := Int.floor_nonneg.mpr hv
          have h1' := Int.floor_le (Ieee.Flt.fin b q).val
          have h2' := Int.lt_floor_add_one (Ieee.Flt.fin b q).val
          refine ⟨rfl, ⟨b, q, rfl⟩, hv, ?_, ?_, ?_, ?_⟩
          · rw [← hn, ← ht]
          · rw [← hn, ← ht]; omega
          · rw [← hn, ← ht]; push_cast; linarith
          · rw [← hn, ← ht]; push_cast; linarith
        · simp at hn
      · simp at ht
  · intro h0
    have : s1.intstart = s.intstart := by
      simp only [Ieee.ask_intstart, h0, Bool.false_eq_true, if_false, Option.some.injEq,
        Prod.mk.injEq] at h1
      rw [← h1.1]
    rw [← this]
    unfold Ieee.grid_count at h2
    split at h2
    · simp only [Option.some.injEq] at h2
      rw [← h2]
    · split at h2
      · simp only [Option.map_eq_some'] at h2
        obtain ⟨a, _, ha⟩ := h2
        rw [← ha]
      · simp only [Option.some.injEq] at h2
        rw [← h2]

/-- Witness of C35: a curve from day 0 to day 10, the step 0.5, the operator
accepts the first day as start: the quotient is 20 and `ninterp` is 21. -/
theorem C35_witness :
    (Ieee.set_grid_params (Ieee.grid_setup "0.5") (Ieee.two_day_curve "0" "10") 2
        [empty_line]).map (fun r => (r.1.intstart, r.1.ninterp, r.2))
        = some (Ieee.Flt.zero, 21, []) ∧
      Ieee.grid_quotient
          { Ieee.grid_setup "0.5" with intstart := Ieee.Flt.zero, ninterp := 21 }
          (Ieee.two_day_curve "0" "10") 2 = Ieee.Flt.fin false 20 ∧
      ((21 : Int) = 1 + ⌊(Ieee.grid_quotient
          { Ieee.grid_setup "0.5" with intstart := Ieee.Flt.zero, ninterp := 21 }
          (Ieee.two_day_curve "0" "10") 2).val⌋) :=
  ⟨by decide!, by decide!,
    ((C35_grid_size (Ieee.grid_setup "0.5")
      { Ieee.grid_setup "0.5" with intstart := Ieee.Flt.zero, ninterp := 21 }
      (Ieee.two_day_curve "0" "10") 2 [empty_line] [] (by decide!)).2.1
      (by decide) (by decide!) (by decide!)).2.2.2.1⟩

/-- C35 (counterexample): a curve from day 0 to day 2.1, the step 0.7 of the
file, the operator accepts the first day as start; `dosmooth` is not
SMINPLACE, `intstep > 0` and the last day is not earlier than the start.  The
`float` quotient 2.1f / 0.7f rounds to 3, so `ninterp` is 4, and the last
point of the grid, `intstart + 3 * intstep`, lies after the last day: the
`float` nearest to 0.7, taken three times, is above the `float` nearest to
2.1. -/
theorem C35_counterexample :
    (Ieee.grid_setup "0.7").dosmooth ≠ SMINPLACE ∧
      Ieee.Flt.zero.lt (Ieee.grid_setup "0.7").intstep = true ∧
      (Ieee.set_grid_params (Ieee.grid_setup "0.7") (Ieee.two_day_curve "0" "2.1") 2
        [empty_line]).map (fun r => (r.1.intstart, r.1.intstep, r.1.ninterp, r.2))
        = some (Ieee.Flt.zero, Ieee.literal Ieee.binary32 "0.7", 4, []) ∧
      Ieee.Flt.zero.le (Ieee.raw_last_day (Ieee.two_day_curve "0" "2.1") 2) = true ∧
      ¬ ((0 : ℚ) + ((4 : ℚ) - 1) * (Ieee.literal Ieee.binary32 "0.7").val
          ≤ (Ieee.raw_last_day (Ieee.two_day_curve "0" "2.1") 2).val) :=
  ⟨by decide, by decide!, by decide!, by decide!, by decide!⟩

end LcSetup
